import Mathlib

/-!
# ss_machmos gateway: pairing, capacity validation and telemetry delivery

A shallow embedding of the Go sources

* `internal/model/server/pairing.go`  (pairing state machine),
* `server/internal/model/sensor.go`   (sensor registry, capacity validator),
* `internal/model/server/server.go`   (telemetry decoder, `handleData`),
* `server/internal/server/measurements.go` (backlog persistence, temperature branch),

followed by theorems about them.

Conventions.
* A Go `byte` is a `Nat`; a `[]byte` or `[n]byte` is a `List Nat`.
* Go `int` is 64 bit on every platform the sources compile for (the literal
  `4294967295` is compared with an `int`), and is modelled by `Int`; no
  arithmetic of the modelled functions leaves the 64-bit range for field values
  inside their declared `uint32` / `uint16` ranges.
* A Go `map` is an association list read with `mapGet`, written with `mapSet`
  and `mapDelete`; a map variable that may be nil is an `Option` of one, read
  with `nilMapGet` and `nilMapDelete`.
* A run-time panic is the result `none`.
* A `float64` operation is the exact rational operation followed by `roundFloat64`.
* Handlers and timer goroutines are modelled as atomic steps.
-/

set_option maxRecDepth 100000

namespace SsMachMos

/-! ## Go maps as association lists -/

/-- Go `m[k]` with presence flag: the value bound to `k`, if any. -/
def mapGet {κ ν : Type} [DecidableEq κ] : List (κ × ν) → κ → Option ν
  | [], _ => none
  | (k', v) :: m, k => if k' = k then some v else mapGet m k

/-- Go `delete(m, k)`. -/
def mapDelete {κ ν : Type} [DecidableEq κ] : List (κ × ν) → κ → List (κ × ν)
  | [], _ => []
  | (k', v) :: m, k => if k' = k then mapDelete m k else (k', v) :: mapDelete m k

/-- Go `m[k] = v`: overwrite the binding of `k`, or add one. -/
def mapSet {κ ν : Type} [DecidableEq κ] : List (κ × ν) → κ → ν → List (κ × ν)
  | [], k, v => [(k, v)]
  | (k', v') :: m, k, v => if k' = k then (k, v) :: m else (k', v') :: mapSet m k v

/-! ## Data model (`sensor.go`) -/

/-- A `[6]byte` hardware address. -/
abbrev MacAddress := List Nat

/-- The zero value `[6]byte{}`. -/
def zeroMac : MacAddress := [0, 0, 0, 0, 0, 0]

/-- Go `rsa.PublicKey`: modulus and public exponent. -/
structure RsaPublicKey where
  N : Nat
  E : Int
deriving DecidableEq, Repr

/-- Go `bluetooth.UUID`, a `[4]uint32`. -/
abbrev UUID := List Nat

/-- Go `DATA_SIZE`: bytes per sample; a key that is not in the map reads 0. -/
def DATA_SIZE (dataType : String) : Int :=
  if dataType = "temperature" then 2
  else if dataType = "audio" then 2
  else if dataType = "vibration" then 4 * 3
  else 0

/-- Go `settings`; `SamplingFrequency` is a `uint32`, `SamplingDuration` a `uint16`. -/
structure settings where
  Active : Bool
  SamplingFrequency : Nat
  SamplingDuration : Nat
deriving DecidableEq, Repr

/-- Go `Sensor`. `NextWakeUp` is a time in seconds. -/
structure Sensor where
  Mac : MacAddress
  Name : String
  Types : List String
  BatteryLevel : Int
  CollectionCapacity : Nat
  WakeUpInterval : Int
  WakeUpIntervalMaxOffset : Int
  NextWakeUp : Int
  Settings : List (String × settings)
  PublicKey : RsaPublicKey
deriving DecidableEq, Repr

/-- One upper-case hexadecimal digit. -/
def hexDigit (n : Nat) : Char :=
  ['0', '1', '2', '3', '4', '5', '6', '7', '8', '9', 'A', 'B', 'C', 'D', 'E', 'F'].getD n '?'

/-- Go `%02X` of a byte. -/
def hexByte (b : Nat) : List Char := [hexDigit (b / 16 % 16), hexDigit (b % 16)]

/-- Go `MacToString`: `%02X:%02X:%02X:%02X:%02X:%02X`. -/
def MacToString (mac : MacAddress) : String :=
  String.mk (hexByte (mac.getD 0 0) ++ [':'] ++ hexByte (mac.getD 1 0) ++ [':'] ++
    hexByte (mac.getD 2 0) ++ [':'] ++ hexByte (mac.getD 3 0) ++ [':'] ++
    hexByte (mac.getD 4 0) ++ [':'] ++ hexByte (mac.getD 5 0))

/-- The loop body of `getDefaultSensor`: the default setting of one declared type. -/
def defaultSettingsStep (acc : List (String × settings)) (t : String) : List (String × settings) :=
  if t = "vibration" then
    mapSet acc "vibration" { Active := true, SamplingFrequency := 100, SamplingDuration := 1 }
  else if t = "temperature" then
    mapSet acc "temperature" { Active := true, SamplingFrequency := 0, SamplingDuration := 0 }
  else if t = "audio" then
    mapSet acc "audio" { Active := true, SamplingFrequency := 8000, SamplingDuration := 1 }
  else acc

/-- Go `getDefaultSensor`; `now` is `time.Now()` in seconds. -/
def getDefaultSensor (now : Int) (mac : MacAddress) (types : List String)
    (collectionCapacity : Nat) (publicKey : RsaPublicKey) : Sensor :=
  { Mac := mac
    Name := "Sensor " ++ MacToString mac
    Types := types
    BatteryLevel := -1
    CollectionCapacity := collectionCapacity
    WakeUpInterval := 3600
    WakeUpIntervalMaxOffset := 300
    NextWakeUp := now + 3600
    Settings := types.foldl defaultSettingsStep []
    PublicKey := publicKey }

/-- Go `AddSensor` on a non-nil registry: the in-memory effect. The public key
is passed by pointer and dereferenced by `getDefaultSensor`, so a nil key
panics. The result of `saveSensors` does not change the registry in memory. -/
def AddSensor (now : Int) (mac : MacAddress) (types : List String) (collectionCapacity : Nat)
    (publicKey : Option RsaPublicKey) (sensors : List Sensor) : Option (List Sensor) :=
  match publicKey with
  | none => none
  | some key => some (sensors ++ [getDefaultSensor now mac types collectionCapacity key])

/-- Go `RemoveSensor` on a non-nil registry: drop the first sensor with this address. -/
def RemoveSensor (mac : MacAddress) : List Sensor → List Sensor
  | [] => []
  | s :: rest => if s.Mac = mac then rest else s :: RemoveSensor mac rest

/-! ## Settings updates and the capacity validator (`sensor.go`) -/

/-- The errors of `UpdateSensorSetting` and `isExceedingCollectionCapacity`, one
constructor per message:
* `sensorNotFound`: "sensor not found";
* `notAnInteger s`: "invalid value for s setting (must be an integer ...)";
* `outOfRange s`: "invalid value for s setting (must an integer between ...)";
* `invalidSettingFormat`: "invalid setting format";
* `invalidDataType`: "invalid setting data type";
* `unknownSetting s`: "setting s doesn't exist";
* `zeroFactor`: "sampling_duration and sampling_frequency must be greater than 0";
* `exceedsCapacity s max`: "invalid value for s setting (exceeds collection
  capacity of sensor (current maximum: max))";
* `saveFailed`: an error returned by `saveSensors`. -/
inductive Err where
  | sensorNotFound
  | notAnInteger (setting : String)
  | outOfRange (setting : String)
  | invalidSettingFormat
  | invalidDataType
  | unknownSetting (setting : String)
  | zeroFactor
  | exceedsCapacity (setting : String) (max : Int)
  | saveFailed
deriving DecidableEq, Repr

/-- The value of a decimal digit. -/
def digitVal (c : Char) : Option Nat :=
  if '0' ≤ c ∧ c ≤ '9' then some (c.toNat - '0'.toNat) else none

/-- Read a string of decimal digits, most significant first. -/
def parseDigits : List Char → Nat → Option Nat
  | [], acc => some acc
  | c :: cs, acc =>
    match digitVal c with
    | none => none
    | some d => parseDigits cs (acc * 10 + d)

/-- Go `strconv.Atoi`: an optional sign, then one or more decimal digits, the
value inside the 64-bit `int` range; `none` is a non-nil error. -/
def Atoi (s : String) : Option Int :=
  let body : Bool × List Char :=
    match s.data with
    | '-' :: rest => (true, rest)
    | '+' :: rest => (false, rest)
    | cs => (false, cs)
  if body.2 = [] then none
  else
    match parseDigits body.2 0 with
    | none => none
    | some n =>
      let v : Int := if body.1 then -(n : Int) else (n : Int)
      if -(2 : Int) ^ 63 ≤ v ∧ v ≤ (2 : Int) ^ 63 - 1 then some v else none

/-- Go `strings.Split(s, "_")` on the characters of `s`. -/
def splitUnderscore : List Char → List (List Char)
  | [] => [[]]
  | c :: cs =>
    if c = '_' then [] :: splitUnderscore cs
    else
      match splitUnderscore cs with
      | [] => [[c]]
      | part :: parts => (c :: part) :: parts

/-- Go `strings.Join(parts, "_")`. -/
def joinUnderscore : List (List Char) → List Char
  | [] => []
  | [part] => part
  | part :: rest => part ++ '_' :: joinUnderscore rest

/-- One iteration of the loop of `getCollectionSize`. -/
def collectionSizeStep (result : Int) (entry : String × settings) : Int :=
  if entry.1 = "temperature" then result + DATA_SIZE "temperature"
  else result + (entry.2.SamplingFrequency : Int) * (entry.2.SamplingDuration : Int) * DATA_SIZE entry.1

/-- Go `getCollectionSize`. -/
def getCollectionSize (sensor : Sensor) : Int :=
  sensor.Settings.foldl collectionSizeStep 0

/-- Go `sensor.Settings[dataType]`: the zero value for an absent key. -/
def settingsOf (sensor : Sensor) (dataType : String) : settings :=
  (mapGet sensor.Settings dataType).getD
    { Active := false, SamplingFrequency := 0, SamplingDuration := 0 }

/-- Go `isExceedingCollectionCapacity`. The outer `none` is the integer-divide
panic of a zero divisor; `some none` is the `nil` error. Go `/` on `int`
truncates toward zero (`Int.tdiv`). -/
def isExceedingCollectionCapacity (sensor : Sensor) (setting : String) (value : Int)
    (dataType : String) : Option (Option Err) :=
  if dataType = "temperature" then some none
  else
    let st := settingsOf sensor dataType
    if st.SamplingDuration = 0 ∨ st.SamplingFrequency = 0 then some (some .zeroFactor)
    else
      let sizeOfData := DATA_SIZE dataType
      let thisFactor : Int :=
        if setting = "sampling_frequency" then st.SamplingFrequency else st.SamplingDuration
      let otherFactor : Int :=
        if setting = "sampling_frequency" then st.SamplingDuration else st.SamplingFrequency
      if sizeOfData * otherFactor = 0 then none
      else
        let max :=
          Int.tdiv ((sensor.CollectionCapacity : Int) - getCollectionSize sensor)
            (sizeOfData * otherFactor) + thisFactor
        if value > max then some (some (.exceedsCapacity setting max)) else some none

/-- The `switch setting` statement of `UpdateSensorSetting`, for a setting of the
data type `dataType`: the error returned before anything is written, or the
sensor as written. The outer `none` is a panic. -/
def updateTypeSetting (sensor : Sensor) (dataType setting value : String) :
    Option (Except Err Sensor) :=
  if setting = "active" then
    let st := settingsOf sensor dataType
    some (.ok { sensor with
      Settings := mapSet sensor.Settings dataType { st with Active := decide (value = "true") } })
  else if setting = "sampling_frequency" then
    match Atoi value with
    | none => some (.error (.notAnInteger "sampling_frequency"))
    | some intValue =>
      if intValue < 0 ∨ intValue > 4294967295 then
        some (.error (.outOfRange "sampling_frequency"))
      else
        match isExceedingCollectionCapacity sensor "sampling_frequency" intValue dataType with
        | none => none
        | some (some err) => some (.error err)
        | some none =>
          let st := settingsOf sensor dataType
          some (.ok { sensor with
            Settings := mapSet sensor.Settings dataType
              { st with SamplingFrequency := intValue.toNat } })
  else if setting = "sampling_duration" then
    match Atoi value with
    | none => some (.error (.notAnInteger "sampling_duration"))
    | some intValue =>
      if intValue < 0 ∨ intValue > 65535 then
        some (.error (.outOfRange "sampling_duration"))
      else
        match isExceedingCollectionCapacity sensor "sampling_duration" intValue dataType with
        | none => none
        | some (some err) => some (.error err)
        | some none =>
          let st := settingsOf sensor dataType
          some (.ok { sensor with
            Settings := mapSet sensor.Settings dataType
              { st with SamplingDuration := intValue.toNat } })
  else some (.error (.unknownSetting setting))

/-- The `wake_up_interval` block of `UpdateSensorSetting`. -/
def setWakeUpInterval (sensor : Sensor) (value : String) : Except Err Sensor :=
  match Atoi value with
  | none => .error (.notAnInteger "wake_up_interval")
  | some intValue =>
    if intValue < sensor.WakeUpIntervalMaxOffset ∨ intValue > 4294967 then
      .error (.outOfRange "wake_up_interval")
    else .ok { sensor with WakeUpInterval := intValue }

/-- The `wake_up_interval_max_offset` block of `UpdateSensorSetting`. -/
def setWakeUpIntervalMaxOffset (sensor : Sensor) (value : String) : Except Err Sensor :=
  match Atoi value with
  | none => .error (.notAnInteger "wake_up_interval_max_offset")
  | some intValue =>
    if intValue < 0 ∨ intValue ≥ sensor.WakeUpInterval then
      .error (.outOfRange "wake_up_interval_max_offset")
    else .ok { sensor with WakeUpIntervalMaxOffset := intValue }

/-- The body of `UpdateSensorSetting` between the registry lookup and the final
`saveSensors`, on the sensor found: the error returned before anything is
written, or the sensor as written. The outer `none` is a panic. -/
def updateSensor (now : Int) (sensor : Sensor) (setting value : String) :
    Option (Except Err Sensor) :=
  if setting = "auto" then
    some (.ok (getDefaultSensor now sensor.Mac sensor.Types sensor.CollectionCapacity
      sensor.PublicKey))
  else if setting = "name" then some (.ok { sensor with Name := value })
  else if setting = "wake_up_interval" then some (setWakeUpInterval sensor value)
  else if setting = "wake_up_interval_max_offset" then some (setWakeUpIntervalMaxOffset sensor value)
  else
    let settingParts := splitUnderscore setting.data
    if settingParts.length < 2 then some (.error .invalidSettingFormat)
    else
      let dataType := String.mk (settingParts.headD [])
      if dataType ≠ "vibration" ∧ dataType ≠ "temperature" ∧ dataType ≠ "audio" then
        some (.error .invalidDataType)
      else updateTypeSetting sensor dataType (String.mk (joinUnderscore settingParts.tail)) value

/-- The lookup loop of `UpdateSensorSetting`: the index of the first sensor with this address. -/
def findSensor (mac : MacAddress) : List Sensor → Option Nat
  | [] => none
  | s :: rest => if s.Mac = mac then some 0 else (findSensor mac rest).map (· + 1)

/-- Go `UpdateSensorSetting` on a non-nil registry: the error returned (`none`
for `nil`) and the registry afterwards. `save` is the outcome of
`saveSensors` on the written registry; the outer `none` is a panic. -/
def UpdateSensorSetting (now : Int) (save : List Sensor → Option Err) (mac : MacAddress)
    (setting value : String) (sensors : List Sensor) : Option (Option Err × List Sensor) :=
  match findSensor mac sensors with
  | none => some (some .sensorNotFound, sensors)
  | some i =>
    match sensors.get? i with
    | none => some (some .sensorNotFound, sensors)
    | some sensor =>
      match updateSensor now sensor setting value with
      | none => none
      | some (.error err) => some (some err, sensors)
      | some (.ok sensor') => some (save (sensors.set i sensor'), sensors.set i sensor')

/-- The part of the collection size that comes from the entries of the other types. -/
def otherTypesSize (sensor : Sensor) (dataType : String) : Int :=
  getCollectionSize { sensor with Settings := mapDelete sensor.Settings dataType }

/-- The size that the spec describes: only the types whose setting is active count. -/
def activeCollectionSize (sensor : Sensor) : Int :=
  ((sensor.Settings.filter (fun e => e.2.Active)).map (fun e =>
    if e.1 = "temperature" then (2 : Int)
    else (e.2.SamplingFrequency : Int) * (e.2.SamplingDuration : Int) *
      (if e.1 = "vibration" then 12 else if e.1 = "audio" then 2 else 0))).sum

/-- The size of one settings entry, whatever its `Active` flag. -/
def entrySize (e : String × settings) : Int :=
  if e.1 = "temperature" then 2
  else (e.2.SamplingFrequency : Int) * (e.2.SamplingDuration : Int) *
    (if e.1 = "vibration" then 12 else if e.1 = "audio" then 2 else 0)

/-- The collection size of the defaults of `getDefaultSensor` for the declared types. -/
def defaultSize (types : List String) : Int :=
  (if "vibration" ∈ types then 1200 else 0) + (if "audio" ∈ types then 16000 else 0) +
    (if "temperature" ∈ types then 2 else 0)

/-- The entries of `acc` under the three known keys are the defaults, and the size of
`acc` is the sum of the default sizes of the keys present. -/
def defaultsOnly (acc : List (String × settings)) : Prop :=
  (∀ v, mapGet acc "vibration" = some v →
    v = { Active := true, SamplingFrequency := 100, SamplingDuration := 1 }) ∧
  (∀ v, mapGet acc "temperature" = some v →
    v = { Active := true, SamplingFrequency := 0, SamplingDuration := 0 }) ∧
  (∀ v, mapGet acc "audio" = some v →
    v = { Active := true, SamplingFrequency := 8000, SamplingDuration := 1 }) ∧
  (acc.map entrySize).sum
    = (if (mapGet acc "vibration").isSome then 1200 else 0)
      + (if (mapGet acc "audio").isSome then 16000 else 0)
      + (if (mapGet acc "temperature").isSome then 2 else 0)

/-- The first sensor of the registry with this address: the one `UpdateSensorSetting`
works on. -/
def lookupSensor (mac : MacAddress) : List Sensor → Option Sensor
  | [] => none
  | s :: rest => if s.Mac = mac then some s else lookupSensor mac rest

/-- The data type a setting name addresses: what precedes the first underscore. -/
def settingDataType (setting : String) : String :=
  String.mk ((splitUnderscore setting.data).headD [])

/-! ## Telemetry decoder and delivery (`server.go`, `measurements.go`) -/

/-- Go `DATA_TYPES`; a code that is not in the map reads the empty string. -/
def DATA_TYPES (code : Nat) : String :=
  if code = 0x00 then "vibration"
  else if code = 0x01 then "audio"
  else if code = 0x02 then "temperature"
  else if code = 0x03 then "battery"
  else ""

/-- The `raw_data` of a record: `float32` samples, each given by its bit pattern, or
the payload bytes. -/
inductive RawData where
  | floats (bits : List Nat)
  | bytes (payload : List Nat)
deriving DecidableEq, Repr

/-- One element of `measurements`: the keys of the Go map literal; `axis` is
absent outside vibration. -/
structure Measurement where
  sensor_id : String
  time : Int
  measurement_type : String
  sampling_frequency : Nat
  axis : Option String
  raw_data : RawData
deriving DecidableEq, Repr

/-- Go `data[i]`; `none` is the index-out-of-range panic. -/
def byteAt (data : List Nat) (i : Nat) : Option Nat := data.get? i

/-- The argument of `math.Float32frombits` in the vibration loop: the four bytes
from `off` on, combined as `uint32` with shifts and bitwise or. -/
def word32 (data : List Nat) (off : Nat) : Option Nat :=
  match byteAt data off, byteAt data (off + 1), byteAt data (off + 2), byteAt data (off + 3) with
  | some b0, some b1, some b2, some b3 =>
    some ((b0 % 2 ^ 32) ||| (((b1 % 2 ^ 32) <<< 8) % 2 ^ 32) |||
      (((b2 % 2 ^ 32) <<< 16) % 2 ^ 32) ||| (((b3 % 2 ^ 32) <<< 24) % 2 ^ 32))
  | _, _, _, _ => none

/-- The vibration loop of `handleData`: `count` iterations from index `i` on, giving
the x, y and z samples. -/
def vibrationLoop (data : List Nat) : Nat → Nat → Option (List Nat × List Nat × List Nat)
  | 0, _ => some ([], [], [])
  | count + 1, i =>
    match word32 data (8 + i * 12), word32 data (12 + i * 12), word32 data (16 + i * 12),
        vibrationLoop data count (i + 1) with
    | some x, some y, some z, some (xs, ys, zs) => some (x :: xs, y :: ys, z :: zs)
    | _, _, _, _ => none

/-- Lines 125 to 177 of `handleData`: the records built from the data segment of an
authenticated frame. `none` is a panic. -/
def buildMeasurements (sensor : Sensor) (timestamp : Int) (data : List Nat) :
    Option (List Measurement) :=
  match byteAt data 6, byteAt data 7 with
  | some code, some samplingFrequency =>
    let dataType := DATA_TYPES code
    if dataType = "vibration" then
      let numberOfMeasurements := (data.length - 8) / 12
      match vibrationLoop data numberOfMeasurements 0 with
      | none => none
      | some (x, y, z) =>
        some [
          { sensor_id := sensor.Name, time := timestamp, measurement_type := dataType,
            sampling_frequency := samplingFrequency, axis := some "x", raw_data := .floats x },
          { sensor_id := sensor.Name, time := timestamp, measurement_type := dataType,
            sampling_frequency := samplingFrequency, axis := some "y", raw_data := .floats y },
          { sensor_id := sensor.Name, time := timestamp, measurement_type := dataType,
            sampling_frequency := samplingFrequency, axis := some "z", raw_data := .floats z }]
    else
      some [
        { sensor_id := sensor.Name, time := timestamp, measurement_type := dataType,
          sampling_frequency := samplingFrequency, axis := none,
          raw_data := .bytes (data.drop 8) }]
  | _, _ => none

/-- What `http.Post` gives back: a non-nil error, or a response with its
`StatusCode` and `ContentLength`. -/
inductive PostResult where
  | err
  | response (statusCode : Int) (contentLength : Int)
deriving DecidableEq, Repr

/-- What `handleData` depends on and is not part of the sources at hand or is
library or run-time behaviour: `verifySignature` of package `server`,
`json.Marshal` on the records (the empty slice when it fails, its error being
dropped), the request body that `sendMeasurements` builds from the gateway
and the serialized batch (`none` when building it fails, in which case
`sendMeasurements` returns an error without posting), and `maxAlloc`, the
largest `n` for which `make([]byte, n)` returns: above it, as below 0, `make`
panics with `len out of range` (the limit is 2^48 on 64-bit Linux). -/
structure ServerFns (Gateway : Type) where
  verifySignature : List Nat → List Nat → RsaPublicKey → Bool
  marshal : List Measurement → List Nat
  requestBody : Gateway → List Nat → Option (List Nat)
  maxAlloc : Int

/-- What delivery reads and writes: the files of `unsent_data/`, by the timestamp
in their name, and the request bodies posted so far, oldest first. File
operations are taken to succeed. -/
structure Delivery where
  backlog : List (Int × List Nat)
  posted : List (List Nat)
deriving DecidableEq, Repr

/-- Go `sendMeasurements`. The backend is a function of the number of requests it has
received so far. -/
def sendMeasurements {G : Type} (f : ServerFns G) (backend : Nat → PostResult) (gateway : G)
    (jsonData : List Nat) (d : Delivery) : PostResult × Delivery :=
  match f.requestBody gateway jsonData with
  | none => (.err, d)
  | some body => (backend d.posted.length, { d with posted := d.posted ++ [body] })

/-- Go `saveUnsentMeasurements`: write the file named by the timestamp. -/
def saveUnsentMeasurements (data : List Nat) (timestamp : Int) (d : Delivery) : Delivery :=
  { d with backlog := mapSet d.backlog timestamp data }

/-- The name of the file of a batch. -/
def fileName (timestamp : Int) : List Char := (toString timestamp ++ ".json").data

/-- Insert a timestamp into a list ordered by file name. -/
def insertByName (t : Int) : List Int → List Int
  | [] => [t]
  | u :: rest => if fileName t < fileName u then t :: u :: rest else u :: insertByName t rest

/-- Go `os.ReadDir` on `unsent_data/`: the entries, sorted by file name. -/
def readDir (backlog : List (Int × List Nat)) : List Int :=
  (backlog.map Prod.fst).foldr insertByName []

/-- One iteration of the loop of `sendUnsentMeasurements`. -/
def resendStep {G : Type} (f : ServerFns G) (backend : Nat → PostResult) (gateway : G)
    (d : Delivery) (file : Int) : Delivery :=
  match mapGet d.backlog file with
  | none => d
  | some data =>
    match sendMeasurements f backend gateway data d with
    | (.err, d') => d'
    | (.response statusCode _, d') =>
      if statusCode = 200 then { d' with backlog := mapDelete d'.backlog file } else d'

/-- Go `sendUnsentMeasurements`. -/
def sendUnsentMeasurements {G : Type} (f : ServerFns G) (backend : Nat → PostResult)
    (gateway : G) (d : Delivery) : Delivery :=
  (readDir d.backlog).foldl (resendStep f backend gateway) d

/-- Lines 180 to 200 of `handleData`: post the batch; on failure store it and stop;
on success resend the backlog. `none` is the panic of
`make([]byte, resp.ContentLength)` for a length that is negative or above the
allocation limit. -/
def deliver {G : Type} (f : ServerFns G) (backend : Nat → PostResult) (gateway : G)
    (jsonData : List Nat) (timestamp : Int) (d : Delivery) : Option Delivery :=
  match sendMeasurements f backend gateway jsonData d with
  | (.err, d') => some (saveUnsentMeasurements jsonData timestamp d')
  | (.response statusCode contentLength, d') =>
    if statusCode ≠ 200 then
      if contentLength < 0 ∨ f.maxAlloc < contentLength then none
      else some (saveUnsentMeasurements jsonData timestamp d')
    else some (sendUnsentMeasurements f backend gateway d')

/-- The result of one `handleData` call: the records it built and the delivery state
it left. -/
structure Handled where
  records : List Measurement
  delivery : Delivery
deriving DecidableEq, Repr

/-- Go `handleData`; `timestamp` is `time.Now().Unix()`. `none` is a panic. -/
def handleData {G : Type} (f : ServerFns G) (backend : Nat → PostResult) (gateway : G)
    (timestamp : Int) (value : List Nat) (sensors : List Sensor) (d : Delivery) :
    Option Handled :=
  if value.length < 264 then some { records := [], delivery := d }
  else
    let data := value.take (value.length - 256)
    let signature := value.drop (value.length - 256)
    let macAddress := data.take 6
    match lookupSensor macAddress sensors with
    | none => some { records := [], delivery := d }
    | some sensor =>
      if f.verifySignature data signature sensor.PublicKey = false then
        some { records := [], delivery := d }
      else
        match buildMeasurements sensor timestamp data with
        | none => none
        | some measurements =>
          match deliver f backend gateway (f.marshal measurements) timestamp d with
          | none => none
          | some d' => some { records := measurements, delivery := d' }

/-! ## Pairing state machine (`pairing.go`) -/

/-- Functions of package `model` that `pairing.go` calls and whose bodies are
not part of the sources at hand. `ParsePublicKey` returns `none` for a non-nil
error; `GetDataCharUUID` returns the identifier and whether `err != nil`;
`VerifySignature` receives the key pointer, `none` being nil. -/
structure ModelFns (Gateway : Type) where
  ParsePublicKey : List Nat → Option RsaPublicKey
  VerifySignature : List Nat → List Nat → Option RsaPublicKey → Bool
  BytesToUuid : List Nat → UUID
  UuidToBytes : UUID → List Nat
  GetDataCharUUID : Gateway → UUID × Bool

/-- Go `m[k]` with presence flag on a map that may be nil (`none`): a nil map
reads like an empty one. -/
def nilMapGet {κ ν : Type} [DecidableEq κ] (m : Option (List (κ × ν))) (k : κ) : Option ν :=
  match m with
  | none => none
  | some entries => mapGet entries k

/-- Go `delete(m, k)` on a map that may be nil: a no-op on a nil map. -/
def nilMapDelete {κ ν : Type} [DecidableEq κ] (m : Option (List (κ × ν))) (k : κ) :
    Option (List (κ × ν)) :=
  match m with
  | none => none
  | some entries => some (mapDelete entries k)

/-- Go `PairingState`. `pairing` is the offer slot, `[6]byte{}` when empty.
`requested` is a Go map value: `none` is the nil map, which reads as empty,
ignores `delete` and panics on a write; `some entries` is an allocated map. -/
structure PairingState where
  active : Bool
  requested : Option (List (MacAddress × RsaPublicKey))
  pairing : MacAddress
deriving DecidableEq, Repr

/-- The package-level variables the pairing handlers read and write: `pairingState`,
the value last written to `pairResponseCharacteristic`, and the registry `*sensors`. -/
structure Server where
  pairingState : PairingState
  pairResponseCharacteristic : List Nat
  sensors : List Sensor
deriving DecidableEq, Repr

/-- The state at start-up. `var pairingState PairingState` is the zero value:
pairing off, the request map nil (no statement of the sources allocates it), the
offer slot `[6]byte{}`. Nothing has been written to the response characteristic. -/
def Server.init (sensors : List Sensor) : Server :=
  { pairingState := { active := false, requested := none, pairing := zeroMac }
    pairResponseCharacteristic := []
    sensors := sensors }

/-- Go `EnablePairing`. -/
def EnablePairing (s : Server) : Server :=
  { s with pairingState := { s.pairingState with active := true } }

/-- Go `DisablePairing`. -/
def DisablePairing (s : Server) : Server :=
  { s with pairingState := { s.pairingState with active := false } }

/-- Go `pairRequest`, up to the point where the timer goroutine is started. The
assignment `pairingState.requested[mac] = publicKey` panics when the map is nil. -/
def pairRequest {G : Type} (m : ModelFns G) (value : List Nat) (s : Server) : Option Server :=
  if value.length < 6 ∨ s.pairingState.active = false then some s
  else
    let mac := value.take 6
    match m.ParsePublicKey (value.drop 6) with
    | none => some s
    | some publicKey =>
      if (nilMapGet s.pairingState.requested mac).isSome then some s
      else
        match s.pairingState.requested with
        | none => none
        | some entries =>
          some { s with pairingState :=
                   { s.pairingState with requested := some (mapSet entries mac publicKey) } }

/-- The goroutine started by `pairRequest` for `mac`, when its sleep ends. -/
def requestTimeout (mac : MacAddress) (s : Server) : Server :=
  if (nilMapGet s.pairingState.requested mac).isSome ∧ s.pairingState.pairing ≠ mac then
    { s with pairingState :=
        { s.pairingState with requested := nilMapDelete s.pairingState.requested mac } }
  else s

/-- What the 3-argument call `model.AddSensor(mac, key, sensors)` of
`pairing.go` leaves to the callee: the declared types and capacity of the new
sensor and the clock. -/
structure Enrollment where
  types : List String
  collectionCapacity : Nat
  now : Int

/-- Go `pairConfirmation`. -/
def pairConfirmation {G : Type} (m : ModelFns G) (gateway : G) (en : Enrollment)
    (value : List Nat) (s : Server) : Option Server :=
  if value.length ≠ 278 ∨ s.pairingState.active = false then some s
  else
    let data := value.take 22
    let mac := data.take 6
    let uuid := m.BytesToUuid (data.drop 6)
    let signature := value.drop (value.length - 256)
    let (dataCharUUID, err) := m.GetDataCharUUID gateway
    if err = true ∨ s.pairingState.pairing ≠ mac ∨ dataCharUUID ≠ uuid ∨
        m.VerifySignature data signature (nilMapGet s.pairingState.requested mac) = false then
      some s
    else
      match AddSensor en.now mac en.types en.collectionCapacity
          (nilMapGet s.pairingState.requested mac) s.sensors with
      | none => none
      | some sensors =>
        some { pairingState :=
                 { s.pairingState with
                   pairing := zeroMac
                   requested := nilMapDelete s.pairingState.requested mac }
               pairResponseCharacteristic := []
               sensors := sensors }

/-- Go `Pair`, up to the point where the timer goroutine is started. -/
def Pair {G : Type} (m : ModelFns G) (gateway : G) (mac : MacAddress) (s : Server) : Server :=
  if s.pairingState.active = false then s
  else if (nilMapGet s.pairingState.requested mac).isNone then s
  else
    { s with
      pairingState := { s.pairingState with pairing := mac }
      pairResponseCharacteristic := mac ++ m.UuidToBytes (m.GetDataCharUUID gateway).1 }

/-- The goroutine started by `Pair` for `mac`, when its sleep ends. -/
def offerTimeout (mac : MacAddress) (s : Server) : Server :=
  if s.pairingState.pairing = mac then
    { pairingState :=
        { s.pairingState with
          pairing := zeroMac
          requested := nilMapDelete s.pairingState.requested mac }
      pairResponseCharacteristic := []
      sensors := s.sensors }
  else s

/-- What can happen to the pairing state and the registry. A timer may fire at
any later step; the model lets it fire at any step at all. -/
inductive Event where
  | enable
  | disable
  | request (value : List Nat)
  | requestTimeout (mac : MacAddress)
  | accept (mac : MacAddress)
  | offerTimeout (mac : MacAddress)
  | confirm (value : List Nat)
  | forget (mac : MacAddress)
deriving DecidableEq, Repr

/-- One handler call or timer firing. -/
def step {G : Type} (m : ModelFns G) (gateway : G) (en : Enrollment) :
    Event → Server → Option Server
  | .enable, s => some (EnablePairing s)
  | .disable, s => some (DisablePairing s)
  | .request value, s => pairRequest m value s
  | .requestTimeout mac, s => some (requestTimeout mac s)
  | .accept mac, s => some (Pair m gateway mac s)
  | .offerTimeout mac, s => some (offerTimeout mac s)
  | .confirm value, s => pairConfirmation m gateway en value s
  | .forget mac, s => some { s with sensors := RemoveSensor mac s.sensors }

/-- A sequence of events, handled in turn. -/
def run {G : Type} (m : ModelFns G) (gateway : G) (en : Enrollment) :
    List Event → Server → Option Server
  | [], s => some s
  | e :: es, s =>
    match step m gateway en e s with
    | none => none
    | some s' => run m gateway en es s'

/-- Whether handling `e` in `s` with result `s'` enrolled a sensor for an address that
the registry of `s` already holds. -/
def enrollsKnownAddress (e : Event) (s s' : Server) : Bool :=
  match e with
  | .confirm value =>
    decide (value.take 6 ∈ s.sensors.map Sensor.Mac) && decide (s'.sensors ≠ s.sensors)
  | _ => false

/-- No step of the run enrolls a sensor for an address the registry holds at that step. -/
def noReenrollment {G : Type} (m : ModelFns G) (gateway : G) (en : Enrollment) :
    List Event → Server → Bool
  | [], _ => true
  | e :: es, s =>
    match step m gateway en e s with
    | none => true
    | some s' => !enrollsKnownAddress e s s' && noReenrollment m gateway en es s'

/-! ## Temperature decode (`measurements.go`) -/

/-- Round to the nearest integer, ties to the even one. -/
def roundHalfEven (m : ℚ) : ℤ :=
  if m - ⌊m⌋ < 1 / 2 then ⌊m⌋
  else if 1 / 2 < m - ⌊m⌋ then ⌊m⌋ + 1
  else if ⌊m⌋ % 2 = 0 then ⌊m⌋ else ⌊m⌋ + 1

/-- The result of one `float64` operation whose exact result is `x`: `x` rounded to
53 significant bits, to nearest, ties to even. The exponent is not bounded, so
this is IEEE 754 binary64 wherever the result is zero or a normal number, as
are all values of `parseTemperatureData` before the square root. -/
def roundFloat64 (x : ℚ) : ℚ :=
  if x = 0 then 0
  else roundHalfEven (x / 2 ^ (Int.log 2 |x| - 52)) * 2 ^ (Int.log 2 |x| - 52)

/-- The value `rtd_resistance` of `parseTemperatureData` for the ADC code `data`:
`adc_in / adc_fs * r_ref` in `float64`, where `adc_in = float64(data)`,
`adc_fs = math.Pow(2, 15) - 1.0 = 32767` and `r_ref = 1500.0` are exact. -/
def rtdResistance (data : Nat) : ℚ :=
  roundFloat64 (roundFloat64 ((data : ℚ) / 32767) * 1500)

/-- The two branches of `parseTemperatureData`. -/
inductive TemperatureBranch where
  | callendarVanDusen
  | approximation
deriving DecidableEq, Repr

/-- The branch `parseTemperatureData` takes: the test `rtd_resistance >= 1000`. The
temperature computed inside the branch, which needs a square root, is not
part of this embedding. -/
def parseTemperatureDataBranch (data : Nat) : TemperatureBranch :=
  if rtdResistance data ≥ 1000 then .callendarVanDusen else .approximation

/-! ## A concrete instance of the absent functions

The bodies of `ParsePublicKey`, `VerifySignature`, `BytesToUuid`, `UuidToBytes` and
`GetDataCharUUID` are not at hand, so concrete runs are evaluated on the stand-ins
below: a key is parsed from any non-empty byte string, a signature is a keyed
checksum of the signed data, and the data-channel identifier is sixteen bytes `7`. -/

/-- Stand-in signing function: 256 copies of a keyed checksum of the data. -/
def demoSign (key : RsaPublicKey) (data : List Nat) : List Nat :=
  List.replicate 256 ((data.sum + key.N) % 256)

/-- Stand-in data-channel identifier. -/
def demoUuid : List Nat := List.replicate 16 7

/-- Stand-in for the absent functions of package `model`. -/
def demoFns : ModelFns Unit where
  ParsePublicKey := fun bytes => if bytes = [] then none else some { N := bytes.sum, E := 65537 }
  VerifySignature := fun data sig key =>
    match key with
    | none => false
    | some k => decide (sig = demoSign k data)
  BytesToUuid := fun b => b
  UuidToBytes := fun u => u
  GetDataCharUUID := fun _ => (demoUuid, false)

/-- Stand-in for what the enrolling call supplies. -/
def demoEnrollment : Enrollment := { types := ["vibration"], collectionCapacity := 20000, now := 0 }

/-- The key parsed by `demoFns` from the bytes `[1, 2, 3]`. -/
def demoKey : RsaPublicKey := { N := 6, E := 65537 }

/-- A pairing-request frame: address, then the key bytes `[1, 2, 3]`. -/
def demoRequest (mac : MacAddress) : List Nat := mac ++ [1, 2, 3]

/-- A 278-byte confirmation frame for `mac`, signed under `key`. -/
def demoConfirm (mac : MacAddress) (key : RsaPublicKey) : List Nat :=
  mac ++ demoUuid ++ demoSign key (mac ++ demoUuid)

/-- Two sample addresses. -/
def macA : MacAddress := [0xAA, 1, 2, 3, 4, 5]

/-- Second sample address. -/
def macB : MacAddress := [0xBB, 1, 2, 3, 4, 5]

/-- Pairing on, an allocated request map holding requests of `macA` and `macB`, no
offer, empty registry. -/
def demoTwoRequests : Server :=
  { pairingState :=
      { active := true, requested := some [(macA, demoKey), (macB, demoKey)], pairing := zeroMac }
    pairResponseCharacteristic := []
    sensors := [] }

/-- As `demoTwoRequests`, with a registry that already holds a sensor for `macA`. -/
def demoKnownAddress : Server :=
  { demoTwoRequests with sensors := [getDefaultSensor 0 macA ["vibration"] 20000 demoKey] }

/-- A handshake for `macA`, a forget, and a second handshake for `macA`. -/
def demoRepair : List Event :=
  [.accept macA, .confirm (demoConfirm macA demoKey),
   .forget macA,
   .request (demoRequest macA), .accept macA, .confirm (demoConfirm macA demoKey)]

/-- The state `demoRepair` ends in when it starts in `demoTwoRequests`. -/
def demoRepairEnd : Server :=
  { pairingState := { active := true, requested := some [(macB, demoKey)], pairing := zeroMac }
    pairResponseCharacteristic := []
    sensors := [getDefaultSensor 0 macA ["vibration"] 20000 demoKey] }

/-- Pairing on, offer outstanding for `macA`, requests pending for `macA` and `macB`. -/
def demoOffered : Server := Pair demoFns () macA demoTwoRequests

/-- A vibration-only sensor with the default settings and the given capacity. -/
def demoSensor (collectionCapacity : Nat) : Sensor :=
  getDefaultSensor 0 macA ["vibration"] collectionCapacity demoKey

/-- A sensor whose only setting is vibration at 100 Hz for 1 s, switched off. -/
def demoInactive : Sensor :=
  { demoSensor 20000 with
    Settings := [("vibration", { Active := false, SamplingFrequency := 100, SamplingDuration := 1 })] }

/-- A vibration sensor of capacity 1000 sampling at 50 Hz for 1 s: 600 bytes. -/
def demoSlow : Sensor :=
  { demoSensor 1000 with
    Settings := [("vibration", { Active := true, SamplingFrequency := 50, SamplingDuration := 1 })] }

/-- The sensor `demoSensor 20000` after its vibration frequency is set to 200 Hz. -/
def demoFaster : Sensor :=
  { demoSensor 20000 with
    Settings := [("vibration", { Active := true, SamplingFrequency := 200, SamplingDuration := 1 })] }

/-- A `saveSensors` that succeeds. -/
def saveOk (_ : List Sensor) : Option Err := none

/-- Stand-in serialization of a record: time, frequency, axis, then the raw data. -/
def demoMarshalOne (r : Measurement) : List Nat :=
  [r.time.toNat, r.sampling_frequency, r.measurement_type.length,
    (match r.axis with
      | none => 0
      | some a => a.length)] ++
    (match r.raw_data with
      | .floats bits => 1 :: bits.length :: bits
      | .bytes payload => 2 :: payload.length :: payload)

/-- Stand-in for the functions `handleData` calls. -/
def demoServerFns : ServerFns Unit where
  verifySignature := fun data sig key => decide (sig = demoSign key data)
  marshal := fun records => records.flatMap demoMarshalOne
  requestBody := fun _ jsonData => some jsonData
  maxAlloc := 2 ^ 48

/-- Whether a 32-bit pattern is a `float32` NaN or infinity: all exponent bits set. -/
def notFinite32 (bits : Nat) : Bool := decide (bits / 2 ^ 23 % 256 = 255)

/-- Whether a record holds a sample that `json.Marshal` refuses (NaN or infinity). -/
def hasNonFiniteSample (r : Measurement) : Bool :=
  match r.raw_data with
  | .floats bits => bits.any notFinite32
  | .bytes _ => false

/-- Stand-in that follows `encoding/json` on samples that are not finite:
`json.Marshal` fails on the records, so the serialized batch is empty, and
`sendMeasurements` cannot build a request body from an empty batch
(`json.Unmarshal` fails on it). -/
def demoStrictFns : ServerFns Unit where
  verifySignature := demoServerFns.verifySignature
  marshal := fun records =>
    if records.any hasNonFiniteSample then [] else demoServerFns.marshal records
  requestBody := fun _ jsonData => if jsonData = [] then none else some jsonData
  maxAlloc := 2 ^ 48

/-- A data frame from `macA`: type code, sampling frequency 50, payload, signature. -/
def demoFrame (code : Nat) (payload : List Nat) : List Nat :=
  (macA ++ [code, 50] ++ payload) ++ demoSign demoKey (macA ++ [code, 50] ++ payload)

/-- A registry holding the sensor of `macA`. -/
def demoRegistry : List Sensor := [demoSensor 20000]

/-- Events after start-up: pairing is enabled, `macA` is accepted, confirmation
frames for 00:00:00:00:00:00 and for `macA` arrive, the timers fire. -/
def demoStartUp : List Event :=
  [.enable, .accept macA, .confirm (demoConfirm zeroMac demoKey),
   .confirm (demoConfirm macA demoKey), .requestTimeout macA, .offerTimeout macA]

/-- The state `demoStartUp` ends in when the registry at start-up is `demoRegistry`. -/
def demoStartUpEnd : Server :=
  { pairingState := { active := true, requested := none, pairing := zeroMac }
    pairResponseCharacteristic := []
    sensors := demoRegistry }

/-- A backend that answers every request with 200. -/
def backendOk (_ : Nat) : PostResult := .response 200 0

/-- A backend that answers every request with status 500 and an unknown length. -/
def backendUnknownLength (_ : Nat) : PostResult := .response 500 (-1)

/-- Nothing stored, nothing posted. -/
def Delivery.empty : Delivery := { backlog := [], posted := [] }

/-- A vibration sensor of capacity 20000 whose sampling frequency is 0. -/
def demoLocked : Sensor :=
  { demoSensor 20000 with
    Settings := [("vibration", { Active := true, SamplingFrequency := 0, SamplingDuration := 1 })] }

/-- The little-endian 32-bit word at offset `off` of `data`: the byte at `off` is the
least significant one. -/
def littleEndian32 (data : List Nat) (off : Nat) : Nat :=
  data.getD off 0 + 256 * data.getD (off + 1) 0 + 65536 * data.getD (off + 2) 0 +
    16777216 * data.getD (off + 3) 0

/-- The samples of one axis: `count` little-endian words, 12 bytes apart, the first
at offset `off`. -/
def axisSamples (data : List Nat) (count off : Nat) : List Nat :=
  (List.range count).map (fun i => littleEndian32 data (off + 12 * i))

/-- The vibration records for the samples `x`, `y`, `z`. -/
def vibrationRecords (sensor : Sensor) (timestamp : Int) (samplingFrequency : Nat)
    (x y z : List Nat) : List Measurement :=
  [{ sensor_id := sensor.Name, time := timestamp, measurement_type := "vibration",
     sampling_frequency := samplingFrequency, axis := some "x", raw_data := .floats x },
   { sensor_id := sensor.Name, time := timestamp, measurement_type := "vibration",
     sampling_frequency := samplingFrequency, axis := some "y", raw_data := .floats y },
   { sensor_id := sensor.Name, time := timestamp, measurement_type := "vibration",
     sampling_frequency := samplingFrequency, axis := some "z", raw_data := .floats z }]

/-- A vibration frame from `macA` with two samples: x = 1, 4; y = 2, 5; z = 3, 0x01020304. -/
def demoVibrationFrame : List Nat :=
  demoFrame 0 [1, 0, 0, 0, 2, 0, 0, 0, 3, 0, 0, 0, 4, 0, 0, 0, 5, 0, 0, 0, 4, 3, 2, 1]

/-- A vibration frame from `macA` with a payload of 13 bytes: the sample 1, 2, 3 and
one byte over. -/
def demoOddFrame : List Nat := demoFrame 0 [1, 0, 0, 0, 2, 0, 0, 0, 3, 0, 0, 0, 9]

/-- As `demoOddFrame`, with the x sample 0x7FC00000, a NaN. -/
def demoNaNFrame : List Nat := demoFrame 0 [0, 0, 0xC0, 0x7F, 2, 0, 0, 0, 3, 0, 0, 0, 9]

/-- The records `handleData` builds for a frame that passes its checks (length, paired
sensor, signature); `none` when the frame is dropped or the decode panics. -/
def acceptedBatch {G : Type} (f : ServerFns G) (timestamp : Int) (value : List Nat)
    (sensors : List Sensor) : Option (List Measurement) :=
  if value.length < 264 then none
  else
    match lookupSensor ((value.take (value.length - 256)).take 6) sensors with
    | none => none
    | some sensor =>
      if f.verifySignature (value.take (value.length - 256))
          (value.drop (value.length - 256)) sensor.PublicKey = false then none
      else buildMeasurements sensor timestamp (value.take (value.length - 256))

/-- A send that `handleData` treats as failed and survives: a transport error, or a
response with a status other than 200 whose declared length is neither negative
nor above the allocation limit. -/
def failedSend (maxAlloc : Int) (r : PostResult) : Bool :=
  match r with
  | .err => true
  | .response statusCode contentLength =>
    decide (statusCode ≠ 200) && decide (0 ≤ contentLength) && decide (contentLength ≤ maxAlloc)

/-- Frames handled in turn, each with the timestamp read when it is handled. -/
def handleAll {G : Type} (f : ServerFns G) (backend : Nat → PostResult) (gateway : G)
    (sensors : List Sensor) : List (Int × List Nat) → Delivery → Option Delivery
  | [], d => some d
  | (timestamp, value) :: rest, d =>
    match handleData f backend gateway timestamp value sensors d with
    | none => none
    | some h => handleAll f backend gateway sensors rest h.delivery

/-- A backend that fails the first two requests with a transport error and answers
200 to every later one. -/
def backendFailsTwice (k : Nat) : PostResult := if k < 2 then .err else .response 200 0

/-- The batch built from the audio frame `demoFrame 1 payload` handled at `timestamp`. -/
def demoBatch (timestamp : Int) (payload : List Nat) : List Measurement :=
  [{ sensor_id := (demoSensor 20000).Name, time := timestamp, measurement_type := "audio",
     sampling_frequency := 50, axis := none, raw_data := .bytes payload }]

/-- The serialized `demoBatch`, which is also the request body of `demoServerFns`. -/
def demoJson (timestamp : Int) (payload : List Nat) : List Nat :=
  demoServerFns.marshal (demoBatch timestamp payload)

/-! ## Theorems: pairing -/

/-! ### Helper lemmas on association lists and the registry -/

theorem mapGet_mapDelete_self {κ ν : Type} [DecidableEq κ] (m : List (κ × ν)) (k : κ) :
    mapGet (mapDelete m k) k = none := by
  induction m with
  | nil => rfl
  | cons e m ih =>
    obtain ⟨k', v⟩ := e
    by_cases h : k' = k
    · simp [mapDelete, h, ih]
    · simp [mapDelete, mapGet, h, ih]

theorem mapGet_mapDelete_ne {κ ν : Type} [DecidableEq κ] (m : List (κ × ν)) (k j : κ)
    (hj : j ≠ k) : mapGet (mapDelete m k) j = mapGet m j := by
  induction m with
  | nil => rfl
  | cons e m ih =>
    obtain ⟨k', v⟩ := e
    by_cases h : k' = k
    · have h' : k' ≠ j := fun e => hj (e ▸ h)
      simp [mapDelete, mapGet, h, ih, h', Ne.symm hj]
    · by_cases h2 : k' = j
      · subst h2
        simp [mapDelete, mapGet, h]
      · simp [mapDelete, mapGet, h, h2, ih]

theorem nilMapGet_nilMapDelete_self {κ ν : Type} [DecidableEq κ] (m : Option (List (κ × ν)))
    (k : κ) : nilMapGet (nilMapDelete m k) k = none := by
  cases m with
  | none => rfl
  | some entries => exact mapGet_mapDelete_self entries k

theorem nilMapGet_nilMapDelete_ne {κ ν : Type} [DecidableEq κ] (m : Option (List (κ × ν)))
    (k j : κ) (hj : j ≠ k) : nilMapGet (nilMapDelete m k) j = nilMapGet m j := by
  cases m with
  | none => rfl
  | some entries => exact mapGet_mapDelete_ne entries k j hj

theorem RemoveSensor_macs_sublist (mac : MacAddress) (l : List Sensor) :
    ((RemoveSensor mac l).map Sensor.Mac).Sublist (l.map Sensor.Mac) := by
  induction l with
  | nil => simp [RemoveSensor]
  | cons x l ih =>
    by_cases h : x.Mac = mac
    · simp [RemoveSensor, h]
    · simp [RemoveSensor, h, ih]

theorem RemoveSensor_sublist (mac : MacAddress) (l : List Sensor) :
    (RemoveSensor mac l).Sublist l := by
  induction l with
  | nil => simp [RemoveSensor]
  | cons x l ih =>
    by_cases h : x.Mac = mac
    · simp [RemoveSensor, h]
    · simp [RemoveSensor, h, ih]

/-- A confirmation frame that returns either changes nothing, or found its address
in the offer slot and a request pending for it, and appended one default
sensor with that address and the key of that request. -/
theorem pairConfirmation_cases {G : Type} (m : ModelFns G) (gateway : G) (en : Enrollment)
    (value : List Nat) (s s' : Server) (h : pairConfirmation m gateway en value s = some s') :
    s' = s ∨
      (s.pairingState.pairing = value.take 6 ∧
        ∃ key, nilMapGet s.pairingState.requested (value.take 6) = some key ∧
          s'.sensors = s.sensors ++
            [getDefaultSensor en.now (value.take 6) en.types en.collectionCapacity key]) := by
  unfold pairConfirmation at h
  split at h
  · left; cases h; rfl
  · simp only at h
    split at h
    · left; cases h; rfl
    · rename_i hn
      simp only [not_or, not_not, List.take_take] at hn
      cases hk : nilMapGet s.pairingState.requested (List.take 6 (List.take 22 value)) with
      | none => simp [hk, AddSensor] at h
      | some key =>
        right
        simp only [hk, AddSensor, Option.some.injEq] at h
        subst h
        simp only [List.take_take] at hk
        exact ⟨by simpa using hn.2.1, key, by simpa using hk, by simp [List.take_take]⟩

/-- The registry after a confirmation frame: unchanged, or one default sensor
with the frame's address appended. -/
theorem pairConfirmation_sensors {G : Type} (m : ModelFns G) (gateway : G) (en : Enrollment)
    (value : List Nat) (s s' : Server) (h : pairConfirmation m gateway en value s = some s') :
    s'.sensors = s.sensors ∨
      ∃ key, s'.sensors =
        s.sensors ++ [getDefaultSensor en.now (value.take 6) en.types en.collectionCapacity key] := by
  rcases pairConfirmation_cases m gateway en value s s' h with h1 | ⟨_, key, _, h2⟩
  · left; rw [h1]
  · right; exact ⟨key, h2⟩

/-- A request frame that returns either changes nothing, or found the request map
allocated and bound the frame's address in it. -/
theorem pairRequest_cases {G : Type} (m : ModelFns G) (value : List Nat) (s s' : Server)
    (h : pairRequest m value s = some s') :
    s' = s ∨
      ∃ entries key, s.pairingState.requested = some entries ∧
        s' = { s with pairingState :=
                 { s.pairingState with requested := some (mapSet entries (value.take 6) key) } } := by
  unfold pairRequest at h
  by_cases h1 : value.length < 6 ∨ s.pairingState.active = false
  · rw [if_pos h1] at h
    left; cases h; rfl
  · rw [if_neg h1] at h
    simp only at h
    cases hp : m.ParsePublicKey (value.drop 6) with
    | none =>
      simp only [hp] at h
      left; cases h; rfl
    | some key =>
      simp only [hp] at h
      by_cases h2 : (nilMapGet s.pairingState.requested (value.take 6)).isSome = true
      · rw [if_pos h2] at h
        left; cases h; rfl
      · rw [if_neg h2] at h
        cases hr : s.pairingState.requested with
        | none => simp [hr] at h
        | some entries =>
          simp only [hr, Option.some.injEq] at h
          right
          exact ⟨entries, key, rfl, h.symm⟩

/-- Every event other than a confirmation frame and a forget leaves the registry alone. -/
theorem step_sensors {G : Type} (m : ModelFns G) (gateway : G) (en : Enrollment)
    (e : Event) (s s' : Server) (h : step m gateway en e s = some s') :
    (∃ value, e = .confirm value) ∨ (∃ mac, e = .forget mac) ∨ s'.sensors = s.sensors := by
  cases e with
  | enable => right; right; simp [step, EnablePairing] at h; subst h; rfl
  | disable => right; right; simp [step, DisablePairing] at h; subst h; rfl
  | request value =>
    right; right
    simp only [step] at h
    rcases pairRequest_cases m value s s' h with h1 | ⟨entries, key, _, h2⟩
    · rw [h1]
    · rw [h2]
  | requestTimeout mac =>
    right; right
    simp only [step, Option.some.injEq] at h
    subst h
    unfold requestTimeout
    split <;> rfl
  | accept mac =>
    right; right
    simp only [step, Option.some.injEq] at h
    subst h
    unfold Pair
    split
    · rfl
    · split <;> rfl
  | offerTimeout mac =>
    right; right
    simp only [step, Option.some.injEq] at h
    subst h
    unfold offerTimeout
    split <;> rfl
  | confirm value => left; exact ⟨value, rfl⟩
  | forget mac => right; left; exact ⟨mac, rfl⟩

/-- One step that does not re-enroll keeps the registry addresses pairwise distinct. -/
theorem step_nodup {G : Type} (m : ModelFns G) (gateway : G) (en : Enrollment)
    (e : Event) (s s' : Server) (h : step m gateway en e s = some s')
    (hfresh : enrollsKnownAddress e s s' = false)
    (hnd : (s.sensors.map Sensor.Mac).Nodup) : (s'.sensors.map Sensor.Mac).Nodup := by
  rcases step_sensors m gateway en e s s' h with ⟨value, rfl⟩ | ⟨mac, rfl⟩ | hs
  · simp only [step] at h
    rcases pairConfirmation_sensors m gateway en value s s' h with hs | ⟨key, hs⟩
    · rw [hs]; exact hnd
    · have hne : s'.sensors ≠ s.sensors := by
        rw [hs]; intro hc
        have := congrArg List.length hc
        simp at this
      have hnot : value.take 6 ∉ s.sensors.map Sensor.Mac := by
        intro hmem
        simp [enrollsKnownAddress, hne] at hfresh
        simp only [List.mem_map] at hmem
        obtain ⟨x, hx, hxm⟩ := hmem
        exact hfresh x hx hxm
      rw [hs, List.map_append, List.nodup_append]
      refine ⟨hnd, by simp [getDefaultSensor], ?_⟩
      intro a ha hb
      simp [getDefaultSensor] at hb
      exact hnot (hb ▸ ha)
  · simp only [step, Option.some.injEq] at h
    subst h
    exact (RemoveSensor_macs_sublist mac s.sensors).nodup hnd
  · rw [hs]; exact hnd

/-- While the request map is nil and the offer slot empty, every handler call and
timer firing that returns leaves them so, and adds no sensor. -/
theorem step_nil_map {G : Type} (m : ModelFns G) (gateway : G) (en : Enrollment)
    (e : Event) (s s' : Server) (h : step m gateway en e s = some s')
    (hreq : s.pairingState.requested = none) (hoff : s.pairingState.pairing = zeroMac) :
    s'.pairingState.requested = none ∧ s'.pairingState.pairing = zeroMac ∧
      s'.sensors.Sublist s.sensors := by
  cases e with
  | enable =>
    simp only [step, EnablePairing, Option.some.injEq] at h
    subst h
    exact ⟨hreq, hoff, List.Sublist.refl _⟩
  | disable =>
    simp only [step, DisablePairing, Option.some.injEq] at h
    subst h
    exact ⟨hreq, hoff, List.Sublist.refl _⟩
  | request value =>
    simp only [step] at h
    rcases pairRequest_cases m value s s' h with h1 | ⟨entries, key, h2, _⟩
    · rw [h1]
      exact ⟨hreq, hoff, List.Sublist.refl _⟩
    · rw [hreq] at h2
      cases h2
  | requestTimeout mac =>
    simp only [step, Option.some.injEq] at h
    subst h
    have e : requestTimeout mac s = s := by
      unfold requestTimeout
      rw [if_neg]
      simp [hreq, nilMapGet]
    rw [e]
    exact ⟨hreq, hoff, List.Sublist.refl _⟩
  | accept mac =>
    simp only [step, Option.some.injEq] at h
    subst h
    have e : Pair m gateway mac s = s := by
      unfold Pair
      simp [hreq, nilMapGet]
    rw [e]
    exact ⟨hreq, hoff, List.Sublist.refl _⟩
  | offerTimeout mac =>
    simp only [step, Option.some.injEq] at h
    subst h
    unfold offerTimeout
    split
    · exact ⟨by simp [hreq, nilMapDelete], rfl, List.Sublist.refl _⟩
    · exact ⟨hreq, hoff, List.Sublist.refl _⟩
  | confirm value =>
    simp only [step] at h
    rcases pairConfirmation_cases m gateway en value s s' h with h1 | ⟨_, key, h2, _⟩
    · rw [h1]
      exact ⟨hreq, hoff, List.Sublist.refl _⟩
    · simp [hreq, nilMapGet] at h2
  | forget mac =>
    simp only [step, Option.some.injEq] at h
    subst h
    exact ⟨hreq, hoff, RemoveSensor_sublist mac s.sensors⟩

/-- From start-up the request map stays nil, the offer slot stays empty and the
registry only loses sensors, whatever the events. -/
theorem run_nil_map {G : Type} (m : ModelFns G) (gateway : G) (en : Enrollment)
    (es : List Event) (s s' : Server) (h : run m gateway en es s = some s')
    (hreq : s.pairingState.requested = none) (hoff : s.pairingState.pairing = zeroMac) :
    s'.pairingState.requested = none ∧ s'.pairingState.pairing = zeroMac ∧
      s'.sensors.Sublist s.sensors := by
  induction es generalizing s with
  | nil =>
    simp only [run, Option.some.injEq] at h
    subst h
    exact ⟨hreq, hoff, List.Sublist.refl _⟩
  | cons e es ih =>
    simp only [run] at h
    cases hstep : step m gateway en e s with
    | none => simp [hstep] at h
    | some t =>
      simp only [hstep] at h
      obtain ⟨t1, t2, t3⟩ := step_nil_map m gateway en e s t hstep hreq hoff
      obtain ⟨u1, u2, u3⟩ := ih t h t1 t2
      exact ⟨u1, u2, u3.trans t3⟩

/-! ### Claims -/

/-- C1. In whatever state, a confirmation frame that changes the registry finds its
address in the offer slot and a request pending for that address, and appends
one sensor with that address. In every state reached from start-up by
enable/disable, request frames, accepts, confirmation frames, timer firings and
forgets, no request is stored and the offer slot is empty (no accept has made an
offer), the registry holds no sensor it did not hold at start-up, and no
confirmation frame, whatever its address and signature, adds a sensor: a
confirmation frame that returns leaves the whole state as it was. -/
theorem pairConfirmation_enrolls_only_offer {G : Type} (m : ModelFns G) (gateway : G)
    (en : Enrollment) :
    (∀ (value : List Nat) (s s' : Server), pairConfirmation m gateway en value s = some s' →
      s'.sensors ≠ s.sensors →
      s.pairingState.pairing = value.take 6 ∧
      ∃ key, nilMapGet s.pairingState.requested (value.take 6) = some key ∧
        s'.sensors = s.sensors ++
          [getDefaultSensor en.now (value.take 6) en.types en.collectionCapacity key]) ∧
    (∀ (sensors : List Sensor) (es : List Event) (s : Server),
      run m gateway en es (Server.init sensors) = some s →
      s.pairingState.requested = none ∧ s.pairingState.pairing = zeroMac ∧
      s.sensors.Sublist sensors ∧
      ∀ (value : List Nat) (s' : Server),
        pairConfirmation m gateway en value s = some s' → s' = s) := by
  constructor
  · intro value s s' h hne
    rcases pairConfirmation_cases m gateway en value s s' h with h1 | h2
    · exact absurd (by rw [h1]) hne
    · exact h2
  · intro sensors es s hrun
    obtain ⟨h1, h2, h3⟩ := run_nil_map m gateway en es (Server.init sensors) s hrun rfl rfl
    refine ⟨h1, h2, h3, ?_⟩
    intro value s' h
    rcases pairConfirmation_cases m gateway en value s s' h with e | ⟨_, key, hk, _⟩
    · exact e
    · simp [h1, nilMapGet] at hk

/-- Witness for C1: after start-up, pairing is enabled, `macA` is accepted, and
confirmation frames for 00:00:00:00:00:00 and for `macA` arrive; the registry
still holds what it held at start-up, and a further confirmation frame changes
nothing. -/
theorem pairConfirmation_enrolls_only_offer_witness :
    demoStartUpEnd.pairingState.requested = none ∧
    demoStartUpEnd.pairingState.pairing = zeroMac ∧
    demoStartUpEnd.sensors.Sublist demoRegistry ∧
    ∀ (value : List Nat) (s' : Server),
      pairConfirmation demoFns () demoEnrollment value demoStartUpEnd = some s' →
      s' = demoStartUpEnd :=
  (pairConfirmation_enrolls_only_offer demoFns () demoEnrollment).2 demoRegistry demoStartUp
    demoStartUpEnd (by rfl)

/-- C2. A 278-byte confirmation frame whose address differs from the offer, or
whose channel identifier differs from the gateway's, or whose signature over the
first 22 bytes does not verify under the key of the pending request for its
address, leaves registry, pending requests, offer slot and response
characteristic as they were. After an accept of `a` and an accept of another
address `b` that made an offer, a confirmation frame for `a` is rejected. -/
theorem pairConfirmation_rejects_mismatch {G : Type} (m : ModelFns G) (gateway : G)
    (en : Enrollment) (value : List Nat) (s : Server) (hlen : value.length = 278) :
    ((s.pairingState.pairing ≠ value.take 6 ∨
        (m.GetDataCharUUID gateway).1 ≠ m.BytesToUuid ((value.take 22).drop 6) ∨
        m.VerifySignature (value.take 22) (value.drop 22)
          (nilMapGet s.pairingState.requested (value.take 6)) = false) →
      pairConfirmation m gateway en value s = some s) ∧
    (∀ a b : MacAddress, a ≠ b → value.take 6 = a →
      s.pairingState.active = true → (nilMapGet s.pairingState.requested b).isSome = true →
      (Pair m gateway b (Pair m gateway a s)).pairingState.pairing = b ∧
      pairConfirmation m gateway en value (Pair m gateway b (Pair m gateway a s))
        = some (Pair m gateway b (Pair m gateway a s))) := by
  have key : ∀ t : Server, (t.pairingState.pairing ≠ value.take 6 ∨
        (m.GetDataCharUUID gateway).1 ≠ m.BytesToUuid ((value.take 22).drop 6) ∨
        m.VerifySignature (value.take 22) (value.drop 22)
          (nilMapGet t.pairingState.requested (value.take 6)) = false) →
      pairConfirmation m gateway en value t = some t := by
    intro t h
    unfold pairConfirmation
    split
    · rfl
    · simp only [hlen, List.take_take]
      split
      · rfl
      · rename_i hn
        exfalso
        apply hn
        rcases h with h | h | h
        · right; left; simpa using h
        · right; right; left; exact h
        · right; right; right; simpa using h
  refine ⟨key s, ?_⟩
  intro a b hab ha hact hreq
  have hA : (Pair m gateway a s).pairingState.active = true ∧
      (Pair m gateway a s).pairingState.requested = s.pairingState.requested := by
    unfold Pair
    split
    · exact ⟨hact, rfl⟩
    · split
      · exact ⟨hact, rfl⟩
      · exact ⟨hact, rfl⟩
  have hB : (Pair m gateway b (Pair m gateway a s)).pairingState.pairing = b := by
    generalize Pair m gateway a s = t at hA
    have hne : nilMapGet s.pairingState.requested b ≠ none := by
      intro hc
      simp [hc] at hreq
    unfold Pair
    simp [hA.1, hA.2, hne]
  refine ⟨hB, key _ (Or.inl ?_)⟩
  rw [hB, ha]
  exact Ne.symm hab

/-- Witness for C2: a correctly signed frame for `macA` after the offer moved to `macB`. -/
theorem pairConfirmation_rejects_mismatch_witness :
    (Pair demoFns () macB (Pair demoFns () macA demoTwoRequests)).pairingState.pairing = macB ∧
    pairConfirmation demoFns () demoEnrollment (demoConfirm macA demoKey)
        (Pair demoFns () macB (Pair demoFns () macA demoTwoRequests))
      = some (Pair demoFns () macB (Pair demoFns () macA demoTwoRequests)) :=
  (pairConfirmation_rejects_mismatch demoFns () demoEnrollment (demoConfirm macA demoKey)
    demoTwoRequests rfl).2 macA macB (by decide) rfl rfl rfl

/-- C3 (counterexample). Pairing is on and the request map holds a request of
`macA`. When the registry already holds a sensor for `macA`, an accept and the
confirmation frame of `macA` append a second entry with that address; and from
an empty registry, two complete handshakes for `macA` (accept, confirmation
frame, request frame, accept, confirmation frame) with no forget in between
leave two entries with that address. -/
theorem registry_duplicate_after_second_handshake :
    ((demoKnownAddress.sensors.map Sensor.Mac).Nodup ∧
      (run demoFns () demoEnrollment [.accept macA, .confirm (demoConfirm macA demoKey)]
        demoKnownAddress).map (fun s => s.sensors.map Sensor.Mac) = some [macA, macA]) ∧
    ((demoTwoRequests.sensors.map Sensor.Mac).Nodup ∧
      (run demoFns () demoEnrollment
        [.accept macA, .confirm (demoConfirm macA demoKey),
         .request (demoRequest macA), .accept macA, .confirm (demoConfirm macA demoKey)]
        demoTwoRequests).map (fun s => s.sensors.map Sensor.Mac) = some [macA, macA]) ∧
    ¬ ([macA, macA] : List MacAddress).Nodup := by
  refine ⟨⟨by decide, by rfl⟩, ⟨by decide, by rfl⟩, by decide⟩

/-- C3 (amended). An accepted confirmation frame appends exactly one sensor,
carrying the frame's address; and from a registry with pairwise distinct
addresses, every sequence of request frames, accepts, confirmation frames,
timeouts, enable/disable and forgets in which no confirmation frame is accepted
for an address held by the registry at that moment ends with pairwise distinct
addresses. -/
theorem registry_nodup_of_noReenrollment {G : Type} (m : ModelFns G) (gateway : G)
    (en : Enrollment) :
    (∀ (value : List Nat) (s s' : Server), pairConfirmation m gateway en value s = some s' →
      s'.sensors = s.sensors ∨
      ∃ key, s'.sensors =
        s.sensors ++ [getDefaultSensor en.now (value.take 6) en.types en.collectionCapacity key]) ∧
    (∀ (es : List Event) (s s' : Server), (s.sensors.map Sensor.Mac).Nodup →
      noReenrollment m gateway en es s = true → run m gateway en es s = some s' →
      (s'.sensors.map Sensor.Mac).Nodup) := by
  refine ⟨pairConfirmation_sensors m gateway en, ?_⟩
  intro es
  induction es with
  | nil =>
    intro s s' hnd _ hrun
    simp only [run, Option.some.injEq] at hrun
    subst hrun
    exact hnd
  | cons e es ih =>
    intro s s' hnd hfresh hrun
    simp only [run] at hrun
    simp only [noReenrollment] at hfresh
    cases hstep : step m gateway en e s with
    | none => simp [hstep] at hrun
    | some t =>
      simp only [hstep, Bool.and_eq_true, Bool.not_eq_true'] at hrun hfresh
      exact ih t s' (step_nodup m gateway en e s t hstep hfresh.1 hnd) hfresh.2 hrun

/-- Witness for C3 (amended): with requests of `macA` and `macB` pending, a handshake
for `macA`, a forget, and a second handshake for `macA`. -/
theorem registry_nodup_of_noReenrollment_witness :
    (demoRepairEnd.sensors.map Sensor.Mac).Nodup :=
  (registry_nodup_of_noReenrollment demoFns () demoEnrollment).2 demoRepair demoTwoRequests
    demoRepairEnd (by decide) (by rfl) (by rfl)

/-- C4. With pairing active, an offer outstanding for `a`, a pending request
`a ↦ key`, and a 278-byte frame carrying `a`, the gateway's channel identifier
and a signature over the first 22 bytes that verifies under `key`:
`pairConfirmation` returns; the registry is the old one plus exactly one
sensor, whose address is `a` and whose key is `key`; the offer slot is empty; the
request of `a` is gone and every other request is unchanged; the response
characteristic holds the empty byte string. -/
theorem pairConfirmation_success {G : Type} (m : ModelFns G) (gateway : G) (en : Enrollment)
    (value : List Nat) (s : Server) (a : MacAddress) (key : RsaPublicKey)
    (hact : s.pairingState.active = true) (hoffer : s.pairingState.pairing = a)
    (hreq : nilMapGet s.pairingState.requested a = some key)
    (hlen : value.length = 278) (haddr : value.take 6 = a)
    (huuid : m.GetDataCharUUID gateway = (m.BytesToUuid ((value.take 22).drop 6), false))
    (hsig : m.VerifySignature (value.take 22) (value.drop 22) (some key) = true) :
    ∃ s' x, pairConfirmation m gateway en value s = some s' ∧
      s'.sensors = s.sensors ++ [x] ∧
      x = getDefaultSensor en.now a en.types en.collectionCapacity key ∧
      x.Mac = a ∧ x.PublicKey = key ∧
      s'.pairingState.pairing = zeroMac ∧
      nilMapGet s'.pairingState.requested a = none ∧
      (∀ b, b ≠ a →
        nilMapGet s'.pairingState.requested b = nilMapGet s.pairingState.requested b) ∧
      s'.pairResponseCharacteristic = [] ∧
      s'.pairingState.active = true := by
  subst haddr
  refine ⟨{ pairingState :=
              { s.pairingState with
                pairing := zeroMac
                requested := nilMapDelete s.pairingState.requested (value.take 6) }
            pairResponseCharacteristic := []
            sensors := s.sensors ++
              [getDefaultSensor en.now (value.take 6) en.types en.collectionCapacity key] },
          getDefaultSensor en.now (value.take 6) en.types en.collectionCapacity key,
          ?_, rfl, rfl, rfl, rfl, rfl, ?_, ?_, rfl, hact⟩
  · unfold pairConfirmation
    simp [hlen, hact, huuid, hoffer, hreq, hsig, List.take_take, AddSensor]
  · exact nilMapGet_nilMapDelete_self _ _
  · intro b hb
    exact nilMapGet_nilMapDelete_ne _ _ _ hb

/-- Witness for C4: the confirmation of the offer for `macA`. -/
theorem pairConfirmation_success_witness :
    ∃ s' x, pairConfirmation demoFns () demoEnrollment (demoConfirm macA demoKey) demoOffered
        = some s' ∧
      s'.sensors = demoOffered.sensors ++ [x] ∧
      x = getDefaultSensor demoEnrollment.now macA demoEnrollment.types
        demoEnrollment.collectionCapacity demoKey ∧
      x.Mac = macA ∧ x.PublicKey = demoKey ∧
      s'.pairingState.pairing = zeroMac ∧
      nilMapGet s'.pairingState.requested macA = none ∧
      (∀ b, b ≠ macA →
        nilMapGet s'.pairingState.requested b = nilMapGet demoOffered.pairingState.requested b) ∧
      s'.pairResponseCharacteristic = [] ∧
      s'.pairingState.active = true :=
  pairConfirmation_success demoFns () demoEnrollment (demoConfirm macA demoKey) demoOffered
    macA demoKey rfl rfl rfl rfl rfl rfl rfl


/-! ## Theorems: capacity validator -/

/-! ### Helper lemmas on the collection size -/

theorem collectionSizeStep_eq (r : Int) (e : String × settings) :
    collectionSizeStep r e = r + entrySize e := by
  unfold collectionSizeStep entrySize DATA_SIZE
  by_cases h1 : e.1 = "temperature"
  · simp [h1]
  · by_cases h2 : e.1 = "audio"
    · simp [h2]
    · by_cases h3 : e.1 = "vibration"
      · simp [h3]
      · simp [h1, h2, h3]

theorem foldl_collectionSizeStep (l : List (String × settings)) (r : Int) :
    l.foldl collectionSizeStep r = r + (l.map entrySize).sum := by
  induction l generalizing r with
  | nil => simp
  | cons e l ih =>
    simp only [List.foldl_cons, List.map_cons, List.sum_cons, ih, collectionSizeStep_eq]
    ring

theorem getCollectionSize_eq (sensor : Sensor) :
    getCollectionSize sensor = (sensor.Settings.map entrySize).sum := by
  unfold getCollectionSize
  rw [foldl_collectionSizeStep]
  simp

theorem mapGet_mapSet_self {κ ν : Type} [DecidableEq κ] (m : List (κ × ν)) (k : κ) (v : ν) :
    mapGet (mapSet m k v) k = some v := by
  induction m with
  | nil => simp [mapSet, mapGet]
  | cons e m ih =>
    obtain ⟨k', v'⟩ := e
    by_cases h : k' = k
    · simp [mapSet, mapGet, h]
    · simp [mapSet, mapGet, h, ih]

theorem mapGet_mapSet_ne {κ ν : Type} [DecidableEq κ] (m : List (κ × ν)) (k j : κ) (v : ν)
    (hj : j ≠ k) : mapGet (mapSet m k v) j = mapGet m j := by
  induction m with
  | nil => simp [mapSet, mapGet, Ne.symm hj]
  | cons e m ih =>
    obtain ⟨k', v'⟩ := e
    by_cases h : k' = k
    · subst h
      simp [mapSet, mapGet, Ne.symm hj]
    · by_cases h2 : k' = j
      · subst h2
        simp [mapSet, mapGet, h]
      · simp [mapSet, mapGet, h, h2, ih]

theorem mapSet_eq_self {κ ν : Type} [DecidableEq κ] (m : List (κ × ν)) (k : κ) (v : ν)
    (h : mapGet m k = some v) : mapSet m k v = m := by
  induction m with
  | nil => simp [mapGet] at h
  | cons e m ih =>
    obtain ⟨k', v'⟩ := e
    by_cases hk : k' = k
    · simp [mapGet, hk] at h
      simp [mapSet, hk, h]
    · simp [mapGet, hk] at h
      simp [mapSet, hk, ih h]

theorem sum_mapSet_some (l : List (String × settings)) (k : String) (old v : settings)
    (h : mapGet l k = some old) :
    ((mapSet l k v).map entrySize).sum
      = (l.map entrySize).sum - entrySize (k, old) + entrySize (k, v) := by
  induction l with
  | nil => simp [mapGet] at h
  | cons e l ih =>
    obtain ⟨k', v'⟩ := e
    by_cases hk : k' = k
    · simp [mapGet, hk] at h
      subst h
      simp [mapSet, hk]
      ring
    · simp [mapGet, hk] at h
      simp [mapSet, hk, ih h]
      ring

theorem sum_mapSet_none (l : List (String × settings)) (k : String) (v : settings)
    (h : mapGet l k = none) :
    ((mapSet l k v).map entrySize).sum = (l.map entrySize).sum + entrySize (k, v) := by
  induction l with
  | nil => simp [mapSet]
  | cons e l ih =>
    obtain ⟨k', v'⟩ := e
    by_cases hk : k' = k
    · simp [mapGet, hk] at h
    · simp [mapGet, hk] at h
      simp [mapSet, hk, ih h]
      ring

theorem mapDelete_of_not_mem {κ ν : Type} [DecidableEq κ] (m : List (κ × ν)) (k : κ)
    (h : k ∉ m.map Prod.fst) : mapDelete m k = m := by
  induction m with
  | nil => rfl
  | cons e m ih =>
    obtain ⟨k', v'⟩ := e
    simp only [List.map_cons, List.mem_cons, not_or] at h
    simp [mapDelete, Ne.symm h.1, ih h.2]

theorem sum_mapDelete (l : List (String × settings)) (k : String) (st : settings)
    (hnd : (l.map Prod.fst).Nodup) (h : mapGet l k = some st) :
    (l.map entrySize).sum = entrySize (k, st) + ((mapDelete l k).map entrySize).sum := by
  induction l with
  | nil => simp [mapGet] at h
  | cons e l ih =>
    obtain ⟨k', v'⟩ := e
    simp only [List.map_cons, List.nodup_cons] at hnd
    by_cases hk : k' = k
    · simp [mapGet, hk] at h
      subst h
      subst hk
      simp [mapDelete, mapDelete_of_not_mem l k' hnd.1]
    · simp [mapGet, hk] at h
      simp [mapDelete, hk, ih hnd.2 h]
      ring

theorem settingsOf_of_nonzero (sensor : Sensor) (dataType : String)
    (h : ¬ ((settingsOf sensor dataType).SamplingDuration = 0 ∨
      (settingsOf sensor dataType).SamplingFrequency = 0)) :
    mapGet sensor.Settings dataType = some (settingsOf sensor dataType) := by
  unfold settingsOf at h ⊢
  cases hg : mapGet sensor.Settings dataType with
  | none => simp [hg] at h
  | some st => simp

/-- The verdict of the validator on a non-temperature type with non-zero factors and a
non-zero divisor, for a sensor within its capacity: an error exactly when the
candidate, times the other factor, times the sample size, does not fit into what
the capacity leaves once the current term of the type is taken out. -/
theorem isExceeding_within (sensor : Sensor) (setting dataType : String) (value : Int)
    (htemp : dataType ≠ "temperature")
    (hnz : ¬ ((settingsOf sensor dataType).SamplingDuration = 0 ∨
      (settingsOf sensor dataType).SamplingFrequency = 0))
    (hsize : 0 < DATA_SIZE dataType)
    (hwithin : getCollectionSize sensor ≤ sensor.CollectionCapacity)
    (thisFactor otherFactor : Int)
    (hthis : thisFactor = if setting = "sampling_frequency"
      then ((settingsOf sensor dataType).SamplingFrequency : Int)
      else ((settingsOf sensor dataType).SamplingDuration : Int))
    (hother : otherFactor = if setting = "sampling_frequency"
      then ((settingsOf sensor dataType).SamplingDuration : Int)
      else ((settingsOf sensor dataType).SamplingFrequency : Int)) :
    (getCollectionSize sensor - thisFactor * otherFactor * DATA_SIZE dataType
        + value * otherFactor * DATA_SIZE dataType > sensor.CollectionCapacity →
      ∃ max, isExceedingCollectionCapacity sensor setting value dataType
        = some (some (.exceedsCapacity setting max))) ∧
    (getCollectionSize sensor - thisFactor * otherFactor * DATA_SIZE dataType
        + value * otherFactor * DATA_SIZE dataType ≤ sensor.CollectionCapacity →
      isExceedingCollectionCapacity sensor setting value dataType = some none) := by
  have hopos : 0 < otherFactor := by
    rw [hother]
    split <;> omega
  have hdiv : 0 < DATA_SIZE dataType * otherFactor := Int.mul_pos hsize hopos
  have hR : 0 ≤ (sensor.CollectionCapacity : Int) - getCollectionSize sensor := by omega
  have hq : Int.tdiv ((sensor.CollectionCapacity : Int) - getCollectionSize sensor)
      (DATA_SIZE dataType * otherFactor)
      = ((sensor.CollectionCapacity : Int) - getCollectionSize sensor) /
        (DATA_SIZE dataType * otherFactor) := Int.tdiv_eq_ediv hR (le_of_lt hdiv)
  have hiff : value > ((sensor.CollectionCapacity : Int) - getCollectionSize sensor) /
        (DATA_SIZE dataType * otherFactor) + thisFactor ↔
      getCollectionSize sensor - thisFactor * otherFactor * DATA_SIZE dataType
        + value * otherFactor * DATA_SIZE dataType > sensor.CollectionCapacity := by
    have h1 := @Int.ediv_lt_iff_lt_mul ((sensor.CollectionCapacity : Int) - getCollectionSize sensor)
      (value - thisFactor) (DATA_SIZE dataType * otherFactor) hdiv
    have h2 : (value - thisFactor) * (DATA_SIZE dataType * otherFactor)
        = value * otherFactor * DATA_SIZE dataType
          - thisFactor * otherFactor * DATA_SIZE dataType := by ring
    rw [h2] at h1
    constructor
    · intro h
      have := h1.mp (by omega)
      omega
    · intro h
      have := h1.mpr (by omega)
      omega
  have hcode : isExceedingCollectionCapacity sensor setting value dataType
      = if value > ((sensor.CollectionCapacity : Int) - getCollectionSize sensor) /
          (DATA_SIZE dataType * otherFactor) + thisFactor
        then some (some (.exceedsCapacity setting
          (((sensor.CollectionCapacity : Int) - getCollectionSize sensor) /
            (DATA_SIZE dataType * otherFactor) + thisFactor)))
        else some none := by
    unfold isExceedingCollectionCapacity
    simp only [htemp, if_false, hnz, ← hthis, ← hother, ne_of_gt hdiv, hq]
  constructor
  · intro h
    exact ⟨_, by rw [hcode, if_pos (hiff.mpr h)]⟩
  · intro h
    rw [hcode, if_neg]
    intro hc
    have := hiff.mp hc
    omega

theorem entrySize_eq (k : String) (st : settings) :
    entrySize (k, st) = if k = "temperature" then 2
      else (st.SamplingFrequency : Int) * (st.SamplingDuration : Int) * DATA_SIZE k := by
  have h := collectionSizeStep_eq 0 (k, st)
  simp only [collectionSizeStep, zero_add] at h
  rw [← h]
  split
  · decide
  · rfl

/-- Writing an entry whose size equals that of the entry read leaves the sensor within
capacity, unless it creates a temperature entry. -/
theorem within_mapSet_same_size (sensor : Sensor) (dt : String) (st' : settings)
    (hsz : entrySize (dt, st') = entrySize (dt, settingsOf sensor dt))
    (hentry : dt = "temperature" → (mapGet sensor.Settings "temperature").isSome = true)
    (hwithin : getCollectionSize sensor ≤ sensor.CollectionCapacity) :
    getCollectionSize { sensor with Settings := mapSet sensor.Settings dt st' }
      ≤ sensor.CollectionCapacity := by
  rw [getCollectionSize_eq] at hwithin ⊢
  cases hg : mapGet sensor.Settings dt with
  | some old =>
    have hso : settingsOf sensor dt = old := by simp [settingsOf, hg]
    rw [hso] at hsz
    simp only
    rw [sum_mapSet_some sensor.Settings dt old st' hg, hsz]
    omega
  | none =>
    have hso : settingsOf sensor dt
        = { Active := false, SamplingFrequency := 0, SamplingDuration := 0 } := by
      simp [settingsOf, hg]
    have hne : dt ≠ "temperature" := by
      intro hc
      have := hentry hc
      rw [← hc, hg] at this
      simp at this
    rw [hso] at hsz
    simp only
    rw [sum_mapSet_none sensor.Settings dt st' hg, hsz, entrySize_eq]
    simp [hne]
    exact hwithin

/-- A frequency or duration written after the validator returned `nil` leaves a
sensor that was within capacity within capacity. -/
theorem within_after_validator (sensor : Sensor) (setting dt : String) (value : Int)
    (st' : settings) (hdt : dt = "vibration" ∨ dt = "audio") (hv : 0 ≤ value)
    (hok : isExceedingCollectionCapacity sensor setting value dt = some none)
    (hst' : (setting = "sampling_frequency" ∧
        st'.SamplingFrequency = value.toNat ∧
        st'.SamplingDuration = (settingsOf sensor dt).SamplingDuration) ∨
      (setting ≠ "sampling_frequency" ∧
        st'.SamplingDuration = value.toNat ∧
        st'.SamplingFrequency = (settingsOf sensor dt).SamplingFrequency))
    (hwithin : getCollectionSize sensor ≤ sensor.CollectionCapacity) :
    getCollectionSize { sensor with Settings := mapSet sensor.Settings dt st' }
      ≤ sensor.CollectionCapacity := by
  have htemp : dt ≠ "temperature" := by
    rcases hdt with h | h <;> rw [h] <;> decide
  have hsize : 0 < DATA_SIZE dt := by
    rcases hdt with h | h <;> rw [h] <;> decide
  have hnz : ¬ ((settingsOf sensor dt).SamplingDuration = 0 ∨
      (settingsOf sensor dt).SamplingFrequency = 0) := by
    intro hc
    unfold isExceedingCollectionCapacity at hok
    simp [htemp, hc] at hok
  have hg := settingsOf_of_nonzero sensor dt hnz
  have hval : ((value.toNat : Nat) : Int) = value := Int.toNat_of_nonneg hv
  have hW := isExceeding_within sensor setting dt value htemp hnz hsize hwithin _ _ rfl rfl
  have hle : getCollectionSize sensor
      - (if setting = "sampling_frequency"
          then ((settingsOf sensor dt).SamplingFrequency : Int)
          else ((settingsOf sensor dt).SamplingDuration : Int)) *
        (if setting = "sampling_frequency"
          then ((settingsOf sensor dt).SamplingDuration : Int)
          else ((settingsOf sensor dt).SamplingFrequency : Int)) * DATA_SIZE dt
      + value * (if setting = "sampling_frequency"
          then ((settingsOf sensor dt).SamplingDuration : Int)
          else ((settingsOf sensor dt).SamplingFrequency : Int)) * DATA_SIZE dt
      ≤ sensor.CollectionCapacity := by
    by_contra hc
    obtain ⟨max, hmax⟩ := hW.1 (by omega)
    rw [hmax] at hok
    simp at hok
  have hnew : getCollectionSize { sensor with Settings := mapSet sensor.Settings dt st' }
      = getCollectionSize sensor - entrySize (dt, settingsOf sensor dt) + entrySize (dt, st') := by
    rw [getCollectionSize_eq, getCollectionSize_eq]
    exact sum_mapSet_some sensor.Settings dt _ st' hg
  rw [hnew, entrySize_eq, entrySize_eq]
  simp only [htemp, if_false]
  rcases hst' with ⟨hs, h1, h2⟩ | ⟨hs, h1, h2⟩
  · simp only [hs, if_true] at hle
    rw [h1, h2, hval]
    linarith
  · simp only [hs, if_false] at hle
    rw [h1, h2, hval]
    linarith

theorem defaultSettingsStep_inv (acc : List (String × settings)) (t : String)
    (h : defaultsOnly acc) :
    defaultsOnly (defaultSettingsStep acc t) ∧
    ((mapGet (defaultSettingsStep acc t) "vibration").isSome
      = ((mapGet acc "vibration").isSome || decide (t = "vibration"))) ∧
    ((mapGet (defaultSettingsStep acc t) "audio").isSome
      = ((mapGet acc "audio").isSome || decide (t = "audio"))) ∧
    ((mapGet (defaultSettingsStep acc t) "temperature").isSome
      = ((mapGet acc "temperature").isSome || decide (t = "temperature"))) := by
  obtain ⟨hV, hT, hA, hsum⟩ := h
  have key : ∀ (k : String) (d : settings),
      (k = "vibration" ∨ k = "temperature" ∨ k = "audio") →
      (∀ v, mapGet acc k = some v → v = d) →
      (entrySize (k, d) = if k = "vibration" then 1200 else if k = "audio" then 16000 else 2) →
      (d = if k = "vibration" then
            { Active := true, SamplingFrequency := 100, SamplingDuration := 1 }
          else if k = "audio" then
            { Active := true, SamplingFrequency := 8000, SamplingDuration := 1 }
          else { Active := true, SamplingFrequency := 0, SamplingDuration := 0 }) →
      defaultsOnly (mapSet acc k d) ∧
      ((mapGet (mapSet acc k d) "vibration").isSome
        = ((mapGet acc "vibration").isSome || decide (k = "vibration"))) ∧
      ((mapGet (mapSet acc k d) "audio").isSome
        = ((mapGet acc "audio").isSome || decide (k = "audio"))) ∧
      ((mapGet (mapSet acc k d) "temperature").isSome
        = ((mapGet acc "temperature").isSome || decide (k = "temperature"))) := by
    intro k d hk hd hsz hdef
    cases hg : mapGet acc k with
    | some v =>
      have hv := hd v hg
      subst hv
      rw [mapSet_eq_self acc k v hg]
      refine ⟨⟨hV, hT, hA, hsum⟩, ?_, ?_, ?_⟩
      · by_cases hkv : k = "vibration"
        · subst hkv; simp [hg]
        · simp [hkv]
      · by_cases hkv : k = "audio"
        · subst hkv; simp [hg]
        · simp [hkv]
      · by_cases hkv : k = "temperature"
        · subst hkv; simp [hg]
        · simp [hkv]
    | none =>
      have hs := sum_mapSet_none acc k d hg
      rcases hk with hk | hk | hk
      · subst hk
        have e1 : mapGet (mapSet acc "vibration" d) "audio" = mapGet acc "audio" :=
          mapGet_mapSet_ne _ _ _ _ (by decide)
        have e2 : mapGet (mapSet acc "vibration" d) "temperature" = mapGet acc "temperature" :=
          mapGet_mapSet_ne _ _ _ _ (by decide)
        have e0 := mapGet_mapSet_self acc "vibration" d
        simp only [if_true] at hsz hdef
        refine ⟨⟨?_, ?_, ?_, ?_⟩, ?_, ?_, ?_⟩
        · intro v hv; rw [e0] at hv; cases hv; exact hdef
        · intro v hv; rw [e2] at hv; exact hT v hv
        · intro v hv; rw [e1] at hv; exact hA v hv
        · rw [hs, hsum, e0, e1, e2, hg, hsz]; simp; ring
        · rw [e0]; simp
        · rw [e1]; simp
        · rw [e2]; simp
      · subst hk
        have e1 : mapGet (mapSet acc "temperature" d) "audio" = mapGet acc "audio" :=
          mapGet_mapSet_ne _ _ _ _ (by decide)
        have e2 : mapGet (mapSet acc "temperature" d) "vibration" = mapGet acc "vibration" :=
          mapGet_mapSet_ne _ _ _ _ (by decide)
        have e0 := mapGet_mapSet_self acc "temperature" d
        simp only [show ("temperature" : String) ≠ "vibration" by decide,
          show ("temperature" : String) ≠ "audio" by decide, if_false] at hsz hdef
        refine ⟨⟨?_, ?_, ?_, ?_⟩, ?_, ?_, ?_⟩
        · intro v hv; rw [e2] at hv; exact hV v hv
        · intro v hv; rw [e0] at hv; cases hv; exact hdef
        · intro v hv; rw [e1] at hv; exact hA v hv
        · rw [hs, hsum, e0, e1, e2, hg, hsz]; simp
        · rw [e2]; simp
        · rw [e1]; simp
        · rw [e0]; simp
      · subst hk
        have e1 : mapGet (mapSet acc "audio" d) "vibration" = mapGet acc "vibration" :=
          mapGet_mapSet_ne _ _ _ _ (by decide)
        have e2 : mapGet (mapSet acc "audio" d) "temperature" = mapGet acc "temperature" :=
          mapGet_mapSet_ne _ _ _ _ (by decide)
        have e0 := mapGet_mapSet_self acc "audio" d
        simp only [show ("audio" : String) ≠ "vibration" by decide, if_false, if_true]
          at hsz hdef
        refine ⟨⟨?_, ?_, ?_, ?_⟩, ?_, ?_, ?_⟩
        · intro v hv; rw [e1] at hv; exact hV v hv
        · intro v hv; rw [e2] at hv; exact hT v hv
        · intro v hv; rw [e0] at hv; cases hv; exact hdef
        · rw [hs, hsum, e0, e1, e2, hg, hsz]; simp; ring
        · rw [e1]; simp
        · rw [e0]; simp
        · rw [e2]; simp
  unfold defaultSettingsStep
  by_cases h1 : t = "vibration"
  · subst h1
    simp only [if_true]
    exact key "vibration" _ (Or.inl rfl) hV (by decide) (by decide)
  · by_cases h2 : t = "temperature"
    · subst h2
      simp only [h1, if_false, if_true]
      have := key "temperature" _ (Or.inr (Or.inl rfl)) hT (by decide) (by decide)
      simpa using this
    · by_cases h3 : t = "audio"
      · subst h3
        simp only [h1, h2, if_false, if_true]
        have := key "audio" _ (Or.inr (Or.inr rfl)) hA (by decide) (by decide)
        simpa using this
      · simp only [h1, h2, h3, if_false]
        refine ⟨⟨hV, hT, hA, hsum⟩, ?_, ?_, ?_⟩ <;> simp

theorem foldl_defaultSettings (types : List String) (acc : List (String × settings))
    (h : defaultsOnly acc) :
    defaultsOnly (types.foldl defaultSettingsStep acc) ∧
    ((mapGet (types.foldl defaultSettingsStep acc) "vibration").isSome
      = ((mapGet acc "vibration").isSome || decide ("vibration" ∈ types))) ∧
    ((mapGet (types.foldl defaultSettingsStep acc) "audio").isSome
      = ((mapGet acc "audio").isSome || decide ("audio" ∈ types))) ∧
    ((mapGet (types.foldl defaultSettingsStep acc) "temperature").isSome
      = ((mapGet acc "temperature").isSome || decide ("temperature" ∈ types))) := by
  induction types generalizing acc with
  | nil => simp [h]
  | cons t ts ih =>
    obtain ⟨h', e1, e2, e3⟩ := defaultSettingsStep_inv acc t h
    obtain ⟨r, f1, f2, f3⟩ := ih (defaultSettingsStep acc t) h'
    simp only [List.foldl_cons]
    refine ⟨r, ?_, ?_, ?_⟩
    · rw [f1, e1]; simp [Bool.or_assoc, eq_comm]
    · rw [f2, e2]; simp [Bool.or_assoc, eq_comm]
    · rw [f3, e3]; simp [Bool.or_assoc, eq_comm]

theorem getDefaultSensor_size (now : Int) (mac : MacAddress) (types : List String)
    (collectionCapacity : Nat) (publicKey : RsaPublicKey) :
    getCollectionSize (getDefaultSensor now mac types collectionCapacity publicKey)
      = defaultSize types := by
  have h0 : defaultsOnly [] := by
    refine ⟨?_, ?_, ?_, ?_⟩ <;> simp [mapGet]
  obtain ⟨⟨_, _, _, hsum⟩, f1, f2, f3⟩ := foldl_defaultSettings types [] h0
  rw [getCollectionSize_eq]
  simp only [getDefaultSensor]
  rw [hsum, f1, f2, f3]
  simp [mapGet, defaultSize]

theorem updateTypeSetting_within (sensor sensor' : Sensor) (dt setting value : String)
    (hdt : dt = "vibration" ∨ dt = "temperature" ∨ dt = "audio")
    (htemp : dt = "temperature" → (mapGet sensor.Settings "temperature").isSome = true)
    (hwithin : getCollectionSize sensor ≤ sensor.CollectionCapacity)
    (h : updateTypeSetting sensor dt setting value = some (.ok sensor')) :
    getCollectionSize sensor' ≤ sensor'.CollectionCapacity := by
  unfold updateTypeSetting at h
  by_cases h1 : setting = "active"
  · rw [if_pos h1] at h
    cases h
    exact within_mapSet_same_size sensor dt _ (by simp [entrySize]) htemp hwithin
  rw [if_neg h1] at h
  by_cases h2 : setting = "sampling_frequency"
  · rw [if_pos h2] at h
    cases hA : Atoi value with
    | none => simp only [hA] at h; cases h
    | some v =>
      simp only [hA] at h
      by_cases hr : v < 0 ∨ v > 4294967295
      · rw [if_pos hr] at h; cases h
      rw [if_neg hr] at h
      cases hE : isExceedingCollectionCapacity sensor "sampling_frequency" v dt with
      | none => simp only [hE] at h; cases h
      | some r =>
        cases r with
        | some e => simp only [hE] at h; cases h
        | none =>
          simp only [hE] at h
          cases h
          by_cases ht : dt = "temperature"
          · exact within_mapSet_same_size sensor dt _ (by simp [entrySize, ht]) htemp hwithin
          · exact within_after_validator sensor "sampling_frequency" dt v _
              (by rcases hdt with h | h | h; exacts [Or.inl h, absurd h ht, Or.inr h])
              (by omega) hE (Or.inl ⟨rfl, rfl, rfl⟩) hwithin
  rw [if_neg h2] at h
  by_cases h3 : setting = "sampling_duration"
  · rw [if_pos h3] at h
    cases hA : Atoi value with
    | none => simp only [hA] at h; cases h
    | some v =>
      simp only [hA] at h
      by_cases hr : v < 0 ∨ v > 65535
      · rw [if_pos hr] at h; cases h
      rw [if_neg hr] at h
      cases hE : isExceedingCollectionCapacity sensor "sampling_duration" v dt with
      | none => simp only [hE] at h; cases h
      | some r =>
        cases r with
        | some e => simp only [hE] at h; cases h
        | none =>
          simp only [hE] at h
          cases h
          by_cases ht : dt = "temperature"
          · exact within_mapSet_same_size sensor dt _ (by simp [entrySize, ht]) htemp hwithin
          · exact within_after_validator sensor "sampling_duration" dt v _
              (by rcases hdt with h | h | h; exacts [Or.inl h, absurd h ht, Or.inr h])
              (by omega) hE (Or.inr ⟨by decide, rfl, rfl⟩) hwithin
  rw [if_neg h3] at h
  cases h

theorem setWakeUpInterval_settings (sensor sensor' : Sensor) (value : String)
    (h : setWakeUpInterval sensor value = .ok sensor') :
    sensor'.Settings = sensor.Settings ∧ sensor'.CollectionCapacity = sensor.CollectionCapacity := by
  unfold setWakeUpInterval at h
  cases hA : Atoi value with
  | none => simp [hA] at h
  | some v =>
    simp only [hA] at h
    split at h
    · cases h
    · cases h; exact ⟨rfl, rfl⟩

theorem setWakeUpIntervalMaxOffset_settings (sensor sensor' : Sensor) (value : String)
    (h : setWakeUpIntervalMaxOffset sensor value = .ok sensor') :
    sensor'.Settings = sensor.Settings ∧ sensor'.CollectionCapacity = sensor.CollectionCapacity := by
  unfold setWakeUpIntervalMaxOffset at h
  cases hA : Atoi value with
  | none => simp [hA] at h
  | some v =>
    simp only [hA] at h
    split at h
    · cases h
    · cases h; exact ⟨rfl, rfl⟩

theorem updateSensor_within (now : Int) (sensor sensor' : Sensor) (setting value : String)
    (hwithin : getCollectionSize sensor ≤ sensor.CollectionCapacity)
    (hauto : setting ≠ "auto")
    (htemp : settingDataType setting = "temperature" →
      (mapGet sensor.Settings "temperature").isSome = true)
    (h : updateSensor now sensor setting value = some (.ok sensor')) :
    getCollectionSize sensor' ≤ sensor'.CollectionCapacity := by
  unfold updateSensor at h
  rw [if_neg hauto] at h
  by_cases h1 : setting = "name"
  · rw [if_pos h1] at h
    cases h
    exact hwithin
  rw [if_neg h1] at h
  by_cases h2 : setting = "wake_up_interval"
  · rw [if_pos h2] at h
    obtain ⟨e1, e2⟩ := setWakeUpInterval_settings sensor sensor' value (by simpa using h)
    rw [getCollectionSize, e1, e2]
    exact hwithin
  rw [if_neg h2] at h
  by_cases h3 : setting = "wake_up_interval_max_offset"
  · rw [if_pos h3] at h
    obtain ⟨e1, e2⟩ := setWakeUpIntervalMaxOffset_settings sensor sensor' value (by simpa using h)
    rw [getCollectionSize, e1, e2]
    exact hwithin
  rw [if_neg h3] at h
  simp only at h
  by_cases h4 : (splitUnderscore setting.data).length < 2
  · rw [if_pos h4] at h; cases h
  rw [if_neg h4] at h
  by_cases h5 : String.mk ((splitUnderscore setting.data).headD []) ≠ "vibration" ∧
      String.mk ((splitUnderscore setting.data).headD []) ≠ "temperature" ∧
      String.mk ((splitUnderscore setting.data).headD []) ≠ "audio"
  · rw [if_pos h5] at h; cases h
  rw [if_neg h5] at h
  refine updateTypeSetting_within sensor sensor' _ _ value ?_ htemp hwithin h
  by_contra hc
  simp only [not_or] at hc
  exact h5 ⟨hc.1, hc.2.1, hc.2.2⟩

theorem findSensor_lookup (mac : MacAddress) (sensors : List Sensor) :
    (findSensor mac sensors).bind sensors.get? = lookupSensor mac sensors := by
  induction sensors with
  | nil => simp [findSensor, lookupSensor]
  | cons x rest ih =>
    by_cases h : x.Mac = mac
    · simp [findSensor, lookupSensor, h]
    · cases hf : findSensor mac rest with
      | none => simp [findSensor, lookupSensor, h, hf] at ih ⊢; exact ih
      | some i =>
        simp only [hf, Option.some_bind] at ih
        simp [findSensor, lookupSensor, h, hf, ← ih]

theorem UpdateSensorSetting_within (now : Int) (save : List Sensor → Option Err)
    (mac : MacAddress) (setting value : String) (sensors sensors' : List Sensor)
    (err : Option Err)
    (hall : ∀ s ∈ sensors, getCollectionSize s ≤ s.CollectionCapacity)
    (hauto : setting ≠ "auto")
    (htemp : settingDataType setting = "temperature" → ∀ sensor,
      lookupSensor mac sensors = some sensor →
      (mapGet sensor.Settings "temperature").isSome = true)
    (h : UpdateSensorSetting now save mac setting value sensors = some (err, sensors')) :
    ∀ s ∈ sensors', getCollectionSize s ≤ s.CollectionCapacity := by
  unfold UpdateSensorSetting at h
  cases hf : findSensor mac sensors with
  | none =>
    simp only [hf] at h
    cases h
    exact hall
  | some i =>
    simp only [hf] at h
    cases hg : sensors.get? i with
    | none =>
      simp only [hg] at h
      cases h
      exact hall
    | some sensor =>
      simp only [hg] at h
      have hl : lookupSensor mac sensors = some sensor := by
        rw [← findSensor_lookup mac sensors, hf]
        simpa using hg
      have hmem : sensor ∈ sensors := List.get?_mem hg
      cases hu : updateSensor now sensor setting value with
      | none => simp only [hu] at h; cases h
      | some r =>
        cases r with
        | error e =>
          simp only [hu] at h
          cases h
          exact hall
        | ok sensor' =>
          simp only [hu, Option.some.injEq, Prod.mk.injEq] at h
          obtain ⟨_, rfl⟩ := h
          have hs' := updateSensor_within now sensor sensor' setting value (hall sensor hmem)
            hauto (fun ht => htemp ht sensor hl) hu
          intro s hs
          rcases List.mem_or_eq_of_mem_set hs with hin | rfl
          · exact hall s hin
          · exact hs'

/-! ### Claims -/

/-- C5 (counterexample). A vibration sensor at 100 Hz for 1 s with capacity 1187
(so already above it): the candidate frequency 99 is accepted although
99 × 1 × 12 = 1188 exceeds 1187. -/
theorem isExceeding_accepts_over_capacity :
    settingsOf (demoSensor 1187) "vibration"
        = { Active := true, SamplingFrequency := 100, SamplingDuration := 1 } ∧
      isExceedingCollectionCapacity (demoSensor 1187) "sampling_frequency" 99 "vibration"
        = some none ∧
      (99 : Int) * 1 * 12 + otherTypesSize (demoSensor 1187) "vibration"
        > (demoSensor 1187).CollectionCapacity := by
  decide

/-- C5 (amended). For a sensor that is within its capacity, whose vibration
setting has non-zero frequency and non-zero duration `d`: the validator returns
the capacity-exceeded error for candidate frequency `v` when `v × d × 12` plus
the size of the other types is greater than the capacity, and `nil` when it is
at most the capacity. -/
theorem isExceeding_vibration_frequency (sensor : Sensor) (st : settings) (v : Int)
    (hkeys : (sensor.Settings.map Prod.fst).Nodup)
    (hst : mapGet sensor.Settings "vibration" = some st)
    (hf : st.SamplingFrequency ≠ 0) (hd : st.SamplingDuration ≠ 0)
    (hwithin : getCollectionSize sensor ≤ sensor.CollectionCapacity) :
    (v * st.SamplingDuration * 12 + otherTypesSize sensor "vibration"
        > sensor.CollectionCapacity →
      ∃ max, isExceedingCollectionCapacity sensor "sampling_frequency" v "vibration"
        = some (some (.exceedsCapacity "sampling_frequency" max))) ∧
    (v * st.SamplingDuration * 12 + otherTypesSize sensor "vibration"
        ≤ sensor.CollectionCapacity →
      isExceedingCollectionCapacity sensor "sampling_frequency" v "vibration" = some none) := by
  have hso : settingsOf sensor "vibration" = st := by simp [settingsOf, hst]
  have hsplit : getCollectionSize sensor
      = (st.SamplingFrequency : Int) * st.SamplingDuration * 12
        + otherTypesSize sensor "vibration" := by
    rw [getCollectionSize_eq, otherTypesSize, getCollectionSize_eq,
      sum_mapDelete sensor.Settings "vibration" st hkeys hst]
    simp [entrySize]
  have hds : DATA_SIZE "vibration" = 12 := by decide
  have h := isExceeding_within sensor "sampling_frequency" "vibration" v (by decide)
    (by rw [hso]; omega) (by decide) hwithin st.SamplingFrequency st.SamplingDuration
    (by simp [hso]) (by simp [hso])
  rw [hds, hsplit] at h
  constructor
  · intro hv
    exact h.1 (by linarith)
  · intro hv
    exact h.2 (by linarith)

/-- Witness for C5 (amended): capacity 1200 is the boundary for 100 Hz × 1 s. -/
theorem isExceeding_vibration_frequency_witness :
    isExceedingCollectionCapacity (demoSensor 1200) "sampling_frequency" 100 "vibration"
      = some none :=
  (isExceeding_vibration_frequency (demoSensor 1200)
    { Active := true, SamplingFrequency := 100, SamplingDuration := 1 } 100
    (by decide) (by rfl) (by decide) (by decide) (by decide)).2 (by decide)

/-- C6 (counterexample). A sensor created by `getDefaultSensor` with capacity 0 has
collection size 1200; a sensor exactly at its capacity of 1200 bytes leaves it
after the successful update `temperature_active`, which adds a temperature
entry; a sensor of capacity 1000 using 600 bytes leaves it after `auto`. -/
theorem collectionSize_invariant_broken :
    (getCollectionSize (demoSensor 0) = 1200 ∧ (demoSensor 0).CollectionCapacity = 0) ∧
    (getCollectionSize (demoSensor 1200) ≤ (demoSensor 1200).CollectionCapacity ∧
      (UpdateSensorSetting 0 saveOk macA "temperature_active" "true" [demoSensor 1200]).map
        (fun r => (r.1, r.2.map (fun s => (getCollectionSize s, s.CollectionCapacity))))
        = some (none, [(1202, 1200)])) ∧
    (getCollectionSize demoSlow ≤ demoSlow.CollectionCapacity ∧
      (UpdateSensorSetting 0 saveOk macA "auto" "" [demoSlow]).map
        (fun r => (r.1, r.2.map (fun s => (getCollectionSize s, s.CollectionCapacity))))
        = some (none, [(1200, 1000)])) := by
  refine ⟨⟨by decide, by decide⟩, ⟨by decide, by rfl⟩, ⟨by decide, by rfl⟩⟩

/-- C6 (amended). A sensor created by `getDefaultSensor`, and a sensor after an
`auto` reset, has the collection size of the defaults of its declared types
(1200 for vibration, 16000 for audio, 2 for temperature) and the capacity it
was given, so it is within capacity exactly when that sum is at most the
capacity. If every sensor of the registry is within its capacity, then after
every `UpdateSensorSetting` call whose setting is not `auto`, and which does not
address the temperature type of a sensor without a temperature entry, every
sensor of the registry is within its capacity. -/
theorem collectionSize_invariant_amended (now : Int) (save : List Sensor → Option Err) :
    (∀ (mac : MacAddress) (types : List String) (cap : Nat) (key : RsaPublicKey),
      getCollectionSize (getDefaultSensor now mac types cap key) = defaultSize types ∧
      (getDefaultSensor now mac types cap key).CollectionCapacity = cap) ∧
    (∀ (sensor : Sensor) (value : String), ∃ sensor',
      updateSensor now sensor "auto" value = some (.ok sensor') ∧
      getCollectionSize sensor' = defaultSize sensor.Types ∧
      sensor'.CollectionCapacity = sensor.CollectionCapacity) ∧
    (∀ (mac : MacAddress) (setting value : String) (sensors sensors' : List Sensor)
      (err : Option Err),
      (∀ s ∈ sensors, getCollectionSize s ≤ s.CollectionCapacity) →
      setting ≠ "auto" →
      (settingDataType setting = "temperature" → ∀ sensor,
        lookupSensor mac sensors = some sensor →
        (mapGet sensor.Settings "temperature").isSome = true) →
      UpdateSensorSetting now save mac setting value sensors = some (err, sensors') →
      ∀ s ∈ sensors', getCollectionSize s ≤ s.CollectionCapacity) := by
  refine ⟨?_, ?_, ?_⟩
  · intro mac types cap key
    exact ⟨getDefaultSensor_size now mac types cap key, rfl⟩
  · intro sensor value
    refine ⟨_, ?_, getDefaultSensor_size now sensor.Mac sensor.Types sensor.CollectionCapacity
      sensor.PublicKey, rfl⟩
    unfold updateSensor
    rw [if_pos rfl]
  · intro mac setting value sensors sensors' err hall hauto htemp h
    exact UpdateSensorSetting_within now save mac setting value sensors sensors' err hall
      hauto htemp h

/-- Witness for C6 (amended): raising the vibration frequency of a sensor of capacity
20000 to 200 Hz. -/
theorem collectionSize_invariant_amended_witness :
    ∀ s ∈ [demoFaster], getCollectionSize s ≤ s.CollectionCapacity :=
  (collectionSize_invariant_amended 0 saveOk).2.2 macA "vibration_sampling_frequency" "200"
    [demoSensor 20000] [demoFaster] none
    (by intro s hs; simp only [List.mem_singleton] at hs; subst hs; decide)
    (by decide) (by intro h; exact absurd h (by decide)) (by rfl)

/-- C7 (counterexample). A vibration entry that is switched off still counts its
100 × 1 × 12 bytes, where a sum over the active types is 0. -/
theorem getCollectionSize_counts_inactive :
    (settingsOf demoInactive "vibration").Active = false ∧
      getCollectionSize demoInactive = 1200 ∧ activeCollectionSize demoInactive = 0 := by
  decide

/-- C7 (amended). `getCollectionSize` is the sum over all entries of the settings
map, whatever their active flag, of frequency × duration × sample size (12 for
vibration, 2 for audio, 0 for another key), a temperature entry counting the
constant 2 whatever its frequency and duration; setting every active flag to
any value leaves the result unchanged. -/
theorem getCollectionSize_sum_all_entries (sensor : Sensor) :
    getCollectionSize sensor = (sensor.Settings.map (fun e =>
        if e.1 = "temperature" then (2 : Int)
        else (e.2.SamplingFrequency : Int) * (e.2.SamplingDuration : Int) *
          (if e.1 = "vibration" then 12 else if e.1 = "audio" then 2 else 0))).sum ∧
    ∀ flag : Bool, getCollectionSize { sensor with
        Settings := sensor.Settings.map (fun e => (e.1, { e.2 with Active := flag })) }
      = getCollectionSize sensor := by
  constructor
  · rw [getCollectionSize_eq]
    rfl
  · intro flag
    rw [getCollectionSize_eq, getCollectionSize_eq]
    simp only [List.map_map]
    rfl

/-! ## Theorems: telemetry decoder and delivery -/

/-! ### Helper lemmas -/

theorem word32_isSome (data : List Nat) (off : Nat) (h : off + 4 ≤ data.length) :
    ∃ w, word32 data off = some w := by
  unfold word32 byteAt
  rw [List.get?_eq_get (by omega : off < data.length),
    List.get?_eq_get (by omega : off + 1 < data.length),
    List.get?_eq_get (by omega : off + 2 < data.length),
    List.get?_eq_get (by omega : off + 3 < data.length)]
  exact ⟨_, rfl⟩

/-- The vibration loop stays inside the data segment and returns `count` samples per
axis whenever `count` whole samples lie behind the 8-byte header. -/
theorem vibrationLoop_total (data : List Nat) (count i : Nat)
    (h : 8 + 12 * (i + count) ≤ data.length) :
    ∃ xs ys zs, vibrationLoop data count i = some (xs, ys, zs) ∧
      xs.length = count ∧ ys.length = count ∧ zs.length = count := by
  induction count generalizing i with
  | zero => exact ⟨[], [], [], rfl, rfl, rfl, rfl⟩
  | succ n ih =>
    obtain ⟨x, hx⟩ := word32_isSome data (8 + i * 12) (by omega)
    obtain ⟨y, hy⟩ := word32_isSome data (12 + i * 12) (by omega)
    obtain ⟨z, hz⟩ := word32_isSome data (16 + i * 12) (by omega)
    obtain ⟨xs, ys, zs, hrest, h1, h2, h3⟩ := ih (i + 1) (by omega)
    refine ⟨x :: xs, y :: ys, z :: zs, ?_, by simp [h1], by simp [h2], by simp [h3]⟩
    simp only [vibrationLoop, hx, hy, hz, hrest]

theorem sendMeasurements_posted {G : Type} (f : ServerFns G) (backend : Nat → PostResult)
    (gateway : G) (jsonData : List Nat) (d : Delivery) :
    (sendMeasurements f backend gateway jsonData d).2.backlog = d.backlog ∧
    ∃ more, (sendMeasurements f backend gateway jsonData d).2.posted = d.posted ++ more ∧
      ∀ body, f.requestBody gateway jsonData = some body → more = [body] := by
  unfold sendMeasurements
  cases hb : f.requestBody gateway jsonData with
  | none => exact ⟨rfl, [], by simp, by simp⟩
  | some body => exact ⟨rfl, [body], rfl, by simp⟩

theorem resendStep_posted {G : Type} (f : ServerFns G) (backend : Nat → PostResult)
    (gateway : G) (d : Delivery) (file : Int) :
    ∃ more, (resendStep f backend gateway d file).posted = d.posted ++ more := by
  unfold resendStep
  cases hg : mapGet d.backlog file with
  | none => exact ⟨[], by simp⟩
  | some data =>
    obtain ⟨_, more, hmore, _⟩ := sendMeasurements_posted f backend gateway data d
    simp only
    rcases hs : sendMeasurements f backend gateway data d with ⟨r, d'⟩
    rw [hs] at hmore
    cases r with
    | err => exact ⟨more, hmore⟩
    | response statusCode contentLength =>
      simp only
      split
      · exact ⟨more, hmore⟩
      · exact ⟨more, hmore⟩

theorem sendUnsentMeasurements_posted {G : Type} (f : ServerFns G) (backend : Nat → PostResult)
    (gateway : G) (d : Delivery) :
    ∃ more, (sendUnsentMeasurements f backend gateway d).posted = d.posted ++ more := by
  unfold sendUnsentMeasurements
  generalize readDir d.backlog = files
  induction files generalizing d with
  | nil => exact ⟨[], by simp⟩
  | cons file rest ih =>
    obtain ⟨m1, h1⟩ := resendStep_posted f backend gateway d file
    obtain ⟨m2, h2⟩ := ih (resendStep f backend gateway d file)
    exact ⟨m1 ++ m2, by simp only [List.foldl_cons, h2, h1, List.append_assoc]⟩

/-- Whenever `deliver` returns and the request body could be built, that body was
posted right after what had been posted before. -/
theorem deliver_posted {G : Type} (f : ServerFns G) (backend : Nat → PostResult)
    (gateway : G) (jsonData body : List Nat) (timestamp : Int) (d d' : Delivery)
    (hb : f.requestBody gateway jsonData = some body)
    (h : deliver f backend gateway jsonData timestamp d = some d') :
    ∃ more, d'.posted = d.posted ++ body :: more := by
  unfold deliver at h
  have hs : sendMeasurements f backend gateway jsonData d
      = (backend d.posted.length, { d with posted := d.posted ++ [body] }) := by
    simp [sendMeasurements, hb]
  rw [hs] at h
  cases hr : backend d.posted.length with
  | err =>
    simp only [hr, Option.some.injEq] at h
    subst h
    exact ⟨[], rfl⟩
  | response statusCode contentLength =>
    simp only [hr] at h
    split at h
    · split at h
      · cases h
      · cases h
        exact ⟨[], rfl⟩
    · cases h
      obtain ⟨more, hm⟩ := sendUnsentMeasurements_posted f backend gateway
        { d with posted := d.posted ++ [body] }
      exact ⟨more, by simp [hm]⟩

theorem or_shift_bytes (b0 b1 b2 b3 : Nat) (h0 : b0 < 256) (h1 : b1 < 256) (h2 : b2 < 256)
    (h3 : b3 < 256) :
    ((b0 % 2 ^ 32) ||| (((b1 % 2 ^ 32) <<< 8) % 2 ^ 32) |||
      (((b2 % 2 ^ 32) <<< 16) % 2 ^ 32) ||| (((b3 % 2 ^ 32) <<< 24) % 2 ^ 32))
    = b0 + 256 * b1 + 65536 * b2 + 16777216 * b3 := by
  have e0 : b0 % 2 ^ 32 = b0 := Nat.mod_eq_of_lt (by omega)
  have e1 : b1 % 2 ^ 32 = b1 := Nat.mod_eq_of_lt (by omega)
  have e2 : b2 % 2 ^ 32 = b2 := Nat.mod_eq_of_lt (by omega)
  have e3 : b3 % 2 ^ 32 = b3 := Nat.mod_eq_of_lt (by omega)
  rw [e0, e1, e2, e3]
  have s1 : b1 <<< 8 = 2 ^ 8 * b1 := by rw [Nat.shiftLeft_eq, Nat.mul_comm]
  have s2 : b2 <<< 16 = 2 ^ 16 * b2 := by rw [Nat.shiftLeft_eq, Nat.mul_comm]
  have s3 : b3 <<< 24 = 2 ^ 24 * b3 := by rw [Nat.shiftLeft_eq, Nat.mul_comm]
  rw [s1, s2, s3]
  have m1 : (2 ^ 8 * b1) % 2 ^ 32 = 2 ^ 8 * b1 := Nat.mod_eq_of_lt (by omega)
  have m2 : (2 ^ 16 * b2) % 2 ^ 32 = 2 ^ 16 * b2 := Nat.mod_eq_of_lt (by omega)
  have m3 : (2 ^ 24 * b3) % 2 ^ 32 = 2 ^ 24 * b3 := Nat.mod_eq_of_lt (by omega)
  rw [m1, m2, m3]
  have a1 : b0 ||| 2 ^ 8 * b1 = 2 ^ 8 * b1 + b0 := by
    rw [Nat.or_comm, ← Nat.mul_add_lt_is_or (by omega : b0 < 2 ^ 8)]
  have a2 : (2 ^ 8 * b1 + b0) ||| 2 ^ 16 * b2 = 2 ^ 16 * b2 + (2 ^ 8 * b1 + b0) := by
    rw [Nat.or_comm, ← Nat.mul_add_lt_is_or (by omega : 2 ^ 8 * b1 + b0 < 2 ^ 16)]
  have a3 : (2 ^ 16 * b2 + (2 ^ 8 * b1 + b0)) ||| 2 ^ 24 * b3
      = 2 ^ 24 * b3 + (2 ^ 16 * b2 + (2 ^ 8 * b1 + b0)) := by
    rw [Nat.or_comm,
      ← Nat.mul_add_lt_is_or (by omega : 2 ^ 16 * b2 + (2 ^ 8 * b1 + b0) < 2 ^ 24)]
  rw [a1, a2, a3]
  omega

/-- Inside the data, on bytes below 256, the word assembled with shifts and bitwise
or is the little-endian word. -/
theorem word32_eq_littleEndian32 (data : List Nat) (off : Nat) (h : off + 4 ≤ data.length)
    (hbytes : ∀ b ∈ data, b < 256) :
    word32 data off = some (littleEndian32 data off) := by
  have g : ∀ k, k < data.length → data.get? k = some (data.getD k 0) ∧ data.getD k 0 < 256 := by
    intro k hk
    have e : data.get? k = some (data.get ⟨k, hk⟩) := List.get?_eq_get hk
    have e' : data.getD k 0 = data.get ⟨k, hk⟩ := by
      simp [List.getD_eq_getElem?_getD, List.getElem?_eq_getElem hk]
    exact ⟨by rw [e, e'], by rw [e']; exact hbytes _ (List.get_mem data k hk)⟩
  obtain ⟨g0, l0⟩ := g off (by omega)
  obtain ⟨g1, l1⟩ := g (off + 1) (by omega)
  obtain ⟨g2, l2⟩ := g (off + 2) (by omega)
  obtain ⟨g3, l3⟩ := g (off + 3) (by omega)
  unfold word32 byteAt littleEndian32
  rw [g0, g1, g2, g3]
  simp only
  rw [or_shift_bytes _ _ _ _ l0 l1 l2 l3]

/-- Sample `j` of each axis is the word read in iteration `i + j`. -/
theorem vibrationLoop_samples (data : List Nat) (count i : Nat) (xs ys zs : List Nat)
    (h : vibrationLoop data count i = some (xs, ys, zs)) :
    ∀ j, j < count →
      xs.get? j = word32 data (8 + (i + j) * 12) ∧
      ys.get? j = word32 data (12 + (i + j) * 12) ∧
      zs.get? j = word32 data (16 + (i + j) * 12) := by
  induction count generalizing i xs ys zs with
  | zero => intro j hj; omega
  | succ n ih =>
    intro j hj
    simp only [vibrationLoop] at h
    cases hx : word32 data (8 + i * 12) with
    | none => simp [hx] at h
    | some x =>
      cases hy : word32 data (12 + i * 12) with
      | none => simp [hx, hy] at h
      | some y =>
        cases hz : word32 data (16 + i * 12) with
        | none => simp [hx, hy, hz] at h
        | some z =>
          cases hr : vibrationLoop data n (i + 1) with
          | none => simp [hx, hy, hz, hr] at h
          | some rest =>
            obtain ⟨xs', ys', zs'⟩ := rest
            simp only [hx, hy, hz, hr, Option.some.injEq, Prod.mk.injEq] at h
            obtain ⟨rfl, rfl, rfl⟩ := h
            cases j with
            | zero => simp [hx, hy, hz]
            | succ k =>
              have := ih (i + 1) xs' ys' zs' hr k (by omega)
              have e : i + 1 + k = i + (k + 1) := by omega
              rw [e] at this
              simpa using this

/-- An authenticated frame of a paired sensor whose records can be built is handed
to delivery with these records. -/
theorem handleData_eq_deliver {G : Type} (f : ServerFns G) (backend : Nat → PostResult)
    (gateway : G) (timestamp : Int) (value : List Nat) (sensors : List Sensor) (d : Delivery)
    (sensor : Sensor) (ms : List Measurement)
    (hlen : 264 ≤ value.length)
    (hpaired : lookupSensor ((value.take (value.length - 256)).take 6) sensors = some sensor)
    (hsig : f.verifySignature (value.take (value.length - 256))
      (value.drop (value.length - 256)) sensor.PublicKey = true)
    (hms : buildMeasurements sensor timestamp (value.take (value.length - 256)) = some ms) :
    handleData f backend gateway timestamp value sensors d
      = (deliver f backend gateway (f.marshal ms) timestamp d).map (fun d' =>
        { records := ms, delivery := d' }) := by
  unfold handleData
  rw [if_neg (by omega)]
  simp only [hpaired, hsig, hms]
  cases deliver f backend gateway (f.marshal ms) timestamp d <;> simp

/-- A list of `count` elements whose element `j` is the little-endian word at
`off + 12 * j` is the list of samples of that axis. -/
theorem eq_axisSamples (data xs : List Nat) (count off : Nat) (hlen : xs.length = count)
    (h : ∀ j, j < count → xs.get? j = some (littleEndian32 data (off + 12 * j))) :
    xs = axisSamples data count off := by
  apply List.ext_get?
  intro j
  by_cases hj : j < count
  · rw [h j hj]
    simp [axisSamples, List.getElem?_range hj]
  · have hn : xs.get? j = none := List.get?_eq_none.mpr (by omega)
    have hm : (axisSamples data count off).get? j = none :=
      List.get?_eq_none.mpr (by simp [axisSamples]; omega)
    rw [hn, hm]

/-- On bytes below 256, the vibration loop over `count` whole samples returns, for
each axis, the little-endian words of that axis. -/
theorem vibrationLoop_axisSamples (data : List Nat) (count : Nat)
    (h : 8 + 12 * count ≤ data.length) (hbytes : ∀ b ∈ data, b < 256) :
    vibrationLoop data count 0
      = some (axisSamples data count 8, axisSamples data count 12, axisSamples data count 16) := by
  obtain ⟨xs, ys, zs, hloop, hx, hy, hz⟩ := vibrationLoop_total data count 0 (by omega)
  have hsamples := vibrationLoop_samples data count 0 xs ys zs hloop
  have e1 : ∀ j, 8 + (0 + j) * 12 = 8 + 12 * j := by intro j; omega
  have e2 : ∀ j, 12 + (0 + j) * 12 = 12 + 12 * j := by intro j; omega
  have e3 : ∀ j, 16 + (0 + j) * 12 = 16 + 12 * j := by intro j; omega
  have hxs : xs = axisSamples data count 8 := by
    apply eq_axisSamples data xs count 8 hx
    intro j hj
    rw [(hsamples j hj).1, e1]
    exact word32_eq_littleEndian32 _ _ (by omega) hbytes
  have hys : ys = axisSamples data count 12 := by
    apply eq_axisSamples data ys count 12 hy
    intro j hj
    rw [(hsamples j hj).2.1, e2]
    exact word32_eq_littleEndian32 _ _ (by omega) hbytes
  have hzs : zs = axisSamples data count 16 := by
    apply eq_axisSamples data zs count 16 hz
    intro j hj
    rw [(hsamples j hj).2.2, e3]
    exact word32_eq_littleEndian32 _ _ (by omega) hbytes
  rw [hloop, hxs, hys, hzs]

/-- The records of a vibration frame, whatever the length of its payload. -/
theorem buildMeasurements_vibration (sensor : Sensor) (timestamp : Int) (data : List Nat)
    (samplingFrequency : Nat) (h8 : 8 ≤ data.length) (hbytes : ∀ b ∈ data, b < 256)
    (hcode : data.get? 6 = some 0) (hfreq : data.get? 7 = some samplingFrequency) :
    buildMeasurements sensor timestamp data
      = some (vibrationRecords sensor timestamp samplingFrequency
          (axisSamples data ((data.length - 8) / 12) 8)
          (axisSamples data ((data.length - 8) / 12) 12)
          (axisSamples data ((data.length - 8) / 12) 16)) := by
  unfold buildMeasurements byteAt
  rw [hcode, hfreq]
  simp only [vibrationLoop_axisSamples data ((data.length - 8) / 12) (by omega) hbytes]
  rfl

theorem getD_take (data : List Nat) (n k : Nat) (h : k < n) :
    (data.take n).getD k 0 = data.getD k 0 := by
  simp [List.getD_eq_getElem?_getD, List.getElem?_take, h]

/-- The samples of an axis are read from the whole samples only. -/
theorem axisSamples_take (data : List Nat) (count off : Nat) (hoff : off ≤ 16) :
    axisSamples (data.take (8 + 12 * count)) count off = axisSamples data count off := by
  unfold axisSamples
  apply List.map_congr_left
  intro i hi
  have hi' : i < count := List.mem_range.mp hi
  unfold littleEndian32
  rw [getD_take _ _ _ (by omega), getD_take _ _ _ (by omega), getD_take _ _ _ (by omega),
    getD_take _ _ _ (by omega)]

/-- The bytes behind the last whole sample do not enter the records: the data cut to
its whole samples gives the records of the whole data. -/
theorem buildMeasurements_cut (sensor : Sensor) (timestamp : Int) (data : List Nat)
    (samplingFrequency : Nat) (h8 : 8 ≤ data.length) (hbytes : ∀ b ∈ data, b < 256)
    (hcode : data.get? 6 = some 0) (hfreq : data.get? 7 = some samplingFrequency) :
    buildMeasurements sensor timestamp (data.take (8 + 12 * ((data.length - 8) / 12)))
      = some (vibrationRecords sensor timestamp samplingFrequency
          (axisSamples data ((data.length - 8) / 12) 8)
          (axisSamples data ((data.length - 8) / 12) 12)
          (axisSamples data ((data.length - 8) / 12) 16)) := by
  have hl : (data.take (8 + 12 * ((data.length - 8) / 12))).length
      = 8 + 12 * ((data.length - 8) / 12) := by
    rw [List.length_take]
    omega
  have hc : ((data.take (8 + 12 * ((data.length - 8) / 12))).length - 8) / 12
      = (data.length - 8) / 12 := by
    rw [hl]
    omega
  have h := buildMeasurements_vibration sensor timestamp
    (data.take (8 + 12 * ((data.length - 8) / 12))) samplingFrequency (by rw [hl]; omega)
    (fun b hb => hbytes b (List.mem_of_mem_take hb))
    (by rw [List.get?_eq_getElem?, List.getElem?_take_of_lt (by omega), ← List.get?_eq_getElem?]
        exact hcode)
    (by rw [List.get?_eq_getElem?, List.getElem?_take_of_lt (by omega), ← List.get?_eq_getElem?]
        exact hfreq)
  rw [hc] at h
  rw [h, axisSamples_take _ _ _ (by omega), axisSamples_take _ _ _ (by omega),
    axisSamples_take _ _ _ (by omega)]

/-- When the request body cannot be built, `sendMeasurements` returns an error
without posting, and the batch is stored under its timestamp. -/
theorem deliver_unbuilt {G : Type} (f : ServerFns G) (backend : Nat → PostResult)
    (gateway : G) (jsonData : List Nat) (timestamp : Int) (d : Delivery)
    (hb : f.requestBody gateway jsonData = none) :
    deliver f backend gateway jsonData timestamp d
      = some { backlog := mapSet d.backlog timestamp jsonData, posted := d.posted } := by
  unfold deliver
  simp [sendMeasurements, hb, saveUnsentMeasurements]

/-- A failed send whose response declares a length that `make` accepts, or a
transport error: the batch is stored under its timestamp, nothing is resent,
and no other backlog entry changes. -/
theorem deliver_failure {G : Type} (f : ServerFns G) (backend : Nat → PostResult)
    (gateway : G) (jsonData body : List Nat) (timestamp : Int) (d : Delivery)
    (hb : f.requestBody gateway jsonData = some body)
    (hfail : backend d.posted.length = .err ∨
      ∃ statusCode contentLength, backend d.posted.length = .response statusCode contentLength ∧
        statusCode ≠ 200 ∧ 0 ≤ contentLength ∧ contentLength ≤ f.maxAlloc) :
    deliver f backend gateway jsonData timestamp d
      = some { backlog := mapSet d.backlog timestamp jsonData, posted := d.posted ++ [body] } := by
  unfold deliver
  have hs : sendMeasurements f backend gateway jsonData d
      = (backend d.posted.length, { d with posted := d.posted ++ [body] }) := by
    simp [sendMeasurements, hb]
  rw [hs]
  rcases hfail with hr | ⟨statusCode, contentLength, hr, hne, hlen, hmax⟩
  · simp [hr, saveUnsentMeasurements]
  · simp [hr, hne, saveUnsentMeasurements, hlen, hmax]

/-! ### Claims -/

/-- C8 (counterexample). An authenticated vibration frame from a paired sensor whose
payload is one byte long (not a multiple of 12) yields three records, and one
request is posted to the backend. -/
theorem handleData_vibration_partial_sample :
    ((demoFrame 0 [9]).length - 256 - 8) % 12 ≠ 0 ∧
    (handleData demoServerFns backendOk () 1000 (demoFrame 0 [9]) demoRegistry
        Delivery.empty).map
      (fun h => (h.records.map (fun r => (r.axis, r.raw_data)), h.delivery.posted.length))
      = some ([(some "x", .floats []), (some "y", .floats []), (some "z", .floats [])], 1) := by
  constructor
  · decide
  · rfl

/-- C8 (amended). For every authenticated frame from a paired sensor with type
code 0x00, whatever its payload length, with `k` the whole number of 12-byte
samples in the payload: the decode loop reads only bytes of these `k` samples
and does not panic; `handleData` builds exactly three records, tagged x, y and
z, each holding `k` samples, sample `i` being the little-endian word at data
offset 8+12i, 12+12i and 16+12i; the bytes behind the last whole sample are
ignored, the frame cut to its whole samples giving the same records. The
serialized batch is then handed to delivery like any other: whenever
`handleData` returns and the request body could be built, that request was
posted; when the request body cannot be built, nothing is posted and the
serialized batch is stored in the backlog under the timestamp. -/
theorem handleData_vibration_any_length {G : Type} (f : ServerFns G)
    (backend : Nat → PostResult) (gateway : G) (timestamp : Int) (value : List Nat)
    (sensors : List Sensor) (d : Delivery) (sensor : Sensor) (samplingFrequency : Nat)
    (hlen : 264 ≤ value.length)
    (hbytes : ∀ b ∈ value, b < 256)
    (hpaired : lookupSensor ((value.take (value.length - 256)).take 6) sensors = some sensor)
    (hsig : f.verifySignature (value.take (value.length - 256))
      (value.drop (value.length - 256)) sensor.PublicKey = true)
    (hcode : (value.take (value.length - 256)).get? 6 = some 0)
    (hfreq : (value.take (value.length - 256)).get? 7 = some samplingFrequency) :
    ∃ (data : List Nat) (k : Nat) (records : List Measurement),
      data = value.take (value.length - 256) ∧
      k = (data.length - 8) / 12 ∧
      records = vibrationRecords sensor timestamp samplingFrequency
        (axisSamples data k 8) (axisSamples data k 12) (axisSamples data k 16) ∧
      (axisSamples data k 8).length = k ∧ (axisSamples data k 12).length = k ∧
      (axisSamples data k 16).length = k ∧
      (∀ i, i < k → 16 + 12 * i + 3 < 8 + 12 * k ∧ 8 + 12 * k ≤ data.length) ∧
      buildMeasurements sensor timestamp data = some records ∧
      buildMeasurements sensor timestamp (data.take (8 + 12 * k)) = some records ∧
      handleData f backend gateway timestamp value sensors d
        = (deliver f backend gateway (f.marshal records) timestamp d).map (fun d' =>
          { records := records, delivery := d' }) ∧
      (∀ h body, handleData f backend gateway timestamp value sensors d = some h →
        f.requestBody gateway (f.marshal records) = some body →
        h.records = records ∧ ∃ more, h.delivery.posted = d.posted ++ body :: more) ∧
      (f.requestBody gateway (f.marshal records) = none →
        handleData f backend gateway timestamp value sensors d
          = some { records := records,
                   delivery := { backlog := mapSet d.backlog timestamp (f.marshal records),
                                 posted := d.posted } }) := by
  have hdl : (value.take (value.length - 256)).length = value.length - 256 := by
    simp
  have hdb : ∀ b ∈ value.take (value.length - 256), b < 256 :=
    fun b hb => hbytes b (List.mem_of_mem_take hb)
  have hk : 8 + 12 * (((value.take (value.length - 256)).length - 8) / 12)
      ≤ (value.take (value.length - 256)).length := by
    rw [hdl]
    omega
  have hbuild := buildMeasurements_vibration sensor timestamp (value.take (value.length - 256))
    samplingFrequency (by rw [hdl]; omega) hdb hcode hfreq
  have hcut := buildMeasurements_cut sensor timestamp (value.take (value.length - 256))
    samplingFrequency (by rw [hdl]; omega) hdb hcode hfreq
  have hhd := handleData_eq_deliver f backend gateway timestamp value sensors d sensor _ hlen
    hpaired hsig hbuild
  refine ⟨_, _, _, rfl, rfl, rfl, by simp [axisSamples], by simp [axisSamples],
    by simp [axisSamples], ?_, hbuild, hcut, hhd, ?_, ?_⟩
  · intro i hi
    exact ⟨by omega, hk⟩
  · intro h body hh hbody
    rw [hhd] at hh
    cases hdv : deliver f backend gateway (f.marshal
        (vibrationRecords sensor timestamp samplingFrequency
          (axisSamples (value.take (value.length - 256))
            (((value.take (value.length - 256)).length - 8) / 12) 8)
          (axisSamples (value.take (value.length - 256))
            (((value.take (value.length - 256)).length - 8) / 12) 12)
          (axisSamples (value.take (value.length - 256))
            (((value.take (value.length - 256)).length - 8) / 12) 16))) timestamp d with
    | none =>
      rw [hdv] at hh
      cases hh
    | some d' =>
      simp only [hdv, Option.map_some', Option.some.injEq] at hh
      subst hh
      exact ⟨rfl, deliver_posted f backend gateway _ body timestamp d d' hbody hdv⟩
  · intro hnone
    rw [hhd, deliver_unbuilt f backend gateway _ timestamp d hnone]
    rfl

/-- Witness for C8 (amended): a payload of 13 bytes, one sample and one byte over,
gives the samples 1, 2 and 3 and is posted; the same with a first sample that is
a NaN is stored without a post by a stand-in that follows `encoding/json`. -/
theorem handleData_vibration_any_length_witness :
    handleData demoServerFns backendOk () 1000 demoOddFrame demoRegistry Delivery.empty
      = some { records := vibrationRecords (demoSensor 20000) 1000 50 [1] [2] [3],
               delivery :=
                 { backlog := [],
                   posted := [demoServerFns.marshal
                     (vibrationRecords (demoSensor 20000) 1000 50 [1] [2] [3])] } } ∧
    handleData demoStrictFns backendOk () 1000 demoNaNFrame demoRegistry Delivery.empty
      = some { records := vibrationRecords (demoSensor 20000) 1000 50 [0x7FC00000] [2] [3],
               delivery := { backlog := [(1000, [])], posted := [] } } := by
  constructor
  · obtain ⟨data, k, records, hd, hk, hr, _, _, _, _, _, _, hhd, _, _⟩ :=
      handleData_vibration_any_length demoServerFns backendOk () 1000 demoOddFrame demoRegistry
        Delivery.empty (demoSensor 20000) 50 (by decide) (by decide) (by rfl) (by rfl) (by rfl)
        (by rfl)
    subst hd hk hr
    rw [hhd]
    rfl
  · obtain ⟨data, k, records, hd, hk, hr, _, _, _, _, _, _, _, _, hstored⟩ :=
      handleData_vibration_any_length demoStrictFns backendOk () 1000 demoNaNFrame demoRegistry
        Delivery.empty (demoSensor 20000) 50 (by decide) (by decide) (by rfl) (by rfl) (by rfl)
        (by rfl)
    subst hd hk hr
    rw [hstored (by rfl)]
    rfl

/-- C9 (counterexample). An authenticated frame of 265 bytes with the type code 0x04
yields one record, with the empty measurement type, and one request is posted
to the backend. -/
theorem handleData_unknown_type_code :
    264 ≤ (demoFrame 4 [9]).length ∧ DATA_TYPES 4 = "" ∧
    (handleData demoServerFns backendOk () 1000 (demoFrame 4 [9]) demoRegistry
        Delivery.empty).map
      (fun h => (h.records.map (fun r => (r.measurement_type, r.raw_data)),
        h.delivery.posted.length))
      = some ([("", .bytes [9])], 1) := by
  refine ⟨by decide, by decide, by rfl⟩

/-- C9 (amended). A frame shorter than 264 bytes yields no record and leaves
backlog and backend untouched. An authenticated frame of at least 264 bytes
from a paired sensor whose type code is none of 0x00 to 0x03 is not rejected:
it yields exactly one record, with the empty measurement type, no axis, byte 7
as sampling frequency and the bytes after the 8-byte header as raw data, and
the serialized batch is handed to delivery like any other. -/
theorem handleData_short_or_unknown {G : Type} (f : ServerFns G)
    (backend : Nat → PostResult) (gateway : G) (timestamp : Int) (value : List Nat)
    (sensors : List Sensor) (d : Delivery) :
    (value.length < 264 →
      handleData f backend gateway timestamp value sensors d
        = some { records := [], delivery := d }) ∧
    (∀ (sensor : Sensor) (code samplingFrequency : Nat),
      264 ≤ value.length →
      lookupSensor ((value.take (value.length - 256)).take 6) sensors = some sensor →
      f.verifySignature (value.take (value.length - 256))
        (value.drop (value.length - 256)) sensor.PublicKey = true →
      (value.take (value.length - 256)).get? 6 = some code →
      (value.take (value.length - 256)).get? 7 = some samplingFrequency →
      code ≠ 0 → code ≠ 1 → code ≠ 2 → code ≠ 3 →
      handleData f backend gateway timestamp value sensors d
        = (deliver f backend gateway (f.marshal
            [{ sensor_id := sensor.Name, time := timestamp, measurement_type := "",
               sampling_frequency := samplingFrequency, axis := none,
               raw_data := .bytes ((value.take (value.length - 256)).drop 8) }])
            timestamp d).map (fun d' =>
          { records :=
              [{ sensor_id := sensor.Name, time := timestamp, measurement_type := "",
                 sampling_frequency := samplingFrequency, axis := none,
                 raw_data := .bytes ((value.take (value.length - 256)).drop 8) }],
            delivery := d' })) := by
  constructor
  · intro hlen
    unfold handleData
    rw [if_pos hlen]
  · intro sensor code samplingFrequency hlen hpaired hsig hcode hfreq h0 h1 h2 h3
    have htype : DATA_TYPES code = "" := by
      unfold DATA_TYPES
      simp [h0, h1, h2, h3]
    have hbuild : buildMeasurements sensor timestamp (value.take (value.length - 256))
        = some
          [{ sensor_id := sensor.Name, time := timestamp, measurement_type := "",
             sampling_frequency := samplingFrequency, axis := none,
             raw_data := .bytes ((value.take (value.length - 256)).drop 8) }] := by
      unfold buildMeasurements byteAt
      rw [hcode, hfreq]
      simp only [htype]
      rfl
    unfold handleData
    rw [if_neg (by omega)]
    simp only [hpaired, hsig, hbuild]
    cases deliver f backend gateway _ timestamp d <;> simp

/-- Witness for C9 (amended): a frame of three bytes, and the frame with type code 4. -/
theorem handleData_short_or_unknown_witness :
    handleData demoServerFns backendOk () 1000 [1, 2, 3] demoRegistry Delivery.empty
        = some { records := [], delivery := Delivery.empty } ∧
    handleData demoServerFns backendOk () 1000 (demoFrame 4 [9]) demoRegistry Delivery.empty
      = (deliver demoServerFns backendOk () (demoServerFns.marshal
          [{ sensor_id := (demoSensor 20000).Name, time := 1000, measurement_type := "",
             sampling_frequency := 50, axis := none,
             raw_data := .bytes (((demoFrame 4 [9]).take ((demoFrame 4 [9]).length - 256)).drop 8) }])
          1000 Delivery.empty).map (fun d' =>
        { records :=
            [{ sensor_id := (demoSensor 20000).Name, time := 1000, measurement_type := "",
               sampling_frequency := 50, axis := none,
               raw_data :=
                 .bytes (((demoFrame 4 [9]).take ((demoFrame 4 [9]).length - 256)).drop 8) }],
          delivery := d' }) :=
  ⟨(handleData_short_or_unknown demoServerFns backendOk () 1000 [1, 2, 3] demoRegistry
      Delivery.empty).1 (by decide),
   (handleData_short_or_unknown demoServerFns backendOk () 1000 (demoFrame 4 [9]) demoRegistry
      Delivery.empty).2 (demoSensor 20000) 4 50 (by decide) (by rfl) (by rfl) (by rfl) (by rfl)
      (by decide) (by decide) (by decide) (by decide)⟩

/-- For whatever the absent functions are: when the backend answers the POST of the
batch with a status other than 200 and a `ContentLength` that is negative or
above the allocation limit, delivery panics before the batch is stored. -/
theorem deliver_panics_bad_length {G : Type} (f : ServerFns G)
    (backend : Nat → PostResult) (gateway : G) (jsonData body : List Nat) (timestamp : Int)
    (d : Delivery) (statusCode contentLength : Int)
    (hb : f.requestBody gateway jsonData = some body)
    (hr : backend d.posted.length = .response statusCode contentLength)
    (hne : statusCode ≠ 200) (hbad : contentLength < 0 ∨ f.maxAlloc < contentLength) :
    deliver f backend gateway jsonData timestamp d = none := by
  unfold deliver
  simp [sendMeasurements, hb, hr, hne, hbad]

/-- C10 (code evaluated at the failing input). The backend answers the POST of a
freshly decoded batch with status 500 and `ContentLength` -1: `handleData`
panics, so nothing is stored. With a transport error instead, the same batch
is stored under its timestamp. -/
theorem handleData_panics_on_unknown_length :
    handleData demoServerFns backendUnknownLength () 1000 (demoFrame 1 [9]) demoRegistry
        Delivery.empty = none ∧
    (handleData demoServerFns (fun _ => PostResult.err) () 1000 (demoFrame 1 [9]) demoRegistry
        Delivery.empty).map (fun h => h.delivery.backlog.map Prod.fst) = some [1000] := by
  constructor <;> rfl

/-! ## Theorems: pairing requests, offers and their timers -/

/-! ### Helper lemmas -/

/-- The offer timer of `mac` does nothing once the offer is for another address. -/
theorem offerTimeout_other (mac : MacAddress) (s : Server)
    (h : s.pairingState.pairing ≠ mac) : offerTimeout mac s = s := by
  unfold offerTimeout
  rw [if_neg h]

/-- The offer timer of `mac` tears down whatever offer for `mac` it finds, also one
made by a later accept. -/
theorem offerTimeout_same (mac : MacAddress) (s : Server)
    (h : s.pairingState.pairing = mac) :
    offerTimeout mac s =
      { pairingState :=
          { s.pairingState with
            pairing := zeroMac
            requested := nilMapDelete s.pairingState.requested mac }
        pairResponseCharacteristic := []
        sensors := s.sensors } := by
  unfold offerTimeout
  rw [if_pos h]

/-- An accept that finds pairing active and a request pending makes the offer and
leaves the requests as they are. -/
theorem Pair_accepted {G : Type} (m : ModelFns G) (gateway : G) (mac : MacAddress) (s : Server)
    (hact : s.pairingState.active = true)
    (hreq : (nilMapGet s.pairingState.requested mac).isSome = true) :
    Pair m gateway mac s =
      { s with
        pairingState := { s.pairingState with pairing := mac }
        pairResponseCharacteristic := mac ++ m.UuidToBytes (m.GetDataCharUUID gateway).1 } := by
  have hne : nilMapGet s.pairingState.requested mac ≠ none := by
    intro hc
    simp [hc] at hreq
  unfold Pair
  simp [hact, hne]

/-- An accept leaves the pairing mode and the request map as they are. -/
theorem Pair_requested {G : Type} (m : ModelFns G) (gateway : G) (mac : MacAddress)
    (s : Server) :
    (Pair m gateway mac s).pairingState.active = s.pairingState.active ∧
    (Pair m gateway mac s).pairingState.requested = s.pairingState.requested := by
  unfold Pair
  split
  · exact ⟨rfl, rfl⟩
  · split
    · exact ⟨rfl, rfl⟩
    · exact ⟨rfl, rfl⟩

/-- On an allocated request map and with pairing active, `pairRequest` returns: a
frame for an address with a pending request changes nothing, and a frame of at
least 6 bytes with a parseable key for an address without one binds that
address to that key and changes nothing else. -/
theorem pairRequest_allocated {G : Type} (m : ModelFns G) (value : List Nat) (s : Server)
    (entries : List (MacAddress × RsaPublicKey)) (hact : s.pairingState.active = true)
    (hmap : s.pairingState.requested = some entries) :
    ((mapGet entries (value.take 6)).isSome = true → pairRequest m value s = some s) ∧
    (∀ key, 6 ≤ value.length → m.ParsePublicKey (value.drop 6) = some key →
      mapGet entries (value.take 6) = none →
      pairRequest m value s =
        some { s with pairingState :=
                 { s.pairingState with
                   requested := some (mapSet entries (value.take 6) key) } }) := by
  constructor
  · intro hex
    unfold pairRequest
    split
    · rfl
    · simp only
      split
      · rfl
      · rw [if_pos (by simpa [hmap, nilMapGet] using hex)]
  · intro key hlen hparse hnone
    unfold pairRequest
    rw [if_neg (by simp [hact]; omega)]
    simp [hparse, hmap, nilMapGet, hnone]

/-! ### Claims -/

/-- C12 (counterexample). Pairing is on and requests of `macA` and `macB` are
pending. After accept(A) and a second accept(A), and likewise after accept(A),
accept(B), accept(A), the offer for A is outstanding with its request pending
and `A ‖ channelId` in the response characteristic; when the timer armed by the
first accept fires, it clears the offer slot, deletes the request of A and
resets the response characteristic, that is, it tears down the later offer. -/
theorem offerTimeout_tears_down_later_offer :
    ((run demoFns () demoEnrollment [.accept macA, .accept macA] demoTwoRequests).map
      (fun s => (s.pairingState.pairing, nilMapGet s.pairingState.requested macA,
        s.pairResponseCharacteristic))
      = some (macA, some demoKey, macA ++ demoUuid) ∧
    (run demoFns () demoEnrollment [.accept macA, .accept macA, .offerTimeout macA]
        demoTwoRequests).map
      (fun s => (s.pairingState.pairing, nilMapGet s.pairingState.requested macA,
        s.pairResponseCharacteristic))
      = some (zeroMac, none, [])) ∧
    ((run demoFns () demoEnrollment [.accept macA, .accept macB, .accept macA]
        demoTwoRequests).map
      (fun s => (s.pairingState.pairing, nilMapGet s.pairingState.requested macA,
        s.pairResponseCharacteristic))
      = some (macA, some demoKey, macA ++ demoUuid) ∧
    (run demoFns () demoEnrollment
        [.accept macA, .accept macB, .accept macA, .offerTimeout macA] demoTwoRequests).map
      (fun s => (s.pairingState.pairing, nilMapGet s.pairingState.requested macA,
        s.pairResponseCharacteristic))
      = some (zeroMac, none, [])) := by
  refine ⟨⟨by rfl, by rfl⟩, ⟨by rfl, by rfl⟩⟩

/-- C12 (amended). The timer armed by an accept of `a` re-checks, when it fires,
only that the offer slot holds `a`. In every state whose offer is for another
address it changes nothing; so after accept(a) and a later accept of another
address `b` that made an offer, firing the timer of `a` leaves the offer for
`b`, the pending requests and the response characteristic as they are. In every
state whose offer slot holds `a`, also when a later accept put it there, it
clears the offer slot, resets the response characteristic and deletes the
request of `a`, and changes nothing else. -/
theorem offerTimeout_checks_address_only {G : Type} (m : ModelFns G) (gateway : G)
    (a : MacAddress) :
    (∀ t : Server, t.pairingState.pairing ≠ a → offerTimeout a t = t) ∧
    (∀ (s : Server) (b : MacAddress), a ≠ b → s.pairingState.active = true →
      (nilMapGet s.pairingState.requested b).isSome = true →
      (Pair m gateway b (Pair m gateway a s)).pairingState.pairing = b ∧
      (Pair m gateway b (Pair m gateway a s)).pairResponseCharacteristic
        = b ++ m.UuidToBytes (m.GetDataCharUUID gateway).1 ∧
      offerTimeout a (Pair m gateway b (Pair m gateway a s))
        = Pair m gateway b (Pair m gateway a s)) ∧
    (∀ t : Server, t.pairingState.pairing = a →
      (offerTimeout a t).pairingState.pairing = zeroMac ∧
      (offerTimeout a t).pairResponseCharacteristic = [] ∧
      nilMapGet (offerTimeout a t).pairingState.requested a = none ∧
      (∀ b, b ≠ a →
        nilMapGet (offerTimeout a t).pairingState.requested b
          = nilMapGet t.pairingState.requested b) ∧
      (offerTimeout a t).pairingState.active = t.pairingState.active ∧
      (offerTimeout a t).sensors = t.sensors) := by
  refine ⟨offerTimeout_other a, ?_, ?_⟩
  · intro s b hab hact hreq
    obtain ⟨h1, h2⟩ := Pair_requested m gateway a s
    have hP := Pair_accepted m gateway b (Pair m gateway a s) (by rw [h1]; exact hact)
      (by rw [h2]; exact hreq)
    have hb : (Pair m gateway b (Pair m gateway a s)).pairingState.pairing = b := by
      rw [hP]
    refine ⟨hb, by rw [hP], offerTimeout_other a _ ?_⟩
    rw [hb]
    exact fun h => hab h.symm
  · intro t ht
    rw [offerTimeout_same a t ht]
    exact ⟨rfl, rfl, nilMapGet_nilMapDelete_self _ _,
      fun b hb => nilMapGet_nilMapDelete_ne _ _ _ hb, rfl, rfl⟩

/-- Witness for C12 (amended): after accept(`macA`) and accept(`macB`), the timer of
`macA` changes nothing. -/
theorem offerTimeout_checks_address_only_witness :
    (Pair demoFns () macB (Pair demoFns () macA demoTwoRequests)).pairingState.pairing = macB ∧
    (Pair demoFns () macB (Pair demoFns () macA demoTwoRequests)).pairResponseCharacteristic
      = macB ++ demoFns.UuidToBytes (demoFns.GetDataCharUUID ()).1 ∧
    offerTimeout macA (Pair demoFns () macB (Pair demoFns () macA demoTwoRequests))
      = Pair demoFns () macB (Pair demoFns () macA demoTwoRequests) :=
  (offerTimeout_checks_address_only demoFns () macA).2.1 demoTwoRequests macB (by decide)
    (by rfl) (by rfl)

/-- C13 (counterexample). Pairing active, offer outstanding for `macA`, requests
pending for `macA` and `macB`: after `Pair(macB)` the offer is `macB` and the
request of `macA` is still in the pending-request map. -/
theorem Pair_keeps_superseded_request :
    (demoOffered.pairingState.active = true ∧ demoOffered.pairingState.pairing = macA ∧
      macA ≠ macB ∧ (nilMapGet demoOffered.pairingState.requested macB).isSome = true) ∧
    (Pair demoFns () macB demoOffered).pairingState.pairing = macB ∧
    nilMapGet (Pair demoFns () macB demoOffered).pairingState.requested macA = some demoKey := by
  decide

/-- C13 (amended). With pairing active, an offer outstanding for `a` and a request
pending for another address `b`: after `Pair(b)` the offer is `b`, the response
characteristic holds `b ‖ channelId`, and the pending-request map and the
registry are unchanged, so a request of `a` that was pending is still pending. -/
theorem Pair_supersedes_offer {G : Type} (m : ModelFns G) (gateway : G) (s : Server)
    (a b : MacAddress) (hact : s.pairingState.active = true)
    (_hoffer : s.pairingState.pairing = a) (hab : a ≠ b)
    (hreq : (nilMapGet s.pairingState.requested b).isSome = true) :
    (Pair m gateway b s).pairingState.pairing = b ∧
    (Pair m gateway b s).pairingState.pairing ≠ a ∧
    (Pair m gateway b s).pairResponseCharacteristic
      = b ++ m.UuidToBytes (m.GetDataCharUUID gateway).1 ∧
    (Pair m gateway b s).pairingState.requested = s.pairingState.requested ∧
    (∀ key, nilMapGet s.pairingState.requested a = some key →
      nilMapGet (Pair m gateway b s).pairingState.requested a = some key) ∧
    (Pair m gateway b s).sensors = s.sensors := by
  rw [Pair_accepted m gateway b s hact hreq]
  exact ⟨rfl, fun h => hab h.symm, rfl, rfl, fun _ h => h, rfl⟩

/-- Witness for C13 (amended): the offer moves from `macA` to `macB`. -/
theorem Pair_supersedes_offer_witness :
    (Pair demoFns () macB demoOffered).pairingState.pairing = macB ∧
    (Pair demoFns () macB demoOffered).pairingState.pairing ≠ macA ∧
    (Pair demoFns () macB demoOffered).pairResponseCharacteristic
      = macB ++ demoFns.UuidToBytes (demoFns.GetDataCharUUID ()).1 ∧
    (Pair demoFns () macB demoOffered).pairingState.requested
      = demoOffered.pairingState.requested ∧
    (∀ key, nilMapGet demoOffered.pairingState.requested macA = some key →
      nilMapGet (Pair demoFns () macB demoOffered).pairingState.requested macA = some key) ∧
    (Pair demoFns () macB demoOffered).sensors = demoOffered.sensors :=
  Pair_supersedes_offer demoFns () demoOffered macA macB (by rfl) (by rfl) (by decide) (by rfl)

/-- C14 (code evaluated at the failing input). After start-up and `EnablePairing`,
pairing is active and no request is pending for any address, the request map
being nil; a pairing-request frame of at least 6 bytes with a parseable key then
reaches the assignment `pairingState.requested[mac] = publicKey`, which panics
on the nil map: no entry is added. The same happens in every state reached from
start-up in which pairing is active. -/
theorem pairRequest_panics_on_nil_map {G : Type} (m : ModelFns G) (gateway : G)
    (en : Enrollment) (sensors : List Sensor) (value : List Nat) (key : RsaPublicKey)
    (hlen : 6 ≤ value.length) (hparse : m.ParsePublicKey (value.drop 6) = some key) :
    (EnablePairing (Server.init sensors)).pairingState.active = true ∧
    (∀ mac, nilMapGet (EnablePairing (Server.init sensors)).pairingState.requested mac = none) ∧
    pairRequest m value (EnablePairing (Server.init sensors)) = none ∧
    run m gateway en [.enable, .request value] (Server.init sensors) = none ∧
    (∀ (es : List Event) (s : Server), run m gateway en es (Server.init sensors) = some s →
      s.pairingState.active = true → pairRequest m value s = none) := by
  have hnil : ∀ s : Server, s.pairingState.requested = none → s.pairingState.active = true →
      pairRequest m value s = none := by
    intro s hreq hact
    unfold pairRequest
    rw [if_neg (by simp [hact]; omega)]
    simp [hparse, hreq, nilMapGet]
  have h0 : pairRequest m value (EnablePairing (Server.init sensors)) = none :=
    hnil _ rfl rfl
  refine ⟨rfl, fun _ => rfl, h0, ?_, ?_⟩
  · simp only [run, step, h0]
  · intro es s hrun hact
    exact hnil s (run_nil_map m gateway en es _ s hrun rfl rfl).1 hact

/-- Witness for C14: the first request frame, of `macA`, after start-up. -/
theorem pairRequest_panics_on_nil_map_witness :
    pairRequest demoFns (demoRequest macA) (EnablePairing (Server.init [])) = none ∧
    run demoFns () demoEnrollment [.enable, .request (demoRequest macA)] (Server.init []) = none :=
  ⟨(pairRequest_panics_on_nil_map demoFns () demoEnrollment [] (demoRequest macA) demoKey
      (by decide) (by rfl)).2.2.1,
   (pairRequest_panics_on_nil_map demoFns () demoEnrollment [] (demoRequest macA) demoKey
      (by decide) (by rfl)).2.2.2.1⟩

/-! ## Theorems: settings updates -/

/-! ### Helper lemmas -/

/-- The `wake_up_interval` block accepts a parsed value exactly when it lies between
the max offset and 4294967, both included. -/
theorem setWakeUpInterval_accepts_iff (sensor : Sensor) (value : String) (v : Int)
    (hv : Atoi value = some v) :
    (setWakeUpInterval sensor value = .ok { sensor with WakeUpInterval := v } ↔
      sensor.WakeUpIntervalMaxOffset ≤ v ∧ v ≤ 4294967) ∧
    (setWakeUpInterval sensor value = .error (.outOfRange "wake_up_interval") ↔
      ¬ (sensor.WakeUpIntervalMaxOffset ≤ v ∧ v ≤ 4294967)) := by
  unfold setWakeUpInterval
  simp only [hv]
  by_cases h : v < sensor.WakeUpIntervalMaxOffset ∨ v > 4294967
  · rw [if_pos h]
    constructor
    · constructor
      · intro hc; cases hc
      · intro hc; omega
    · constructor
      · intro _; omega
      · intro _; rfl
  · rw [if_neg h]
    constructor
    · constructor
      · intro _; omega
      · intro _; rfl
    · constructor
      · intro hc; cases hc
      · intro hc; omega

theorem isExceeding_zero_factor (sensor : Sensor) (setting dataType : String) (value : Int)
    (htemp : dataType ≠ "temperature")
    (hzero : (settingsOf sensor dataType).SamplingFrequency = 0 ∨
      (settingsOf sensor dataType).SamplingDuration = 0) :
    isExceedingCollectionCapacity sensor setting value dataType = some (some .zeroFactor) := by
  unfold isExceedingCollectionCapacity
  rw [if_neg htemp]
  simp only
  rw [if_pos (Or.symm hzero)]

/-- With a zero factor, the frequency and duration cases of the switch return an error
for every value. -/
theorem updateTypeSetting_locked (sensor : Sensor) (dataType setting value : String)
    (htemp : dataType ≠ "temperature")
    (hzero : (settingsOf sensor dataType).SamplingFrequency = 0 ∨
      (settingsOf sensor dataType).SamplingDuration = 0)
    (hset : setting = "sampling_frequency" ∨ setting = "sampling_duration") :
    ∃ err, updateTypeSetting sensor dataType setting value = some (.error err) := by
  unfold updateTypeSetting
  rcases hset with hs | hs
  · subst hs
    rw [if_neg (by decide), if_pos rfl]
    cases hA : Atoi value with
    | none => exact ⟨_, rfl⟩
    | some v =>
      simp only
      by_cases hr : v < 0 ∨ v > 4294967295
      · rw [if_pos hr]; exact ⟨_, rfl⟩
      · rw [if_neg hr, isExceeding_zero_factor sensor _ dataType v htemp hzero]
        exact ⟨_, rfl⟩
  · subst hs
    rw [if_neg (by decide), if_neg (by decide), if_pos rfl]
    cases hA : Atoi value with
    | none => exact ⟨_, rfl⟩
    | some v =>
      simp only
      by_cases hr : v < 0 ∨ v > 65535
      · rw [if_pos hr]; exact ⟨_, rfl⟩
      · rw [if_neg hr, isExceeding_zero_factor sensor _ dataType v htemp hzero]
        exact ⟨_, rfl⟩

theorem settingsOf_mapSet_self (sensor : Sensor) (dataType : String) (st : settings) :
    settingsOf { sensor with Settings := mapSet sensor.Settings dataType st } dataType = st := by
  simp [settingsOf, mapGet_mapSet_self]

theorem settingsOf_mapSet_ne (sensor : Sensor) (dataType other : String) (st : settings)
    (h : other ≠ dataType) :
    settingsOf { sensor with Settings := mapSet sensor.Settings dataType st } other
      = settingsOf sensor other := by
  simp [settingsOf, mapGet_mapSet_ne _ _ _ _ h]

/-- A successful case of the switch for the type `dt'` leaves the factors of a type
`dt` with a zero factor as they are. -/
theorem updateTypeSetting_keeps_locked (sensor sensor' : Sensor) (dt dt' setting value : String)
    (htemp : dt ≠ "temperature")
    (hzero : (settingsOf sensor dt).SamplingFrequency = 0 ∨
      (settingsOf sensor dt).SamplingDuration = 0)
    (h : updateTypeSetting sensor dt' setting value = some (.ok sensor')) :
    (settingsOf sensor' dt).SamplingFrequency = (settingsOf sensor dt).SamplingFrequency ∧
    (settingsOf sensor' dt).SamplingDuration = (settingsOf sensor dt).SamplingDuration := by
  by_cases hd : dt = dt'
  · subst hd
    by_cases hset : setting = "sampling_frequency" ∨ setting = "sampling_duration"
    · obtain ⟨err, herr⟩ := updateTypeSetting_locked sensor dt setting value htemp hzero hset
      rw [herr] at h
      cases h
    · simp only [not_or] at hset
      unfold updateTypeSetting at h
      rw [if_neg hset.1, if_neg hset.2] at h
      by_cases h1 : setting = "active"
      · rw [if_pos h1] at h
        cases h
        rw [settingsOf_mapSet_self]
        exact ⟨rfl, rfl⟩
      · rw [if_neg h1] at h
        cases h
  · have key : ∀ st : settings,
        settingsOf { sensor with Settings := mapSet sensor.Settings dt' st } dt
          = settingsOf sensor dt := fun st => settingsOf_mapSet_ne sensor dt' dt st hd
    unfold updateTypeSetting at h
    by_cases h1 : setting = "active"
    · rw [if_pos h1] at h
      cases h
      rw [key]
      exact ⟨rfl, rfl⟩
    rw [if_neg h1] at h
    by_cases h2 : setting = "sampling_frequency"
    · rw [if_pos h2] at h
      cases hA : Atoi value with
      | none => simp only [hA] at h; cases h
      | some v =>
        simp only [hA] at h
        by_cases hr : v < 0 ∨ v > 4294967295
        · rw [if_pos hr] at h; cases h
        rw [if_neg hr] at h
        cases hE : isExceedingCollectionCapacity sensor "sampling_frequency" v dt' with
        | none => simp only [hE] at h; cases h
        | some r =>
          cases r with
          | some e => simp only [hE] at h; cases h
          | none =>
            simp only [hE] at h
            cases h
            rw [key]
            exact ⟨rfl, rfl⟩
    rw [if_neg h2] at h
    by_cases h3 : setting = "sampling_duration"
    · rw [if_pos h3] at h
      cases hA : Atoi value with
      | none => simp only [hA] at h; cases h
      | some v =>
        simp only [hA] at h
        by_cases hr : v < 0 ∨ v > 65535
        · rw [if_pos hr] at h; cases h
        rw [if_neg hr] at h
        cases hE : isExceedingCollectionCapacity sensor "sampling_duration" v dt' with
        | none => simp only [hE] at h; cases h
        | some r =>
          cases r with
          | some e => simp only [hE] at h; cases h
          | none =>
            simp only [hE] at h
            cases h
            rw [key]
            exact ⟨rfl, rfl⟩
    rw [if_neg h3] at h
    cases h

/-- Every successful update other than `auto` leaves the factors of a type with a zero
factor as they are. -/
theorem updateSensor_keeps_locked (now : Int) (sensor sensor' : Sensor)
    (dt setting value : String) (htemp : dt ≠ "temperature")
    (hzero : (settingsOf sensor dt).SamplingFrequency = 0 ∨
      (settingsOf sensor dt).SamplingDuration = 0)
    (hauto : setting ≠ "auto")
    (h : updateSensor now sensor setting value = some (.ok sensor')) :
    (settingsOf sensor' dt).SamplingFrequency = (settingsOf sensor dt).SamplingFrequency ∧
    (settingsOf sensor' dt).SamplingDuration = (settingsOf sensor dt).SamplingDuration := by
  unfold updateSensor at h
  rw [if_neg hauto] at h
  by_cases h1 : setting = "name"
  · rw [if_pos h1] at h
    cases h
    exact ⟨rfl, rfl⟩
  rw [if_neg h1] at h
  by_cases h2 : setting = "wake_up_interval"
  · rw [if_pos h2] at h
    obtain ⟨e1, _⟩ := setWakeUpInterval_settings sensor sensor' value (by simpa using h)
    unfold settingsOf
    rw [e1]
    exact ⟨rfl, rfl⟩
  rw [if_neg h2] at h
  by_cases h3 : setting = "wake_up_interval_max_offset"
  · rw [if_pos h3] at h
    obtain ⟨e1, _⟩ := setWakeUpIntervalMaxOffset_settings sensor sensor' value (by simpa using h)
    unfold settingsOf
    rw [e1]
    exact ⟨rfl, rfl⟩
  rw [if_neg h3] at h
  simp only at h
  by_cases h4 : (splitUnderscore setting.data).length < 2
  · rw [if_pos h4] at h; cases h
  rw [if_neg h4] at h
  split at h
  · cases h
  · exact updateTypeSetting_keeps_locked sensor sensor' dt _ _ value htemp hzero h

/-- A setting name made of a sampled data type and one of its two factors runs the
switch for that type and factor. -/
theorem updateSensor_factor (now : Int) (sensor : Sensor) (dt factor value : String)
    (hdt : dt = "vibration" ∨ dt = "audio")
    (hfactor : factor = "sampling_frequency" ∨ factor = "sampling_duration") :
    updateSensor now sensor (dt ++ "_" ++ factor) value
      = updateTypeSetting sensor dt factor value := by
  rcases hdt with rfl | rfl <;> rcases hfactor with rfl | rfl <;> rfl

/-- From a sensor within capacity whose type has non-zero factors, the value 0 is
accepted for either factor. -/
theorem updateTypeSetting_zero_accepted (sensor : Sensor) (dt : String)
    (hdt : dt = "vibration" ∨ dt = "audio")
    (hwithin : getCollectionSize sensor ≤ sensor.CollectionCapacity)
    (hf : (settingsOf sensor dt).SamplingFrequency ≠ 0)
    (hd : (settingsOf sensor dt).SamplingDuration ≠ 0) :
    updateTypeSetting sensor dt "sampling_frequency" "0"
      = some (.ok { sensor with
          Settings := mapSet sensor.Settings dt
            { settingsOf sensor dt with SamplingFrequency := 0 } }) ∧
    updateTypeSetting sensor dt "sampling_duration" "0"
      = some (.ok { sensor with
          Settings := mapSet sensor.Settings dt
            { settingsOf sensor dt with SamplingDuration := 0 } }) := by
  have htemp : dt ≠ "temperature" := by
    rcases hdt with h | h <;> rw [h] <;> decide
  have hsize : 0 < DATA_SIZE dt := by
    rcases hdt with h | h <;> rw [h] <;> decide
  have hnz : ¬ ((settingsOf sensor dt).SamplingDuration = 0 ∨
      (settingsOf sensor dt).SamplingFrequency = 0) := by
    intro hc
    rcases hc with hc | hc
    · exact hd hc
    · exact hf hc
  have hA : Atoi "0" = some 0 := by decide
  have hok : ∀ setting, isExceedingCollectionCapacity sensor setting 0 dt = some none := by
    intro setting
    refine (isExceeding_within sensor setting dt 0 htemp hnz hsize hwithin _ _ rfl rfl).2 ?_
    have hprod : (0 : Int) ≤
        (if setting = "sampling_frequency"
          then ((settingsOf sensor dt).SamplingFrequency : Int)
          else ((settingsOf sensor dt).SamplingDuration : Int)) *
        (if setting = "sampling_frequency"
          then ((settingsOf sensor dt).SamplingDuration : Int)
          else ((settingsOf sensor dt).SamplingFrequency : Int)) * DATA_SIZE dt := by
      apply mul_nonneg
      · apply mul_nonneg <;> split <;> exact Int.ofNat_nonneg _
      · exact le_of_lt hsize
    simp only [zero_mul, add_zero]
    omega
  constructor
  · unfold updateTypeSetting
    rw [if_neg (by decide), if_pos rfl]
    simp only [hA]
    rw [if_neg (by omega), hok]
    rfl
  · unfold updateTypeSetting
    rw [if_neg (by decide), if_neg (by decide), if_pos rfl]
    simp only [hA]
    rw [if_neg (by omega), hok]
    rfl

/-- The defaults of a declared sampled type have non-zero factors. -/
theorem getDefaultSensor_factors (now : Int) (mac : MacAddress) (types : List String)
    (cap : Nat) (key : RsaPublicKey) (dt : String)
    (hdt : dt = "vibration" ∨ dt = "audio") (hmem : dt ∈ types) :
    (settingsOf (getDefaultSensor now mac types cap key) dt).SamplingFrequency ≠ 0 ∧
    (settingsOf (getDefaultSensor now mac types cap key) dt).SamplingDuration ≠ 0 := by
  have h0 : defaultsOnly [] := by
    refine ⟨?_, ?_, ?_, ?_⟩ <;> simp [mapGet]
  obtain ⟨⟨hV, _, hA, _⟩, f1, f2, _⟩ := foldl_defaultSettings types [] h0
  rcases hdt with rfl | rfl
  · have hs : (mapGet (types.foldl defaultSettingsStep []) "vibration").isSome = true := by
      rw [f1]; simp [hmem]
    cases hg : mapGet (types.foldl defaultSettingsStep []) "vibration" with
    | none => simp [hg] at hs
    | some v =>
      have hv := hV v hg
      simp [settingsOf, getDefaultSensor, hg, hv]
  · have hs : (mapGet (types.foldl defaultSettingsStep []) "audio").isSome = true := by
      rw [f2]; simp [hmem]
    cases hg : mapGet (types.foldl defaultSettingsStep []) "audio" with
    | none => simp [hg] at hs
    | some v =>
      have hv := hA v hg
      simp [settingsOf, getDefaultSensor, hg, hv]

/-! ### Claims -/

/-- C15 (code evaluated at the failing input). A sensor with the default max offset
of 300: the value 300 for `wake_up_interval` is accepted, leaving the interval
equal to the max offset, although the sibling check of
`wake_up_interval_max_offset` rejects an offset equal to the interval. -/
theorem wake_up_interval_accepts_max_offset :
    (demoSensor 20000).WakeUpIntervalMaxOffset = 300 ∧
    (demoSensor 20000).WakeUpInterval = 3600 ∧
    (UpdateSensorSetting 0 saveOk macA "wake_up_interval" "300" [demoSensor 20000]).map
        (fun r => (r.1, r.2.map (fun s => (s.WakeUpInterval, s.WakeUpIntervalMaxOffset))))
      = some (none, [(300, 300)]) ∧
    (UpdateSensorSetting 0 saveOk macA "wake_up_interval_max_offset" "3600"
        [demoSensor 20000]).map (fun r => r.1)
      = some (some (.outOfRange "wake_up_interval_max_offset")) := by
  refine ⟨by rfl, by rfl, by rfl, by rfl⟩

/-- C16. Whenever `UpdateSensorSetting` returns an error that is not the error of
`saveSensors`, that is, one of sensor not found, value not an integer, value
out of range, invalid setting format, invalid data type, unknown setting, zero
sampling factor, capacity exceeded, the sensor list after the call is the
sensor list before the call. -/
theorem UpdateSensorSetting_error_unchanged (now : Int) (save : List Sensor → Option Err)
    (mac : MacAddress) (setting value : String) (sensors sensors' : List Sensor) (err : Err)
    (hsave : ∀ l, save l = none ∨ save l = some .saveFailed)
    (hcfg : err ≠ .saveFailed)
    (h : UpdateSensorSetting now save mac setting value sensors = some (some err, sensors')) :
    sensors' = sensors := by
  unfold UpdateSensorSetting at h
  cases hf : findSensor mac sensors with
  | none =>
    simp only [hf, Option.some.injEq, Prod.mk.injEq] at h
    exact h.2.symm
  | some i =>
    simp only [hf] at h
    cases hg : sensors.get? i with
    | none =>
      simp only [hg, Option.some.injEq, Prod.mk.injEq] at h
      exact h.2.symm
    | some sensor =>
      simp only [hg] at h
      cases hu : updateSensor now sensor setting value with
      | none => simp only [hu] at h; cases h
      | some r =>
        cases r with
        | error e =>
          simp only [hu, Option.some.injEq, Prod.mk.injEq] at h
          exact h.2.symm
        | ok sensor' =>
          simp only [hu, Option.some.injEq, Prod.mk.injEq] at h
          exfalso
          rcases hsave (sensors.set i sensor') with hs | hs
          · rw [hs] at h
            cases h.1
          · rw [hs] at h
            exact hcfg (Option.some.inj h.1).symm

/-- Witness for C16: a frequency that is not a number. -/
theorem UpdateSensorSetting_error_unchanged_witness :
    UpdateSensorSetting 0 saveOk macA "vibration_sampling_frequency" "fast" [demoSensor 20000]
      = some (some (.notAnInteger "sampling_frequency"), [demoSensor 20000]) ∧
    [demoSensor 20000] = [demoSensor 20000] :=
  ⟨by rfl,
   UpdateSensorSetting_error_unchanged 0 saveOk macA "vibration_sampling_frequency" "fast"
     [demoSensor 20000] [demoSensor 20000] (.notAnInteger "sampling_frequency")
     (fun _ => Or.inl rfl) (by decide) (by rfl)⟩

/-- C19. For a type other than temperature whose current frequency or duration is 0:
`isExceedingCollectionCapacity` returns the zero-factor error for every setting
and every candidate value; for vibration and audio, `UpdateSensorSetting`
therefore rejects every `sampling_frequency` and every `sampling_duration`
value, the zero factor's own update included; and every successful update
other than `auto` leaves both factors of the type as they are. From a sensor
within capacity whose vibration or audio factors are both non-zero, the value 0
is accepted for either factor. An `auto` reset gives a declared vibration or
audio type non-zero factors again. -/
theorem zero_factor_locks_type (now : Int) (sensor : Sensor) (dt : String) :
    (dt ≠ "temperature" →
      ((settingsOf sensor dt).SamplingFrequency = 0 ∨
        (settingsOf sensor dt).SamplingDuration = 0) →
      (∀ (setting : String) (value : Int),
        isExceedingCollectionCapacity sensor setting value dt = some (some .zeroFactor)) ∧
      ((dt = "vibration" ∨ dt = "audio") → ∀ value : String,
        (∃ err, updateSensor now sensor (dt ++ "_" ++ "sampling_frequency") value
          = some (.error err)) ∧
        (∃ err, updateSensor now sensor (dt ++ "_" ++ "sampling_duration") value
          = some (.error err))) ∧
      (∀ (setting value : String) (sensor' : Sensor), setting ≠ "auto" →
        updateSensor now sensor setting value = some (.ok sensor') →
        (settingsOf sensor' dt).SamplingFrequency = (settingsOf sensor dt).SamplingFrequency ∧
        (settingsOf sensor' dt).SamplingDuration = (settingsOf sensor dt).SamplingDuration)) ∧
    ((dt = "vibration" ∨ dt = "audio") →
      getCollectionSize sensor ≤ sensor.CollectionCapacity →
      (settingsOf sensor dt).SamplingFrequency ≠ 0 →
      (settingsOf sensor dt).SamplingDuration ≠ 0 →
      updateSensor now sensor (dt ++ "_" ++ "sampling_frequency") "0"
        = some (.ok { sensor with
            Settings := mapSet sensor.Settings dt
              { settingsOf sensor dt with SamplingFrequency := 0 } }) ∧
      updateSensor now sensor (dt ++ "_" ++ "sampling_duration") "0"
        = some (.ok { sensor with
            Settings := mapSet sensor.Settings dt
              { settingsOf sensor dt with SamplingDuration := 0 } })) ∧
    ((dt = "vibration" ∨ dt = "audio") → dt ∈ sensor.Types → ∀ value : String,
      ∃ sensor', updateSensor now sensor "auto" value = some (.ok sensor') ∧
        (settingsOf sensor' dt).SamplingFrequency ≠ 0 ∧
        (settingsOf sensor' dt).SamplingDuration ≠ 0) := by
  refine ⟨?_, ?_, ?_⟩
  · intro htemp hzero
    refine ⟨fun setting value => isExceeding_zero_factor sensor setting dt value htemp hzero,
      ?_, ?_⟩
    · intro hdt value
      rw [updateSensor_factor now sensor dt _ value hdt (Or.inl rfl),
        updateSensor_factor now sensor dt _ value hdt (Or.inr rfl)]
      exact ⟨updateTypeSetting_locked sensor dt _ value htemp hzero (Or.inl rfl),
        updateTypeSetting_locked sensor dt _ value htemp hzero (Or.inr rfl)⟩
    · intro setting value sensor' hauto h
      exact updateSensor_keeps_locked now sensor sensor' dt setting value htemp hzero hauto h
  · intro hdt hwithin hf hd
    rw [updateSensor_factor now sensor dt _ "0" hdt (Or.inl rfl),
      updateSensor_factor now sensor dt _ "0" hdt (Or.inr rfl)]
    exact updateTypeSetting_zero_accepted sensor dt hdt hwithin hf hd
  · intro hdt hmem value
    refine ⟨_, ?_, getDefaultSensor_factors now sensor.Mac sensor.Types
      sensor.CollectionCapacity sensor.PublicKey dt hdt hmem⟩
    unfold updateSensor
    rw [if_pos rfl]

/-- Witness for C19: the vibration type of `demoLocked` has frequency 0, that of
`demoSensor 20000` has the defaults. -/
theorem zero_factor_locks_type_witness :
    isExceedingCollectionCapacity demoLocked "sampling_frequency" 50 "vibration"
      = some (some .zeroFactor) ∧
    (∃ err, updateSensor 0 demoLocked ("vibration" ++ "_" ++ "sampling_frequency") "50"
      = some (.error err)) ∧
    updateSensor 0 (demoSensor 20000) ("vibration" ++ "_" ++ "sampling_frequency") "0"
      = some (.ok { demoSensor 20000 with
          Settings := mapSet (demoSensor 20000).Settings "vibration"
            { settingsOf (demoSensor 20000) "vibration" with SamplingFrequency := 0 } }) ∧
    (∃ sensor', updateSensor 0 demoLocked "auto" "" = some (.ok sensor') ∧
      (settingsOf sensor' "vibration").SamplingFrequency ≠ 0 ∧
      (settingsOf sensor' "vibration").SamplingDuration ≠ 0) :=
  ⟨((zero_factor_locks_type 0 demoLocked "vibration").1 (by decide) (Or.inl (by rfl))).1
      "sampling_frequency" 50,
   ((((zero_factor_locks_type 0 demoLocked "vibration").1 (by decide) (Or.inl (by rfl))).2.1
      (Or.inl rfl)) "50").1,
   ((zero_factor_locks_type 0 (demoSensor 20000) "vibration").2.1 (Or.inl rfl) (by decide)
      (by decide) (by decide)).1,
   (zero_factor_locks_type 0 demoLocked "vibration").2.2 (Or.inl rfl) (by decide) ""⟩

/-! ## Theorems: vibration decoding and the backlog -/

/-! ### Claims -/

/-- C17. For every authenticated frame of a paired sensor with type code 0x00 whose
data segment has length 8 + 12n: every byte the decode loop reads lies inside
the data segment (no index is out of range); `handleData` builds exactly three
records, tagged x, y and z, with the sensor's name, the timestamp and byte 7
as sampling frequency, each holding n samples; and sample i of x, y and z is
the little-endian 32-bit word at data offsets 8+12i, 12+12i and 16+12i. -/
theorem handleData_vibration_decodes {G : Type} (f : ServerFns G)
    (backend : Nat → PostResult) (gateway : G) (timestamp : Int) (value : List Nat)
    (sensors : List Sensor) (d : Delivery) (sensor : Sensor) (samplingFrequency n : Nat)
    (hlen : value.length = 8 + 12 * n + 256)
    (hbytes : ∀ b ∈ value, b < 256)
    (hpaired : lookupSensor ((value.take (value.length - 256)).take 6) sensors = some sensor)
    (hsig : f.verifySignature (value.take (value.length - 256))
      (value.drop (value.length - 256)) sensor.PublicKey = true)
    (hcode : (value.take (value.length - 256)).get? 6 = some 0)
    (hfreq : (value.take (value.length - 256)).get? 7 = some samplingFrequency) :
    ∃ x y z : List Nat,
      x.length = n ∧ y.length = n ∧ z.length = n ∧
      (∀ i, i < n →
        16 + 12 * i + 3 < (value.take (value.length - 256)).length ∧
        x.get? i = some (littleEndian32 (value.take (value.length - 256)) (8 + 12 * i)) ∧
        y.get? i = some (littleEndian32 (value.take (value.length - 256)) (12 + 12 * i)) ∧
        z.get? i = some (littleEndian32 (value.take (value.length - 256)) (16 + 12 * i))) ∧
      buildMeasurements sensor timestamp (value.take (value.length - 256))
        = some (vibrationRecords sensor timestamp samplingFrequency x y z) ∧
      handleData f backend gateway timestamp value sensors d
        = (deliver f backend gateway
            (f.marshal (vibrationRecords sensor timestamp samplingFrequency x y z))
            timestamp d).map (fun d' =>
          { records := vibrationRecords sensor timestamp samplingFrequency x y z,
            delivery := d' }) := by
  have hdl : (value.take (value.length - 256)).length = 8 + 12 * n := by
    simp
    omega
  have hcount : ((value.take (value.length - 256)).length - 8) / 12 = n := by
    rw [hdl]
    omega
  have hdb : ∀ b ∈ value.take (value.length - 256), b < 256 :=
    fun b hb => hbytes b (List.mem_of_mem_take hb)
  obtain ⟨x, y, z, hloop, hx, hy, hz⟩ :=
    vibrationLoop_total (value.take (value.length - 256)) n 0 (by rw [hdl]; omega)
  have hsamples := vibrationLoop_samples _ n 0 x y z hloop
  have hbuild : buildMeasurements sensor timestamp (value.take (value.length - 256))
      = some (vibrationRecords sensor timestamp samplingFrequency x y z) := by
    unfold buildMeasurements byteAt
    rw [hcode, hfreq]
    simp only [hcount, hloop]
    rfl
  refine ⟨x, y, z, hx, hy, hz, ?_, hbuild,
    handleData_eq_deliver f backend gateway timestamp value sensors d sensor _ (by omega)
      hpaired hsig hbuild⟩
  intro i hi
  obtain ⟨s1, s2, s3⟩ := hsamples i hi
  have e1 : 8 + (0 + i) * 12 = 8 + 12 * i := by omega
  have e2 : 12 + (0 + i) * 12 = 12 + 12 * i := by omega
  have e3 : 16 + (0 + i) * 12 = 16 + 12 * i := by omega
  rw [e1] at s1
  rw [e2] at s2
  rw [e3] at s3
  refine ⟨by rw [hdl]; omega, ?_, ?_, ?_⟩
  · rw [s1]
    exact word32_eq_littleEndian32 _ _ (by rw [hdl]; omega) hdb
  · rw [s2]
    exact word32_eq_littleEndian32 _ _ (by rw [hdl]; omega) hdb
  · rw [s3]
    exact word32_eq_littleEndian32 _ _ (by rw [hdl]; omega) hdb

/-- Witness for C17: a frame with two samples; the second z sample is 0x01020304. -/
theorem handleData_vibration_decodes_witness :
    ∃ x y z : List Nat, x.length = 2 ∧ y.length = 2 ∧ z.length = 2 ∧
      z.get? 1 = some (littleEndian32
        (demoVibrationFrame.take (demoVibrationFrame.length - 256)) (16 + 12 * 1)) ∧
      littleEndian32 (demoVibrationFrame.take (demoVibrationFrame.length - 256)) (16 + 12 * 1)
        = 0x01020304 ∧
      buildMeasurements (demoSensor 20000) 1000
          (demoVibrationFrame.take (demoVibrationFrame.length - 256))
        = some (vibrationRecords (demoSensor 20000) 1000 50 x y z) := by
  obtain ⟨x, y, z, hx, hy, hz, hs, hb, _⟩ :=
    handleData_vibration_decodes demoServerFns backendOk () 1000 demoVibrationFrame
      demoRegistry Delivery.empty (demoSensor 20000) 50 2 (by rfl) (by decide) (by rfl) (by rfl)
      (by rfl) (by rfl)
  exact ⟨x, y, z, hx, hy, hz, (hs 1 (by omega)).2.2.2, by decide, hb⟩

/-! ### Helper lemmas on delivery -/

theorem handleData_of_accepted {G : Type} (f : ServerFns G) (backend : Nat → PostResult)
    (gateway : G) (timestamp : Int) (value : List Nat) (sensors : List Sensor) (d : Delivery)
    (ms : List Measurement) (h : acceptedBatch f timestamp value sensors = some ms) :
    handleData f backend gateway timestamp value sensors d
      = (deliver f backend gateway (f.marshal ms) timestamp d).map (fun d' =>
        { records := ms, delivery := d' }) := by
  unfold acceptedBatch at h
  split at h
  · cases h
  · rename_i hlen
    cases hl : lookupSensor ((value.take (value.length - 256)).take 6) sensors with
    | none => simp [hl] at h
    | some sensor =>
      simp only [hl] at h
      split at h
      · cases h
      · rename_i hsig
        exact handleData_eq_deliver f backend gateway timestamp value sensors d sensor ms
          (by omega) hl (by simpa using hsig) h

theorem failedSend_cases (maxAlloc : Int) (r : PostResult) (h : failedSend maxAlloc r = true) :
    r = .err ∨ ∃ statusCode contentLength, r = .response statusCode contentLength ∧
      statusCode ≠ 200 ∧ 0 ≤ contentLength ∧ contentLength ≤ maxAlloc := by
  cases r with
  | err => exact Or.inl rfl
  | response statusCode contentLength =>
    simp only [failedSend, Bool.and_eq_true, decide_eq_true_eq] at h
    exact Or.inr ⟨statusCode, contentLength, rfl, h.1.1, h.1.2, h.2⟩

/-- A send answered with 200 is followed by the resend of the backlog. -/
theorem deliver_success {G : Type} (f : ServerFns G) (backend : Nat → PostResult)
    (gateway : G) (jsonData body : List Nat) (timestamp contentLength : Int) (d : Delivery)
    (hb : f.requestBody gateway jsonData = some body)
    (hr : backend d.posted.length = .response 200 contentLength) :
    deliver f backend gateway jsonData timestamp d
      = some (sendUnsentMeasurements f backend gateway
          { d with posted := d.posted ++ [body] }) := by
  unfold deliver
  simp [sendMeasurements, hb, hr]

/-- A stored batch whose resend is answered with 200 is posted and removed. -/
theorem resendStep_ok {G : Type} (f : ServerFns G) (backend : Nat → PostResult)
    (gateway : G) (d : Delivery) (file : Int) (data body : List Nat) (contentLength : Int)
    (hg : mapGet d.backlog file = some data)
    (hb : f.requestBody gateway data = some body)
    (hr : backend d.posted.length = .response 200 contentLength) :
    resendStep f backend gateway d file
      = { backlog := mapDelete d.backlog file, posted := d.posted ++ [body] } := by
  unfold resendStep
  simp [hg, sendMeasurements, hb, hr]

/-! ### Claims -/

/-- C11 (counterexample). Two valid frames handled within the same second against a
backend that fails the first two sends: both batches are written to the file
named by that second, so after the second frame the backlog holds one batch,
the second. And with a stand-in that follows `encoding/json`: two valid frames
fail and are stored, and a third valid frame, at a later second, carries a NaN
sample; its request body cannot be built, so it is stored without a send, and
after the third frame the backlog holds three batches and only the two failed
requests have been posted. -/
theorem backlog_overwritten_same_second :
    ((acceptedBatch demoServerFns 1000 (demoFrame 1 [9]) demoRegistry).isSome = true ∧
      (acceptedBatch demoServerFns 1000 (demoFrame 1 [8]) demoRegistry).isSome = true ∧
      (handleAll demoServerFns backendFailsTwice () demoRegistry
          [(1000, demoFrame 1 [9]), (1000, demoFrame 1 [8])] Delivery.empty).map
        (fun d => (d.backlog.length, d.posted.length)) = some (1, 2) ∧
      (handleAll demoServerFns backendFailsTwice () demoRegistry
          [(1000, demoFrame 1 [9]), (1000, demoFrame 1 [8])] Delivery.empty).map
        (fun d => d.backlog)
        = (acceptedBatch demoServerFns 1000 (demoFrame 1 [8]) demoRegistry).map
            (fun ms => [(1000, demoServerFns.marshal ms)])) ∧
    ((acceptedBatch demoStrictFns 1000 (demoFrame 1 [9]) demoRegistry).isSome = true ∧
      (acceptedBatch demoStrictFns 1001 (demoFrame 1 [8]) demoRegistry).isSome = true ∧
      (acceptedBatch demoStrictFns 1002 demoNaNFrame demoRegistry).isSome = true ∧
      (handleAll demoStrictFns backendFailsTwice () demoRegistry
          [(1000, demoFrame 1 [9]), (1001, demoFrame 1 [8]), (1002, demoNaNFrame)]
          Delivery.empty).map
        (fun d => (d.backlog.map Prod.fst, d.posted.length)) = some ([1000, 1001, 1002], 2)) := by
  refine ⟨⟨by rfl, by rfl, by rfl, by rfl⟩, ⟨by rfl, by rfl, by rfl, by rfl⟩⟩

/-- C11 (amended). Starting from an empty backlog, for three valid frames whose
request bodies can be built, handled in turn, the first two at different
timestamps, against a backend that fails the first two sends (by a transport
error, or by a status other than 200 with a declared length that is neither
negative nor above the allocation limit) and answers 200 to every later send:
after the second frame the backlog holds exactly the first and the second
batch, under their timestamps; after the third frame both have been posted
again and removed, and the backlog is empty. A valid frame whose request body
cannot be built is stored under its timestamp without a send, and a stored
batch whose request body cannot be built is left in the backlog by a resend. -/
theorem backlog_flushed_after_two_failures {G : Type} (f : ServerFns G)
    (backend : Nat → PostResult) (gateway : G) (sensors : List Sensor)
    (t1 t2 t3 : Int) (v1 v2 v3 : List Nat) (ms1 ms2 ms3 : List Measurement)
    (b1 b2 b3 : List Nat)
    (ha1 : acceptedBatch f t1 v1 sensors = some ms1)
    (ha2 : acceptedBatch f t2 v2 sensors = some ms2)
    (ha3 : acceptedBatch f t3 v3 sensors = some ms3)
    (hb1 : f.requestBody gateway (f.marshal ms1) = some b1)
    (hb2 : f.requestBody gateway (f.marshal ms2) = some b2)
    (hb3 : f.requestBody gateway (f.marshal ms3) = some b3)
    (ht : t1 ≠ t2)
    (hf0 : failedSend f.maxAlloc (backend 0) = true)
    (hf1 : failedSend f.maxAlloc (backend 1) = true)
    (hok : ∀ k, 2 ≤ k → ∃ contentLength, backend k = .response 200 contentLength) :
    handleAll f backend gateway sensors [(t1, v1), (t2, v2)] Delivery.empty
      = some { backlog := [(t1, f.marshal ms1), (t2, f.marshal ms2)], posted := [b1, b2] } ∧
    (∃ again, again.Perm [b1, b2] ∧
      handleAll f backend gateway sensors [(t1, v1), (t2, v2), (t3, v3)] Delivery.empty
        = some { backlog := [], posted := [b1, b2, b3] ++ again }) ∧
    (∀ (t : Int) (v : List Nat) (ms : List Measurement) (d : Delivery),
      acceptedBatch f t v sensors = some ms → f.requestBody gateway (f.marshal ms) = none →
      handleData f backend gateway t v sensors d
        = some { records := ms,
                 delivery := { backlog := mapSet d.backlog t (f.marshal ms),
                               posted := d.posted } }) ∧
    (∀ (d : Delivery) (file : Int) (data : List Nat), mapGet d.backlog file = some data →
      f.requestBody gateway data = none → resendStep f backend gateway d file = d) := by
  have ht' : t2 ≠ t1 := fun h => ht h.symm
  have h1 : handleData f backend gateway t1 v1 sensors Delivery.empty
      = some { records := ms1,
               delivery := { backlog := [(t1, f.marshal ms1)], posted := [b1] } } := by
    rw [handleData_of_accepted f backend gateway t1 v1 sensors _ ms1 ha1,
      deliver_failure f backend gateway _ b1 t1 Delivery.empty hb1
        (failedSend_cases _ _ (by simpa [Delivery.empty] using hf0))]
    rfl
  have h2 : handleData f backend gateway t2 v2 sensors
        { backlog := [(t1, f.marshal ms1)], posted := [b1] }
      = some { records := ms2,
               delivery := { backlog := [(t1, f.marshal ms1), (t2, f.marshal ms2)],
                             posted := [b1, b2] } } := by
    rw [handleData_of_accepted f backend gateway t2 v2 sensors _ ms2 ha2,
      deliver_failure f backend gateway _ b2 t2
        { backlog := [(t1, f.marshal ms1)], posted := [b1] } hb2
        (failedSend_cases _ _ (by simpa using hf1))]
    simp [mapSet, ht]
  obtain ⟨l2, hl2⟩ := hok 2 (le_refl 2)
  obtain ⟨l3, hl3⟩ := hok 3 (by omega)
  obtain ⟨l4, hl4⟩ := hok 4 (by omega)
  have h3 : ∃ again, again.Perm [b1, b2] ∧
      handleData f backend gateway t3 v3 sensors
        { backlog := [(t1, f.marshal ms1), (t2, f.marshal ms2)], posted := [b1, b2] }
      = some { records := ms3,
               delivery := { backlog := [], posted := [b1, b2, b3] ++ again } } := by
    rw [handleData_of_accepted f backend gateway t3 v3 sensors _ ms3 ha3,
      deliver_success f backend gateway _ b3 t3 l2
        { backlog := [(t1, f.marshal ms1), (t2, f.marshal ms2)], posted := [b1, b2] } hb3
        (by simpa using hl2)]
    unfold sendUnsentMeasurements
    by_cases hord : fileName t1 < fileName t2
    · refine ⟨[b1, b2], List.Perm.refl _, ?_⟩
      have hdir : readDir [(t1, f.marshal ms1), (t2, f.marshal ms2)] = [t1, t2] := by
        simp [readDir, insertByName, hord]
      simp only [hdir, List.foldl_cons, List.foldl_nil]
      rw [resendStep_ok f backend gateway
        { backlog := [(t1, f.marshal ms1), (t2, f.marshal ms2)], posted := [b1, b2] ++ [b3] }
        t1 (f.marshal ms1) b1 l3 (by simp [mapGet]) hb1 (by simpa using hl3)]
      rw [resendStep_ok f backend gateway
        { backlog := mapDelete [(t1, f.marshal ms1), (t2, f.marshal ms2)] t1,
          posted := [b1, b2] ++ [b3] ++ [b1] }
        t2 (f.marshal ms2) b2 l4 (by simp [mapGet, mapDelete, ht']) hb2 (by simpa using hl4)]
      simp [mapDelete, ht']
    · refine ⟨[b2, b1], List.Perm.swap _ _ _, ?_⟩
      have hdir : readDir [(t1, f.marshal ms1), (t2, f.marshal ms2)] = [t2, t1] := by
        simp [readDir, insertByName, hord]
      simp only [hdir, List.foldl_cons, List.foldl_nil]
      rw [resendStep_ok f backend gateway
        { backlog := [(t1, f.marshal ms1), (t2, f.marshal ms2)], posted := [b1, b2] ++ [b3] }
        t2 (f.marshal ms2) b2 l3 (by simp [mapGet, ht]) hb2 (by simpa using hl3)]
      rw [resendStep_ok f backend gateway
        { backlog := mapDelete [(t1, f.marshal ms1), (t2, f.marshal ms2)] t2,
          posted := [b1, b2] ++ [b3] ++ [b2] }
        t1 (f.marshal ms1) b1 l4 (by simp [mapGet, mapDelete, ht]) hb1 (by simpa using hl4)]
      simp [mapDelete, ht]
  obtain ⟨again, hperm, h3'⟩ := h3
  refine ⟨?_, ⟨again, hperm, ?_⟩, ?_, ?_⟩
  · simp only [handleAll, h1, h2]
  · simp only [handleAll, h1, h2, h3']
  · intro t v ms d ha hnone
    rw [handleData_of_accepted f backend gateway t v sensors d ms ha,
      deliver_unbuilt f backend gateway _ t d hnone]
    rfl
  · intro d file data hg hnone
    unfold resendStep
    simp [hg, sendMeasurements, hnone]

/-- Witness for C11 (amended): three audio frames handled at the seconds 1000, 1001
and 1002; and, with a stand-in that follows `encoding/json`, a frame with a NaN
sample handled at the second 1003, which is stored without a send. -/
theorem backlog_flushed_after_two_failures_witness :
    (handleAll demoStrictFns backendFailsTwice () demoRegistry
        [(1000, demoFrame 1 [9]), (1001, demoFrame 1 [8])] Delivery.empty
      = some { backlog := [(1000, demoJson 1000 [9]), (1001, demoJson 1001 [8])],
               posted := [demoJson 1000 [9], demoJson 1001 [8]] }) ∧
    (∃ again, again.Perm [demoJson 1000 [9], demoJson 1001 [8]] ∧
      handleAll demoStrictFns backendFailsTwice () demoRegistry
          [(1000, demoFrame 1 [9]), (1001, demoFrame 1 [8]), (1002, demoFrame 1 [7])]
          Delivery.empty
        = some { backlog := [],
                 posted := [demoJson 1000 [9], demoJson 1001 [8], demoJson 1002 [7]] ++ again }) ∧
    handleData demoStrictFns backendFailsTwice () 1003 demoNaNFrame demoRegistry Delivery.empty
      = some { records := vibrationRecords (demoSensor 20000) 1003 50 [0x7FC00000] [2] [3],
               delivery := { backlog := [(1003, [])], posted := [] } } :=
  have h := backlog_flushed_after_two_failures demoStrictFns backendFailsTwice () demoRegistry
    1000 1001 1002 (demoFrame 1 [9]) (demoFrame 1 [8]) (demoFrame 1 [7])
    (demoBatch 1000 [9]) (demoBatch 1001 [8]) (demoBatch 1002 [7])
    (demoJson 1000 [9]) (demoJson 1001 [8]) (demoJson 1002 [7])
    (by rfl) (by rfl) (by rfl) (by rfl) (by rfl) (by rfl) (by decide) (by rfl) (by rfl)
    (by
      intro k hk
      refine ⟨0, ?_⟩
      unfold backendFailsTwice
      rw [if_neg (by omega)])
  ⟨h.1, h.2.1,
    h.2.2.1 1003 demoNaNFrame (vibrationRecords (demoSensor 20000) 1003 50 [0x7FC00000] [2] [3])
      Delivery.empty (by rfl) (by rfl)⟩

/-! ## Theorems: temperature decode -/

/-! ### Helper lemmas -/

theorem roundHalfEven_error (m : ℚ) : |(roundHalfEven m : ℚ) - m| ≤ 1 / 2 := by
  have h1 : ((⌊m⌋ : ℤ) : ℚ) ≤ m := Int.floor_le m
  have h2 : m < ((⌊m⌋ : ℤ) : ℚ) + 1 := Int.lt_floor_add_one m
  unfold roundHalfEven
  split_ifs with c1 c2 c3
  · rw [abs_le]; constructor <;> linarith
  · rw [abs_le]; push_cast; constructor <;> linarith
  · rw [abs_le]; constructor <;> linarith
  · rw [abs_le]; push_cast; constructor <;> linarith

/-- One rounding moves a value by at most the fraction 2⁻⁵³ of its size. -/
theorem roundFloat64_error (x : ℚ) : |roundFloat64 x - x| ≤ |x| / 2 ^ 53 := by
  unfold roundFloat64
  by_cases hx : x = 0
  · simp [hx]
  · rw [if_neg hx]
    have hpos : (0 : ℚ) < |x| := abs_pos.mpr hx
    have hlog : ((2 : ℕ) : ℚ) ^ Int.log 2 |x| ≤ |x| := Int.zpow_log_le_self (by norm_num) hpos
    have hu : (0 : ℚ) < 2 ^ (Int.log 2 |x| - 52) := zpow_pos (by norm_num) _
    have hue : (2 : ℚ) ^ (Int.log 2 |x| - 52) = 2 ^ Int.log 2 |x| / 2 ^ 52 := by
      rw [zpow_sub₀ (by norm_num)]
      norm_num
    have hr := roundHalfEven_error (x / 2 ^ (Int.log 2 |x| - 52))
    generalize (2 : ℚ) ^ (Int.log 2 |x| - 52) = u at hu hue hr ⊢
    have e : (roundHalfEven (x / u) : ℚ) * u - x
        = ((roundHalfEven (x / u) : ℚ) - x / u) * u := by
      field_simp
    rw [e, abs_mul, abs_of_pos hu]
    have h3 : |(roundHalfEven (x / u) : ℚ) - x / u| * u ≤ 1 / 2 * u :=
      mul_le_mul_of_nonneg_right hr (le_of_lt hu)
    have h4 : (1 : ℚ) / 2 * u ≤ |x| / 2 ^ 53 := by
      rw [hue]
      norm_num at hlog ⊢
      linarith
    linarith

/-- The computed resistance differs from `data × 1500 / 32767` by at most the
fraction 2⁻⁵¹ of it. -/
theorem rtdResistance_error (data : Nat) :
    |rtdResistance data - (data : ℚ) * 1500 / 32767| ≤ (data : ℚ) * 1500 / 32767 / 2 ^ 51 := by
  unfold rtdResistance
  have he : (data : ℚ) * 1500 / 32767 = (data : ℚ) / 32767 * 1500 := by ring
  rw [he]
  have ha : (0 : ℚ) ≤ (data : ℚ) / 32767 := by positivity
  have h1 := roundFloat64_error ((data : ℚ) / 32767)
  rw [abs_of_nonneg ha, abs_le] at h1
  generalize (data : ℚ) / 32767 = a at ha h1 ⊢
  generalize roundFloat64 a = q at h1 ⊢
  norm_num at h1
  have hq0 : 0 ≤ q := by linarith
  have h2 := roundFloat64_error (q * 1500)
  rw [abs_of_nonneg (by positivity : (0 : ℚ) ≤ q * 1500), abs_le] at h2
  generalize roundFloat64 (q * 1500) = r at h2 ⊢
  norm_num at h2 ⊢
  rw [abs_le]
  constructor <;> linarith

/-- The computed resistance is at least 1000 exactly for the codes from 21845 on, and
so is the exact one, which is never equal to 1000. -/
theorem rtdResistance_threshold (data : Nat) (hd : data < 65536) :
    (rtdResistance data ≥ 1000 ↔ 21845 ≤ data) ∧
    ((data : ℚ) * 1500 / 32767 ≥ 1000 ↔ 21845 ≤ data) ∧
    (data : ℚ) * 1500 / 32767 ≠ 1000 := by
  have herr := rtdResistance_error data
  rw [abs_le] at herr
  generalize rtdResistance data = r at herr ⊢
  have hdq : (data : ℚ) < 65536 := by exact_mod_cast hd
  have hd0 : (0 : ℚ) ≤ data := by positivity
  norm_num at herr
  by_cases h : 21845 ≤ data
  · have hq : (21845 : ℚ) ≤ data := by exact_mod_cast h
    refine ⟨⟨fun _ => h, fun _ => ?_⟩, ⟨fun _ => h, fun _ => ?_⟩, ?_⟩
    · linarith
    · rw [ge_iff_le, le_div_iff₀ (by norm_num)]; linarith
    · intro hc
      rw [div_eq_iff (by norm_num)] at hc
      linarith
  · have hq : (data : ℚ) ≤ 21844 := by
      have : data ≤ 21844 := by omega
      exact_mod_cast this
    refine ⟨⟨fun hc => ?_, fun hc => absurd hc h⟩, ⟨fun hc => ?_, fun hc => absurd hc h⟩, ?_⟩
    · exfalso; linarith
    · exfalso
      rw [ge_iff_le, le_div_iff₀ (by norm_num)] at hc; linarith
    · intro hc
      rw [div_eq_iff (by norm_num)] at hc
      linarith

/-! ### Claims -/

/-- C18. For every 16-bit ADC code: the resistance `parseTemperatureData` computes
is `code × 1500 / 32767` up to the rounding of two `float64` operations (a
fraction of at most 2⁻⁵¹); the full Callendar-Van Dusen branch is taken exactly
when `code × 1500 / 32767` is at least 1000, and the approximation branch
otherwise. The first code that takes the full branch is 21845 and the code one
unit below it, 21844, takes the approximation; no code has a resistance of
exactly 1000. -/
theorem parseTemperatureData_branch (data : Nat) (hd : data < 65536) :
    |rtdResistance data - (data : ℚ) * 1500 / 32767|
      ≤ (data : ℚ) * 1500 / 32767 / 2 ^ 51 ∧
    (parseTemperatureDataBranch data = .callendarVanDusen ↔
      (data : ℚ) * 1500 / 32767 ≥ 1000) ∧
    (parseTemperatureDataBranch data = .approximation ↔
      (data : ℚ) * 1500 / 32767 < 1000) ∧
    (parseTemperatureDataBranch data = .callendarVanDusen ↔ 21845 ≤ data) ∧
    (parseTemperatureDataBranch data = .approximation ↔ data ≤ 21844) ∧
    (data : ℚ) * 1500 / 32767 ≠ 1000 := by
  obtain ⟨h1, h2, h3⟩ := rtdResistance_threshold data hd
  have hfull : parseTemperatureDataBranch data = .callendarVanDusen ↔ 21845 ≤ data := by
    unfold parseTemperatureDataBranch
    constructor
    · intro h
      by_contra hc
      rw [if_neg (fun hr => hc (h1.mp hr))] at h
      cases h
    · intro h
      rw [if_pos (h1.mpr h)]
  have happrox : parseTemperatureDataBranch data = .approximation ↔ data ≤ 21844 := by
    unfold parseTemperatureDataBranch
    constructor
    · intro h
      by_contra hc
      rw [if_pos (h1.mpr (by omega))] at h
      cases h
    · intro h
      rw [if_neg (fun hr => by have := h1.mp hr; omega)]
  refine ⟨rtdResistance_error data, hfull.trans h2.symm, ?_, hfull, happrox, h3⟩
  rw [happrox, ← not_le]
  constructor
  · intro h hc
    have := h2.mp hc
    omega
  · intro h
    by_contra hc
    exact h (h2.mpr (by omega))

/-- Witness for C18: the codes 21845 and 21844. -/
theorem parseTemperatureData_branch_witness :
    parseTemperatureDataBranch 21845 = .callendarVanDusen ∧
    parseTemperatureDataBranch 21844 = .approximation :=
  ⟨(parseTemperatureData_branch 21845 (by decide)).2.2.2.1.mpr (by decide),
   (parseTemperatureData_branch 21844 (by decide)).2.2.2.2.1.mpr (by decide)⟩

end SsMachMos
